import Mathlib

/-!
Commerce ledger and subscriptions: a shallow embedding of the sale, payment and client
handlers and of the subscription service.

The handlers of `controllers/vente.controller.js`, `controllers/client.controller.js`
and `controllers/ai.controller.js` are embedded as pure functions from a database
state and a request to a response and a new database state; the functions of
`services/subscription.service.js` are embedded as pure functions from the subscription
table and the current instant to a result and a new table.

Modelling conventions:

* JavaScript numbers are `JsNum`: a finite value is an exact rational; rounding and
  overflow of IEEE doubles are not modelled.
* Request fields read with JavaScript coercions (`!montant`, `montant <= 0`,
  `parseFloat(montant)`) are `JsVal`: the primitive JSON values.  Arrays and objects
  are left out.
* Each `await prisma.…` call is a storage primitive that either returns a new
  database state or throws; a throw inside a handler's `try` gives the 500 response
  and keeps whatever earlier primitives already wrote.
-/

namespace Commerce

/-! ## JavaScript numbers and values -/

/-- A JavaScript number; finite values are kept exact. -/
inductive JsNum where
  | nan
  | negInf
  | fin (q : ℚ)
  | posInf
  deriving DecidableEq

namespace JsNum

/-- The JavaScript comparison `a <= b` on numbers (false as soon as one side is NaN). -/
def le : JsNum → JsNum → Bool
  | nan, _ => false
  | _, nan => false
  | negInf, _ => true
  | _, posInf => true
  | fin a, fin b => decide (a ≤ b)
  | fin _, negInf => false
  | posInf, fin _ => false
  | posInf, negInf => false

/-- The JavaScript comparison `a > b` on numbers (false as soon as one side is NaN). -/
def gt : JsNum → JsNum → Bool
  | nan, _ => false
  | _, nan => false
  | negInf, _ => false
  | _, posInf => false
  | fin a, fin b => decide (b < a)
  | fin _, negInf => true
  | posInf, fin _ => true
  | posInf, negInf => true

/-- Unary minus. -/
def neg : JsNum → JsNum
  | nan => nan
  | negInf => posInf
  | fin q => fin (-q)
  | posInf => negInf

end JsNum

/-- The primitive values a JSON or form-encoded request field can hold. -/
inductive JsVal where
  | undefined
  | null
  | bool (b : Bool)
  | num (n : JsNum)
  | str (s : String)
  deriving DecidableEq

/-- The characters `StringToNumber` and `parseFloat` strip: WhiteSpace and LineTerminator. -/
def isStrWhiteSpace (c : Char) : Bool :=
  let n := c.toNat
  n == 9 || n == 10 || n == 11 || n == 12 || n == 13 || n == 32 || n == 160
    || n == 0x1680 || (0x2000 ≤ n && n ≤ 0x200A) || n == 0x2028 || n == 0x2029
    || n == 0x202F || n == 0x205F || n == 0x3000 || n == 0xFEFF

/-- Value of a run of decimal digits, most significant first. -/
def digitsVal (ds : List Char) : Nat :=
  ds.foldl (fun acc c => 10 * acc + (c.toNat - 48)) 0

/-- Value of one digit of a hexadecimal, octal or binary literal (letters count from ten,
either case; 36 for any other character). -/
def radixDigit (c : Char) : Nat :=
  if c.isDigit then c.toNat - 48
  else if 'a'.toNat ≤ c.toNat ∧ c.toNat ≤ 'z'.toNat then c.toNat - 87
  else if 'A'.toNat ≤ c.toNat ∧ c.toNat ≤ 'Z'.toNat then c.toNat - 55
  else 36

/-- Value of a run of radix-`r` digits, most significant first. -/
def radixVal (r : Nat) (ds : List Char) : Nat :=
  ds.foldl (fun acc c => r * acc + radixDigit c) 0

/-- What the scanner reads: an `Infinity` literal, or a decimal literal as its sign, the
natural number its digits spell and the power of ten its fraction and exponent give. -/
inductive Literal where
  | infinity (negative : Bool)
  | decimal (negative : Bool) (digits : Nat) (exponent : Int)
  deriving DecidableEq

namespace Literal

/-- The number a literal denotes. -/
def toNum : Literal → JsNum
  | infinity false => JsNum.posInf
  | infinity true => JsNum.negInf
  | decimal false m e => JsNum.fin ((m : ℚ) * (10 : ℚ) ^ e)
  | decimal true m e => JsNum.fin (-((m : ℚ) * (10 : ℚ) ^ e))

/-- The literal with a leading minus sign. -/
def negate : Literal → Literal
  | infinity _ => infinity true
  | decimal _ m e => decimal true m e

end Literal

/-- The unsigned decimal literal with integer digits `ip`, fraction digits `fp` and
exponent `e`. -/
def mkDecimal (ip fp : List Char) (e : Int) : Literal :=
  Literal.decimal false (digitsVal (ip ++ fp)) (e - (fp.length : Int))

/-- An optional ExponentPart at the head of the input: its value and the rest.
Nothing is consumed unless at least one digit follows the `e` and the sign. -/
def scanExponent (cs : List Char) : Int × List Char :=
  match cs with
  | [] => (0, [])
  | c :: rest =>
    if c = 'e' ∨ c = 'E' then
      match rest with
      | '+' :: r =>
        if (r.takeWhile Char.isDigit).isEmpty then (0, cs)
        else ((digitsVal (r.takeWhile Char.isDigit) : Int), r.dropWhile Char.isDigit)
      | '-' :: r =>
        if (r.takeWhile Char.isDigit).isEmpty then (0, cs)
        else (-(digitsVal (r.takeWhile Char.isDigit) : Int), r.dropWhile Char.isDigit)
      | r =>
        if (r.takeWhile Char.isDigit).isEmpty then (0, cs)
        else ((digitsVal (r.takeWhile Char.isDigit) : Int), r.dropWhile Char.isDigit)
    else (0, cs)

/-- The longest StrUnsignedDecimalLiteral at the head of the input, with the rest. -/
def scanUnsigned (cs : List Char) : Option (Literal × List Char) :=
  if "Infinity".toList.isPrefixOf cs then some (Literal.infinity false, cs.drop 8)
  else
    let ip := cs.takeWhile Char.isDigit
    match cs.dropWhile Char.isDigit with
    | '.' :: r2 =>
      let fp := r2.takeWhile Char.isDigit
      if ip.isEmpty && fp.isEmpty then none
      else
        let er := scanExponent (r2.dropWhile Char.isDigit)
        some (mkDecimal ip fp er.1, er.2)
    | r1 =>
      if ip.isEmpty then none
      else
        let er := scanExponent r1
        some (mkDecimal ip [] er.1, er.2)

/-- The longest StrDecimalLiteral (optional sign) at the head of the input, with the rest. -/
def scanDecimal (cs : List Char) : Option (Literal × List Char) :=
  match cs with
  | '+' :: r => scanUnsigned r
  | '-' :: r => (scanUnsigned r).map (fun p => (p.1.negate, p.2))
  | _ => scanUnsigned cs

/-- A whole-string `0x`, `0o` or `0b` literal. -/
def nonDecimalLiteral (cs : List Char) : Option Nat :=
  match cs with
  | '0' :: p :: ds =>
    let r : Nat :=
      if p = 'x' ∨ p = 'X' then 16
      else if p = 'o' ∨ p = 'O' then 8
      else if p = 'b' ∨ p = 'B' then 2
      else 0
    if r ≠ 0 ∧ !ds.isEmpty ∧ ds.all (fun c => decide (radixDigit c < r)) then some (radixVal r ds)
    else none
  | _ => none

/-- The string with the white space at both ends removed. -/
def trimWhiteSpace (s : String) : List Char :=
  ((s.toList.dropWhile isStrWhiteSpace).reverse.dropWhile isStrWhiteSpace).reverse

/-- What `Number(s)` reads in a string: nothing (the empty string), a `0x`/`0o`/`0b`
literal, a decimal literal that spans the whole string, or no number. -/
inductive NumberReading where
  | empty
  | radix (n : Nat)
  | literal (l : Literal)
  | notANumber
  deriving DecidableEq

/-- The reading step of StringToNumber. -/
def readNumber (s : String) : NumberReading :=
  if (trimWhiteSpace s).isEmpty then NumberReading.empty
  else
    match nonDecimalLiteral (trimWhiteSpace s) with
    | some n => NumberReading.radix n
    | none =>
      match scanDecimal (trimWhiteSpace s) with
      | some (l, []) => NumberReading.literal l
      | _ => NumberReading.notANumber

/-- `Number(s)` for a string: the StringToNumber conversion. -/
def stringToNumber (s : String) : JsNum :=
  match readNumber s with
  | NumberReading.empty => JsNum.fin 0
  | NumberReading.radix n => JsNum.fin n
  | NumberReading.literal l => l.toNum
  | NumberReading.notANumber => JsNum.nan

/-- The reading step of `parseFloat`: the longest decimal literal after leading white
space. -/
def readFloat (s : String) : Option Literal :=
  (scanDecimal (s.toList.dropWhile isStrWhiteSpace)).map Prod.fst

/-- `parseFloat(s)` for a string: the longest decimal prefix after leading white space. -/
def parseFloatString (s : String) : JsNum :=
  match readFloat s with
  | some l => l.toNum
  | none => JsNum.nan

namespace JsVal

/-- ToBoolean: `!v` is the negation of this. -/
def truthy : JsVal → Bool
  | undefined => false
  | null => false
  | bool b => b
  | num JsNum.nan => false
  | num (JsNum.fin q) => decide (q ≠ 0)
  | num _ => true
  | str s => decide (s ≠ "")

/-- ToNumber. -/
def toNumber : JsVal → JsNum
  | undefined => JsNum.nan
  | null => JsNum.fin 0
  | bool b => JsNum.fin (if b then 1 else 0)
  | num n => n
  | str s => stringToNumber s

/-- The comparison `v <= 0` of a value with the number literal zero. -/
def leZero (v : JsVal) : Bool :=
  v.toNumber.le (JsNum.fin 0)

end JsVal

/-- The global `parseFloat(v)`: `v` is converted to a string and its decimal prefix is read.
A number prints as a decimal literal that reads back as itself. -/
def parseFloat : JsVal → JsNum
  | JsVal.undefined => JsNum.nan
  | JsVal.null => JsNum.nan
  | JsVal.bool _ => JsNum.nan
  | JsVal.num n => n
  | JsVal.str s => parseFloatString s

/-! ## Stored rows and the database -/

/-- Identifier of a merchant account (`req.userId`); identifiers are kept abstract as naturals. -/
abbrev UserId := Nat
/-- Identifier of a client row. -/
abbrev ClientId := Nat
/-- Identifier of a sale row. -/
abbrev VenteId := Nat
/-- Identifier of a payment row. -/
abbrev PaiementId := Nat

/-- A row of the `client` table. -/
structure Client where
  id : ClientId
  nom : String
  telephone : Option String
  adresse : Option String
  totalCredit : ℚ
  userId : UserId
  deriving DecidableEq

/-- A row of the `vente` table. -/
structure Vente where
  id : VenteId
  montant : ℚ
  modePaiement : String
  nomClient : Option String
  notes : Option String
  userId : UserId
  clientId : Option ClientId
  deriving DecidableEq

/-- A row of the `paiement` table. -/
structure Paiement where
  id : PaiementId
  montant : ℚ
  notes : Option String
  clientId : ClientId
  deriving DecidableEq

/-- The three tables the ledger handlers touch, each in storage order. -/
structure Db where
  clients : List Client
  ventes : List Vente
  paiements : List Paiement
  deriving DecidableEq

/-- The JSON answer of a handler: HTTP status, its `message` or `error` text, and the rows
it returns. -/
structure Response where
  status : Nat
  text : String
  vente : Option Vente
  paiement : Option Paiement
  client : Option Client
  deriving DecidableEq

/-- An answer that carries only a status and a text. -/
def Response.plain (status : Nat) (text : String) : Response :=
  Response.mk status text none none none

/-- The expression `s || null` on an optional string: the empty string is falsy. -/
def orNull (s : Option String) : Option String :=
  s.filter (fun x => decide (x ≠ ""))

/-- An identifier no row of the list uses: it stands for the id the storage generates for
a new row. -/
def freshId (ids : List Nat) : Nat :=
  ids.foldr max 0 + 1

/-! ## Storage primitives -/

/-- The balance of the client with the given id, if there is one. -/
def Db.totalCredit (db : Db) (id : ClientId) : Option ℚ :=
  (db.clients.find? (fun c => decide (c.id = id))).map Client.totalCredit

/-- The call `prisma.client.findFirst` with `where: { id, userId }`. -/
def clientFindFirst (db : Db) (id : ClientId) (userId : UserId) : Option Client :=
  db.clients.find? (fun c => decide (c.id = id) && decide (c.userId = userId))

/-- The call `prisma.client.findUnique` with `where: { id }`. -/
def clientFindUnique (db : Db) (id : ClientId) : Option Client :=
  db.clients.find? (fun c => decide (c.id = id))

/-- The call `prisma.vente.findFirst` with `where: { id, userId }`. -/
def venteFindFirst (db : Db) (id : VenteId) (userId : UserId) : Option Vente :=
  db.ventes.find? (fun v => decide (v.id = id) && decide (v.userId = userId))

/-- Modelled from the spec: the Prisma schema (`schema.prisma`) is not among the sources;
the spec gives a sale an optional reference to its owning client, and the handlers read the
relation `client`, so the column `clientId` is taken to be a foreign key.  The call
`prisma.vente.create` appends a sale row with a new id; it throws (`none`) when the amount
is not a finite number, or when `clientId` names no client row. -/
def venteCreate (db : Db) (montant : JsNum) (modePaiement : String)
    (nomClient notes : Option String) (userId : UserId) (clientId : Option ClientId) :
    Option (Vente × Db) :=
  match montant with
  | JsNum.fin m =>
    let ok : Bool :=
      match clientId with
      | none => true
      | some c => db.clients.any (fun x => decide (x.id = c))
    if ok then
      let v : Vente :=
        Vente.mk (freshId (db.ventes.map Vente.id)) m modePaiement nomClient notes userId clientId
      some (v, Db.mk db.clients (db.ventes ++ [v]) db.paiements)
    else none
  | _ => none

/-- Modelled from the spec: the Prisma schema is not among the sources; by the spec a
payment is owned by exactly one client, so `clientId` is taken to be a foreign key.  The
call `prisma.paiement.create` appends a payment row with a new id; it throws (`none`) when
the amount is not a finite number or `clientId` names no client row. -/
def paiementCreate (db : Db) (montant : JsNum) (notes : Option String) (clientId : ClientId) :
    Option (Paiement × Db) :=
  match montant with
  | JsNum.fin m =>
    if db.clients.any (fun x => decide (x.id = clientId)) then
      let p : Paiement := Paiement.mk (freshId (db.paiements.map Paiement.id)) m notes clientId
      some (p, Db.mk db.clients db.ventes (db.paiements ++ [p]))
    else none
  | _ => none

/-- The client row with `delta` added to its balance. -/
def Client.addCredit (c : Client) (delta : ℚ) : Client :=
  Client.mk c.id c.nom c.telephone c.adresse (c.totalCredit + delta) c.userId

/-- Adds `delta` to the balance of every client row with the given id. -/
def bumpCredit (id : ClientId) (delta : ℚ) (cs : List Client) : List Client :=
  cs.map (fun c => if c.id = id then c.addCredit delta else c)

/-- The call `prisma.client.update` with `where: { id }` and `totalCredit: { increment }`.
It throws (`none`) when no client row has the id or the increment is not finite. -/
def clientIncrement (db : Db) (id : ClientId) (by_ : JsNum) : Option Db :=
  match by_ with
  | JsNum.fin m =>
    if db.clients.any (fun x => decide (x.id = id)) then
      some (Db.mk (bumpCredit id m db.clients) db.ventes db.paiements)
    else none
  | _ => none

/-- The call `prisma.client.update` with `where: { id }` and `totalCredit: { decrement }`. -/
def clientDecrement (db : Db) (id : ClientId) (by_ : JsNum) : Option Db :=
  clientIncrement db id by_.neg

/-- The call `prisma.vente.delete` with `where: { id }`; throws (`none`) when no row has
the id. -/
def venteDelete (db : Db) (id : VenteId) : Option Db :=
  if db.ventes.any (fun v => decide (v.id = id)) then
    some (Db.mk db.clients (db.ventes.filter (fun v => decide (v.id ≠ id))) db.paiements)
  else none

/-- Modelled from the spec: the Prisma schema, which fixes what happens to the sales and
payments of a deleted client, is not among the sources.  Following the spec
("removes the client"; the retention of the history is left to storage) the call
`prisma.client.delete` with `where: { id }` removes the client row and keeps the
history rows; it throws (`none`) when no row has the id. -/
def clientDelete (db : Db) (id : ClientId) : Option Db :=
  if db.clients.any (fun c => decide (c.id = id)) then
    some (Db.mk (db.clients.filter (fun c => decide (c.id ≠ id))) db.ventes db.paiements)
  else none

/-! ## Sale handlers (`controllers/vente.controller.js`) -/

/-- The fields `createVente` reads from `req.body`. -/
structure VenteBody where
  montant : JsVal
  modePaiement : Option String
  nomClient : Option String
  notes : Option String
  clientId : Option ClientId
  deriving DecidableEq

/-- The 500 answer of a handler's `catch` block. -/
def serverError (text : String) : Response :=
  Response.plain 500 text

/-- The handler `createVente`: validation, insertion of the sale row, and the increment of
the client's balance when the mode is credit and a client id is given. -/
def createVente (db : Db) (userId : UserId) (body : VenteBody) : Response × Db :=
  if !body.montant.truthy || body.montant.leZero then
    (Response.plain 400 "Le montant doit être supérieur à 0", db)
  else
    match body.modePaiement with
    | none => (Response.plain 400 "Mode de paiement invalide (cash ou credit)", db)
    | some mode =>
      if !(mode == "cash" || mode == "credit") then
        (Response.plain 400 "Mode de paiement invalide (cash ou credit)", db)
      else
        match venteCreate db (parseFloat body.montant) mode (orNull body.nomClient)
            (orNull body.notes) userId body.clientId with
        | none => (serverError "Erreur lors de l'enregistrement de la vente", db)
        | some (vente, db1) =>
          match (if mode == "credit" then body.clientId else none) with
          | some cid =>
            match clientIncrement db1 cid (parseFloat body.montant) with
            | none => (serverError "Erreur lors de l'enregistrement de la vente", db1)
            | some db2 => (Response.mk 201 "Vente enregistrée" (some vente) none none, db2)
          | none => (Response.mk 201 "Vente enregistrée" (some vente) none none, db1)

/-- The handler `deleteVente`: the sale must belong to the caller; a credit sale with a
client id first decrements that client's balance by the sale's amount; then the row is
deleted. -/
def deleteVente (db : Db) (userId : UserId) (id : VenteId) : Response × Db :=
  match venteFindFirst db id userId with
  | none => (Response.plain 404 "Vente non trouvée", db)
  | some vente =>
    let step1 : Option Db :=
      match (if vente.modePaiement == "credit" then vente.clientId else none) with
      | some cid => clientDecrement db cid (JsNum.fin vente.montant)
      | none => some db
    match step1 with
    | none => (serverError "Erreur lors de la suppression de la vente", db)
    | some db1 =>
      match venteDelete db1 id with
      | none => (serverError "Erreur lors de la suppression de la vente", db1)
      | some db2 => (Response.plain 200 "Vente supprimée", db2)

/-! ## Client handlers (`controllers/client.controller.js`) -/

/-- The fields `createPaiement` reads from `req.body`. -/
structure PaiementBody where
  clientId : Option ClientId
  montant : JsVal
  notes : Option String
  deriving DecidableEq

/-- The handler `createPaiement`: validation, ownership check, overpayment check, insertion
of the payment row, decrement of the balance, and the re-read of the client. -/
def createPaiement (db : Db) (userId : UserId) (body : PaiementBody) : Response × Db :=
  match body.clientId with
  | none => (Response.plain 400 "Client et montant valide requis", db)
  | some cid =>
    if !body.montant.truthy || body.montant.leZero then
      (Response.plain 400 "Client et montant valide requis", db)
    else
      match clientFindFirst db cid userId with
      | none => (Response.plain 404 "Client non trouvé", db)
      | some client =>
        if (parseFloat body.montant).gt (JsNum.fin client.totalCredit) then
          (Response.plain 400 "Le montant dépasse le crédit du client", db)
        else
          match paiementCreate db (parseFloat body.montant) (orNull body.notes) cid with
          | none => (serverError "Erreur lors de l'enregistrement du paiement", db)
          | some (paiement, db1) =>
            match clientDecrement db1 cid (parseFloat body.montant) with
            | none => (serverError "Erreur lors de l'enregistrement du paiement", db1)
            | some db2 =>
              (Response.mk 201 "Paiement enregistré" none (some paiement)
                (clientFindUnique db2 cid), db2)

/-- The handler `deleteClient`: the client must belong to the caller and must have no
outstanding credit (`totalCredit > 0` is refused). -/
def deleteClient (db : Db) (userId : UserId) (id : ClientId) : Response × Db :=
  match clientFindFirst db id userId with
  | none => (Response.plain 404 "Client non trouvé", db)
  | some client =>
    if client.totalCredit > 0 then
      (Response.plain 400 "Impossible de supprimer un client avec un crédit en cours", db)
    else
      match clientDelete db id with
      | none => (serverError "Erreur lors de la suppression du client", db)
      | some db1 => (Response.plain 200 "Client supprimé", db1)

/-! ## Command path (`controllers/ai.controller.js`) -/

/-- The object the command interpreter returns, with the fields the handlers read. -/
structure ParsedCommand where
  type : Option String
  montant : JsVal
  modePaiement : Option String
  nomClient : Option String
  notes : Option String
  motif : Option String
  categorie : Option String
  nom : Option String
  telephone : Option String
  adresse : Option String
  message : Option String
  deriving DecidableEq

/-- Whether `needle` occurs as a contiguous run inside `hay`. -/
def isInfixOf (needle : List Char) : List Char → Bool
  | [] => needle.isEmpty
  | h :: t => needle.isPrefixOf (h :: t) || isInfixOf needle t

/-- The filter `nom: { contains: needle, mode: 'insensitive' }`: both sides are compared in
lower case. -/
def containsInsensitive (nom needle : String) : Bool :=
  isInfixOf (needle.toList.map Char.toLower) (nom.toList.map Char.toLower)

/-- The call `prisma.client.findFirst` with `where: { userId, nom: { contains, mode } }`:
the first matching client in storage order. -/
def clientFindByName (db : Db) (userId : UserId) (needle : String) : Option Client :=
  db.clients.find? (fun c => decide (c.userId = userId) && containsInsensitive c.nom needle)

/-- What a command handler throws: its own `Error` with a text, or a storage failure. -/
inductive Thrown where
  | error (text : String)
  | storage
  deriving DecidableEq

/-- The template of the success message of `handleVente`, with the values of its holes. -/
inductive VenteMessage where
  | credit (montant : JsVal) (nomClient : Option String)
  | cash (montant : JsVal)
  deriving DecidableEq

/-- The object `handleVente` returns: its message and the created sale (`data`). -/
structure VenteResult where
  message : VenteMessage
  data : Vente
  deriving DecidableEq

/-- The text of the error `handleVente` throws when the named client is not found. -/
def clientNotFoundText (nomClient : String) : String :=
  "Le client \"" ++ nomClient ++ "\" n'existe pas dans votre base. " ++
    "Créez-le d'abord avec la commande : \"Créer un nouveau client " ++ nomClient ++ "\""

/-- The function `handleVente`: a credit sale with a client name first resolves the client
by name inside the caller's account and throws when there is none; then the sale row is
inserted and the balance of the resolved client of a credit sale is incremented.  A
missing `modePaiement` makes the insertion throw. -/
def handleVente (db : Db) (parsed : ParsedCommand) (userId : UserId) :
    Except Thrown VenteResult × Db :=
  let lookup : Except Thrown (Option ClientId) :=
    if parsed.modePaiement == some "credit" && (orNull parsed.nomClient).isSome then
      match clientFindByName db userId (parsed.nomClient.getD "") with
      | none => Except.error (Thrown.error (clientNotFoundText (parsed.nomClient.getD "")))
      | some client => Except.ok (some client.id)
    else Except.ok none
  match lookup with
  | Except.error e => (Except.error e, db)
  | Except.ok clientId =>
    match parsed.modePaiement with
    | none => (Except.error Thrown.storage, db)
    | some mode =>
      let message : VenteMessage :=
        if mode == "credit" then VenteMessage.credit parsed.montant parsed.nomClient
        else VenteMessage.cash parsed.montant
      match venteCreate db (parseFloat parsed.montant) mode (orNull parsed.nomClient)
          (orNull parsed.notes) userId clientId with
      | none => (Except.error Thrown.storage, db)
      | some (vente, db1) =>
        match (if mode == "credit" then clientId else none) with
        | some cid =>
          match clientIncrement db1 cid (parseFloat parsed.montant) with
          | none => (Except.error Thrown.storage, db1)
          | some db2 => (Except.ok (VenteResult.mk message vente), db2)
        | none => (Except.ok (VenteResult.mk message vente), db1)

/-! ## Replaying the history of one client -/

/-- One request of a client's history: a credit sale to the client (`createVente` with mode
credit and the client's id) or a payment by the client (`createPaiement`), with the issuing
account and the request fields. -/
inductive LedgerOp where
  | sale (userId : UserId) (montant : JsVal) (nomClient notes : Option String)
  | payment (userId : UserId) (montant : JsVal) (notes : Option String)
  deriving DecidableEq

/-- The handler call a history request makes on client `cid`. -/
def LedgerOp.run (cid : ClientId) (db : Db) : LedgerOp → Response × Db
  | LedgerOp.sale u m n nt => createVente db u (VenteBody.mk m (some "credit") n nt (some cid))
  | LedgerOp.payment u m nt => createPaiement db u (PaiementBody.mk (some cid) m nt)

/-- The raw amount of a history request. -/
def LedgerOp.montant : LedgerOp → JsVal
  | LedgerOp.sale _ m _ _ => m
  | LedgerOp.payment _ m _ => m

/-- The amount of the sale an answer reports as created (0 when it reports none). -/
def Response.saleAmount (r : Response) : ℚ :=
  if r.status = 201 then (r.vente.map Vente.montant).getD 0 else 0

/-- The amount of the payment an answer reports as created (0 when it reports none). -/
def Response.paymentAmount (r : Response) : ℚ :=
  if r.status = 201 then (r.paiement.map Paiement.montant).getD 0 else 0

/-- The database after the requests have been handled in order. -/
def replay (cid : ClientId) (db : Db) : List LedgerOp → Db
  | [] => db
  | op :: ops => replay cid (op.run cid db).2 ops

/-- The sum of the amounts of the accepted credit sales of a history. -/
def acceptedSales (cid : ClientId) (db : Db) : List LedgerOp → ℚ
  | [] => 0
  | op :: ops => (op.run cid db).1.saleAmount + acceptedSales cid (op.run cid db).2 ops

/-- The sum of the amounts of the accepted payments of a history. -/
def acceptedPayments (cid : ClientId) (db : Db) : List LedgerOp → ℚ
  | [] => 0
  | op :: ops => (op.run cid db).1.paymentAmount + acceptedPayments cid (op.run cid db).2 ops

/-! ## Subscriptions (`services/subscription.service.js`)

Instants are JavaScript time values: integer milliseconds.  The clock read by `new Date()`
is the argument `now` of each operation. -/

/-- An entry of the catalog `PLANS` (`popular` is false where the source leaves it out). -/
structure Plan where
  name : String
  amount : ℚ
  durationDays : Nat
  description : String
  savings : Option ℚ
  popular : Bool
  deriving DecidableEq

/-- The own properties of the object `PLANS`. -/
def PLANS (key : String) : Option Plan :=
  if key = "monthly" then some (Plan.mk "Mensuel" 2000 30 "1 mois d'accès" none false)
  else if key = "quarterly" then
    some (Plan.mk "Trimestriel" 5000 90 "3 mois d'accès" (some 1000) false)
  else if key = "semesterly" then
    some (Plan.mk "Semestriel" 10000 180 "6 mois d'accès" (some 2000) false)
  else if key = "yearly" then some (Plan.mk "Annuel" 20000 365 "1 an d'accès" (some 4000) true)
  else none

/-- The names every object literal inherits from `Object.prototype`: `PLANS[key]` finds a
function (an object for `__proto__`) under each of them. -/
def objectPrototypeKeys : List String :=
  ["constructor", "__defineGetter__", "__defineSetter__", "hasOwnProperty",
    "__lookupGetter__", "__lookupSetter__", "isPrototypeOf", "propertyIsEnumerable",
    "toString", "valueOf", "__proto__", "toLocaleString"]

/-- The value of the expression `PLANS[key]` when it is not `undefined`: a catalog entry, or
the member of `Object.prototype` of that name. -/
inductive PlanProperty where
  | own (p : Plan)
  | inherited (key : String)
  deriving DecidableEq

/-- The expression `PLANS[key]` (`none` is `undefined`). -/
def planProperty (key : String) : Option PlanProperty :=
  match PLANS key with
  | some p => some (PlanProperty.own p)
  | none => if key ∈ objectPrototypeKeys then some (PlanProperty.inherited key) else none

namespace PlanProperty

/-- The property `.name`: the catalog name; for an inherited function its own name
(`Object` for `constructor`), and nothing for the object under `__proto__`. -/
def name : PlanProperty → Option String
  | own p => some p.name
  | inherited k =>
    if k = "constructor" then some "Object" else if k = "__proto__" then none else some k

/-- The property `.amount` (`none` is `undefined`). -/
def amount : PlanProperty → Option ℚ
  | own p => some p.amount
  | inherited _ => none

/-- The property `.durationDays` (`none` is `undefined`). -/
def durationDays : PlanProperty → Option Nat
  | own p => some p.durationDays
  | inherited _ => none

end PlanProperty

/-- An argument that ends in a nullable text column: `undefined` (the column is left as it
is by an update), `null`, or a string. -/
inductive Arg where
  | undefined
  | null
  | str (s : String)
  deriving DecidableEq

namespace Arg

/-- The argument as a property key or inside a template string. -/
def key : Arg → String
  | undefined => "undefined"
  | null => "null"
  | str s => s

/-- The column after an update that writes the argument. -/
def write : Arg → Option String → Option String
  | undefined, old => old
  | null, _ => none
  | str s, _ => some s

end Arg

/-- A row of the `subscription` table. -/
structure Subscription where
  id : Nat
  userId : UserId
  status : String
  trialStartDate : Int
  trialEndDate : Int
  plan : Option String
  amount : Option ℚ
  currentPeriodStart : Option Int
  currentPeriodEnd : Option Int
  paymentMethod : Option String
  transactionId : Option String
  lastPaymentDate : Option Int
  lastPaymentAmount : Option ℚ
  deriving DecidableEq

/-- The `subscription` table, in storage order. -/
abbrev Subscriptions := List Subscription

/-- The call `prisma.subscription.findUnique` with `where: { userId }`. -/
def subscriptionFindUnique (subs : Subscriptions) (userId : UserId) : Option Subscription :=
  subs.find? (fun s => decide (s.userId = userId))

/-- The row with its status replaced. -/
def Subscription.withStatus (s : Subscription) (status : String) : Subscription :=
  Subscription.mk s.id s.userId status s.trialStartDate s.trialEndDate s.plan s.amount
    s.currentPeriodStart s.currentPeriodEnd s.paymentMethod s.transactionId s.lastPaymentDate
    s.lastPaymentAmount

/-- The call `prisma.subscription.update` with `where: { id }` and `data: { status }`; it
throws (`none`) when no row has the id. -/
def subscriptionUpdateStatus (subs : Subscriptions) (id : Nat) (status : String) :
    Option Subscriptions :=
  if subs.any (fun s => decide (s.id = id)) then
    some (subs.map (fun s => if s.id = id then s.withStatus status else s))
  else none

/-- The `data` of the update `activateSubscription` issues.  An `undefined` amount leaves
the column as it is; `currentPeriodEnd` is `none` when the date object is invalid. -/
structure ActivationData where
  status : String
  plan : String
  amount : Option ℚ
  currentPeriodStart : Int
  currentPeriodEnd : Option Int
  paymentMethod : Arg
  transactionId : Arg
  lastPaymentDate : Int
  lastPaymentAmount : Option ℚ
  deriving DecidableEq

/-- The row after the update with the given `data`, for a valid `currentPeriodEnd`. -/
def Subscription.activated (s : Subscription) (d : ActivationData) (periodEnd : Int) :
    Subscription :=
  Subscription.mk s.id s.userId d.status s.trialStartDate s.trialEndDate (some d.plan)
    (match d.amount with
      | some a => some a
      | none => s.amount)
    (some d.currentPeriodStart) (some periodEnd) (d.paymentMethod.write s.paymentMethod)
    (d.transactionId.write s.transactionId) (some d.lastPaymentDate)
    (match d.lastPaymentAmount with
      | some a => some a
      | none => s.lastPaymentAmount)

/-- The call `prisma.subscription.update` with `where: { userId }` and the activation data:
it returns the updated row.  It throws (`none`) when a date of the data is invalid or when
no row has the user id. -/
def subscriptionUpdateByUser (subs : Subscriptions) (userId : UserId) (d : ActivationData) :
    Option (Subscription × Subscriptions) :=
  match d.currentPeriodEnd with
  | none => none
  | some periodEnd =>
    match subscriptionFindUnique subs userId with
    | none => none
    | some s =>
      some (s.activated d periodEnd,
        subs.map (fun r => if r.userId = userId then r.activated d periodEnd else r))

/-- The call `prisma.subscription.create` of `createTrialSubscription`: a new row with the
given trial window and every other column empty.  The column `userId` is unique (the table
is read with `findUnique` on it), so the call throws (`none`) when the account already has
a row. -/
def subscriptionCreateTrial (subs : Subscriptions) (userId : UserId)
    (trialStartDate trialEndDate : Int) : Option (Subscription × Subscriptions) :=
  if subs.any (fun s => decide (s.userId = userId)) then none
  else
    some (Subscription.mk (freshId (subs.map Subscription.id)) userId "trial" trialStartDate
        trialEndDate none none none none none none none none,
      subs ++ [Subscription.mk (freshId (subs.map Subscription.id)) userId "trial"
        trialStartDate trialEndDate none none none none none none none none])

/-- The function `createTrialSubscription` at the instant `now`: a trial of 72 hours. -/
def createTrialSubscription (subs : Subscriptions) (now : Int) (userId : UserId) :
    Except Thrown Subscription × Subscriptions :=
  match subscriptionCreateTrial subs userId now (now + 72 * 60 * 60 * 1000) with
  | none => (Except.error Thrown.storage, subs)
  | some (s, subs1) => (Except.ok s, subs1)

/-- The template of the `message` of an access decision, with the values of its holes. -/
inductive AccessMessage where
  | noSubscription
  | trial (hoursLeft : Int)
  | trialExpired
  | active (planName : Option String) (daysLeft : Int)
  | subscriptionExpired
  | expired
  | cancelled
  deriving DecidableEq

/-- The object `checkAccess` returns (`none` for a key the object does not have). -/
structure Access where
  hasAccess : Bool
  status : Option String
  reason : Option String
  plan : Option String
  planName : Option String
  hoursLeft : Option Int
  daysLeft : Option Int
  expiresAt : Option Int
  message : AccessMessage
  deriving DecidableEq

/-- The expression `Math.ceil(msLeft / unit)` on integer milliseconds. -/
def ceilDiv (msLeft : Int) (unit : Nat) : Int :=
  -((-msLeft) / (unit : Int))

/-- The object `new Date(value)` for a stored date column: `null` gives the epoch. -/
def dateOf (value : Option Int) : Int :=
  value.getD 0

/-- The function `checkAccess` at the instant `now`: the access decision, and the table
after the lazy expiry it may write. -/
def checkAccess (subs : Subscriptions) (now : Int) (userId : UserId) :
    Except Thrown Access × Subscriptions :=
  match subscriptionFindUnique subs userId with
  | none =>
    (Except.ok (Access.mk false none (some "no_subscription") none none none none none
      AccessMessage.noSubscription), subs)
  | some subscription =>
    if subscription.status = "trial" then
      if now < subscription.trialEndDate then
        (Except.ok (Access.mk true (some "trial") none none none
          (some (ceilDiv (subscription.trialEndDate - now) (1000 * 60 * 60))) none
          (some subscription.trialEndDate)
          (AccessMessage.trial (ceilDiv (subscription.trialEndDate - now) (1000 * 60 * 60)))),
         subs)
      else
        match subscriptionUpdateStatus subs subscription.id "expired" with
        | none => (Except.error Thrown.storage, subs)
        | some subs1 =>
          (Except.ok (Access.mk false none (some "trial_expired") none none none none none
            AccessMessage.trialExpired), subs1)
    else if subscription.status = "active" then
      if now < dateOf subscription.currentPeriodEnd then
        (Except.ok (Access.mk true (some "active") none subscription.plan
          ((planProperty (subscription.plan.getD "null")).bind PlanProperty.name) none
          (some (ceilDiv (dateOf subscription.currentPeriodEnd - now) (1000 * 60 * 60 * 24)))
          (some (dateOf subscription.currentPeriodEnd))
          (AccessMessage.active
            ((planProperty (subscription.plan.getD "null")).bind PlanProperty.name)
            (ceilDiv (dateOf subscription.currentPeriodEnd - now) (1000 * 60 * 60 * 24)))),
         subs)
      else
        match subscriptionUpdateStatus subs subscription.id "expired" with
        | none => (Except.error Thrown.storage, subs)
        | some subs1 =>
          (Except.ok (Access.mk false none (some "subscription_expired") none none none none
            none AccessMessage.subscriptionExpired), subs1)
    else
      (Except.ok (Access.mk false none (some subscription.status) none none none none none
        (if subscription.status = "expired" then AccessMessage.expired
          else AccessMessage.cancelled)), subs)

/-- The text of the error `activateSubscription` throws for a plan it does not find. -/
def invalidPlanText (plan : Arg) : String :=
  "Plan invalide: " ++ plan.key ++ ". Plans disponibles: monthly, quarterly, semesterly, yearly"

/-- The function `activateSubscription` at the instant `now`: the plan is looked up with
`PLANS[plan]`; the period starts at `now` and lasts `durationDays` days; the row of the
account is updated. -/
def activateSubscription (subs : Subscriptions) (now : Int) (userId : UserId) (plan : Arg)
    (transactionId paymentMethod : Arg) : Except Thrown Subscription × Subscriptions :=
  match planProperty plan.key with
  | none => (Except.error (Thrown.error (invalidPlanText plan)), subs)
  | some planDetails =>
    match subscriptionUpdateByUser subs userId
        (ActivationData.mk "active" plan.key planDetails.amount now
          (planDetails.durationDays.map
            (fun d => now + (d : Int) * 24 * 60 * 60 * 1000))
          paymentMethod transactionId now planDetails.amount) with
    | none => (Except.error Thrown.storage, subs)
    | some (subscription, subs1) => (Except.ok subscription, subs1)

/-- The text of the error `renewSubscription` throws. -/
def noPriorPlanText : String :=
  "Aucun plan d'abonnement précédent trouvé"

/-- The function `renewSubscription`: it needs a row with a truthy `plan` and then
activates that plan again. -/
def renewSubscription (subs : Subscriptions) (now : Int) (userId : UserId)
    (transactionId paymentMethod : Arg) : Except Thrown Subscription × Subscriptions :=
  match subscriptionFindUnique subs userId with
  | none => (Except.error (Thrown.error noPriorPlanText), subs)
  | some subscription =>
    match subscription.plan with
    | none => (Except.error (Thrown.error noPriorPlanText), subs)
    | some plan =>
      if plan = "" then (Except.error (Thrown.error noPriorPlanText), subs)
      else activateSubscription subs now userId (Arg.str plan) transactionId paymentMethod

/-- The fields `webhook` reads from `req.body`. -/
structure WebhookBody where
  transactionId : Arg
  status : Option String
  userId : Option UserId
  plan : Arg
  deriving DecidableEq

/-- The answer of `webhook`: the HTTP status and the `success` flag. -/
structure WebhookResponse where
  status : Nat
  success : Bool
  deriving DecidableEq

/-- The handler `webhook`: a notification with status `success` activates the plan with
the payment method `mobile_money`; any throw gives the 500 answer.  A notification without
a user id makes the storage call throw once the plan has been found. -/
def webhook (subs : Subscriptions) (now : Int) (body : WebhookBody) :
    WebhookResponse × Subscriptions :=
  if body.status = some "success" then
    match body.userId with
    | none => (WebhookResponse.mk 500 false, subs)
    | some userId =>
      match activateSubscription subs now userId body.plan body.transactionId
          (Arg.str "mobile_money") with
      | (Except.error _, subs1) => (WebhookResponse.mk 500 false, subs1)
      | (Except.ok _, subs1) => (WebhookResponse.mk 200 true, subs1)
  else (WebhookResponse.mk 200 true, subs)

/-! ## Savings (`calculateSavings`) -/

/-- The function `Math.round`: the nearest integer, a half going up. -/
def mathRound (x : ℚ) : Int :=
  ⌊x + 1 / 2⌋

/-- The integer `x.toFixed(0)` prints for a non-negative `x`: the nearest integer, a half
going up. -/
def toFixed0 (x : ℚ) : Int :=
  ⌊x + 1 / 2⌋

/-- The property access `PLANS.key` for a key of the catalog. -/
def planOf (key : String) : Plan :=
  (PLANS key).getD (Plan.mk "" 0 0 "" none false)

/-- One entry of the object `calculateSavings` returns: the catalog entry it spreads, and
the three computed fields (the computed `savings` replaces the one of the catalog entry). -/
structure PlanSavings where
  plan : Plan
  monthlyEquivalent : Int
  savings : ℚ
  savingsPercent : Int
  deriving DecidableEq

/-- The entry `calculateSavings` computes for the plan `key` of `months` months. -/
def savingsEntry (key : String) (months : ℚ) : PlanSavings :=
  PlanSavings.mk (planOf key) (toFixed0 ((planOf key).amount / months))
    ((planOf "monthly").amount * months - (planOf key).amount)
    (mathRound ((((planOf "monthly").amount * months - (planOf key).amount) /
      ((planOf "monthly").amount * months)) * 100))

/-- The object `calculateSavings` returns. -/
structure Savings where
  quarterly : PlanSavings
  semesterly : PlanSavings
  yearly : PlanSavings
  deriving DecidableEq

/-- The function `calculateSavings`. -/
def calculateSavings : Savings :=
  Savings.mk (savingsEntry "quarterly" 3) (savingsEntry "semesterly" 6)
    (savingsEntry "yearly" 12)

/-! ## Command validation (`services/ai.service.js`) -/

/-- The test `!s || s.trim() === ''` on an optional string. -/
def isBlank (s : Option String) : Bool :=
  match s with
  | none => true
  | some x => x.toList.all isStrWhiteSpace

/-- The object `validateCommand` returns. -/
structure Validation where
  isValid : Bool
  errors : List String
  data : ParsedCommand
  deriving DecidableEq

/-- The function `validateCommand`: the rules of the command's kind, one error text per
rule that fails, in the order of the source. -/
def validateCommand (parsedCommand : ParsedCommand) : Validation :=
  let montantError : List String :=
    if !parsedCommand.montant.truthy || parsedCommand.montant.leZero then
      ["Le montant doit être supérieur à 0"]
    else []
  let errors : List String :=
    if parsedCommand.type = some "vente" then
      montantError ++
        (if !(parsedCommand.modePaiement == some "cash"
            || parsedCommand.modePaiement == some "credit") then
          ["Mode de paiement invalide"]
        else []) ++
        (if parsedCommand.modePaiement == some "credit" && isBlank parsedCommand.nomClient then
          ["Le nom du client est obligatoire pour une vente à crédit"]
        else [])
    else if parsedCommand.type = some "depense" then
      montantError ++
        (if isBlank parsedCommand.motif then ["Le motif de la dépense est obligatoire"]
        else [])
    else if parsedCommand.type = some "nouveau_client" then
      (if isBlank parsedCommand.nom then ["Le nom du client est obligatoire"] else [])
    else if parsedCommand.type = some "erreur" then
      [(orNull parsedCommand.message).getD "Commande non comprise"]
    else ["Type de commande non reconnu"]
  Validation.mk errors.isEmpty errors parsedCommand

/-! ## Command handlers (`controllers/ai.controller.js`) -/

/-- A row of the `depense` table. -/
structure Depense where
  id : Nat
  montant : ℚ
  motif : String
  categorie : Option String
  userId : UserId
  deriving DecidableEq

/-- The tables the command path touches: the ledger tables and the expenses. -/
structure CommandDb where
  db : Db
  depenses : List Depense
  deriving DecidableEq

/-- The template of the success message of a command handler, with the values of its
holes. -/
inductive CommandMessage where
  | vente (m : VenteMessage)
  | depense (montant : JsVal) (motif : Option String)
  | clientWithPhone (nom : Option String) (telephone : String)
  | client (nom : Option String)
  deriving DecidableEq

/-- The `data` of the result of a command handler: the row it created. -/
inductive CommandData where
  | vente (v : Vente)
  | depense (d : Depense)
  | client (c : Client)
  deriving DecidableEq

/-- The object a command handler returns. -/
structure CommandResult where
  message : CommandMessage
  data : CommandData
  deriving DecidableEq

/-- The call `prisma.depense.create`: appends an expense row with a new id; it throws
(`none`) when the amount is not a finite number or the required `motif` is missing. -/
def depenseCreate (depenses : List Depense) (montant : JsNum) (motif : Option String)
    (categorie : Option String) (userId : UserId) : Option (Depense × List Depense) :=
  match montant, motif with
  | JsNum.fin m, some mo =>
    some (Depense.mk (freshId (depenses.map Depense.id)) m mo categorie userId,
      depenses ++ [Depense.mk (freshId (depenses.map Depense.id)) m mo categorie userId])
  | _, _ => none

/-- The function `handleDepense`. -/
def handleDepense (st : CommandDb) (parsed : ParsedCommand) (userId : UserId) :
    Except Thrown CommandResult × CommandDb :=
  match depenseCreate st.depenses (parseFloat parsed.montant) parsed.motif
      (orNull parsed.categorie) userId with
  | none => (Except.error Thrown.storage, st)
  | some (depense, depenses1) =>
    (Except.ok (CommandResult.mk (CommandMessage.depense parsed.montant parsed.motif)
      (CommandData.depense depense)), CommandDb.mk st.db depenses1)

/-- The filter `nom: { equals: name, mode: 'insensitive' }`: both sides are compared in
lower case. -/
def equalsInsensitive (nom name : String) : Bool :=
  nom.toList.map Char.toLower == name.toList.map Char.toLower

/-- The call `prisma.client.findFirst` with `where: { userId, nom: { equals, mode } }`; an
`undefined` name puts no condition on `nom`. -/
def clientFindByExactName (db : Db) (userId : UserId) (nom : Option String) : Option Client :=
  db.clients.find? (fun c => decide (c.userId = userId) &&
    (match nom with
      | none => true
      | some name => equalsInsensitive c.nom name))

/-- The call `prisma.client.create` with `totalCredit: 0`: appends a client row with a new
id; it throws (`none`) when the required `nom` is missing. -/
def clientCreate (db : Db) (nom : Option String) (telephone adresse : Option String)
    (userId : UserId) : Option (Client × Db) :=
  match nom with
  | none => none
  | some name =>
    some (Client.mk (freshId (db.clients.map Client.id)) name telephone adresse 0 userId,
      Db.mk (db.clients ++
        [Client.mk (freshId (db.clients.map Client.id)) name telephone adresse 0 userId])
        db.ventes db.paiements)

/-- The text of the error `handleNouveauClient` throws when the client exists already. -/
def duplicateClientText (nom : Option String) : String :=
  "Le client \"" ++ nom.getD "undefined" ++ "\" existe déjà dans votre base. " ++
    "Utilisez-le directement pour vos ventes à crédit."

/-- The function `handleNouveauClient`: it throws when the account has a client of the same
name, case ignored, and creates the client otherwise. -/
def handleNouveauClient (db : Db) (parsed : ParsedCommand) (userId : UserId) :
    Except Thrown CommandResult × Db :=
  match clientFindByExactName db userId parsed.nom with
  | some _ => (Except.error (Thrown.error (duplicateClientText parsed.nom)), db)
  | none =>
    match clientCreate db parsed.nom (orNull parsed.telephone) (orNull parsed.adresse)
        userId with
    | none => (Except.error Thrown.storage, db)
    | some (client, db1) =>
      (Except.ok (CommandResult.mk
        (match orNull parsed.telephone with
          | some tel => CommandMessage.clientWithPhone parsed.nom tel
          | none => CommandMessage.client parsed.nom)
        (CommandData.client client)), db1)

/-- The answer of `processVoiceCommand`: 400 with an error text (and the parsed command
when validation failed), 201 with the result of the handler, or 500 with what was
thrown. -/
inductive VoiceResponse where
  | badRequest (error : String) (parsedData : Option ParsedCommand)
  | created (result : CommandResult) (parsedCommand : ParsedCommand)
  | serverError (thrown : Thrown)
  deriving DecidableEq

/-- The handler `processVoiceCommand`.  The command interpreter `analyzeVoiceCommand` is an
external service: it is the argument `analyze`, from the text to the object it returns. -/
def processVoiceCommand (st : CommandDb) (userId : UserId) (text : Option String)
    (analyze : String → ParsedCommand) : VoiceResponse × CommandDb :=
  if isBlank text then
    (VoiceResponse.badRequest "Le texte de la commande est requis" none, st)
  else
    let parsed := analyze (text.getD "")
    let validation := validateCommand parsed
    if !validation.isValid then
      (VoiceResponse.badRequest (String.intercalate ", " validation.errors) (some parsed), st)
    else if parsed.type = some "vente" then
      match handleVente st.db parsed userId with
      | (Except.ok r, db1) =>
        (VoiceResponse.created (CommandResult.mk (CommandMessage.vente r.message)
          (CommandData.vente r.data)) parsed, CommandDb.mk db1 st.depenses)
      | (Except.error e, db1) => (VoiceResponse.serverError e, CommandDb.mk db1 st.depenses)
    else if parsed.type = some "depense" then
      match handleDepense st parsed userId with
      | (Except.ok r, st1) => (VoiceResponse.created r parsed, st1)
      | (Except.error e, st1) => (VoiceResponse.serverError e, st1)
    else if parsed.type = some "nouveau_client" then
      match handleNouveauClient st.db parsed userId with
      | (Except.ok r, db1) => (VoiceResponse.created r parsed, CommandDb.mk db1 st.depenses)
      | (Except.error e, db1) => (VoiceResponse.serverError e, CommandDb.mk db1 st.depenses)
    else (VoiceResponse.badRequest "Type de commande non supporté" none, st)

/-! ## Storage failures

A storage call can also fail for a reason outside the handler (the connection drops, the
storage is down).  The handlers below are the handlers above with that possibility made
explicit: the storage calls of a handler are numbered in source order, and call `k`
throws when `faults k` is true. -/

/-- Which storage calls of one run of a handler fail from outside. -/
abbrev Faults := Nat → Bool

/-- The run in which no storage call fails from outside. -/
def noFaults : Faults := fun _ => false

/-- The storage call number `k` under the given failures. -/
def attempt {α : Type} (faults : Faults) (k : Nat) (call : Option α) : Option α :=
  if faults k then none else call

/-- The handler `createVente` under storage failures: call 0 is `prisma.vente.create`, call
1 is `prisma.client.update`. -/
def createVenteWith (faults : Faults) (db : Db) (userId : UserId) (body : VenteBody) :
    Response × Db :=
  if !body.montant.truthy || body.montant.leZero then
    (Response.plain 400 "Le montant doit être supérieur à 0", db)
  else
    match body.modePaiement with
    | none => (Response.plain 400 "Mode de paiement invalide (cash ou credit)", db)
    | some mode =>
      if !(mode == "cash" || mode == "credit") then
        (Response.plain 400 "Mode de paiement invalide (cash ou credit)", db)
      else
        match attempt faults 0 (venteCreate db (parseFloat body.montant) mode
            (orNull body.nomClient) (orNull body.notes) userId body.clientId) with
        | none => (serverError "Erreur lors de l'enregistrement de la vente", db)
        | some (vente, db1) =>
          match (if mode == "credit" then body.clientId else none) with
          | some cid =>
            match attempt faults 1 (clientIncrement db1 cid (parseFloat body.montant)) with
            | none => (serverError "Erreur lors de l'enregistrement de la vente", db1)
            | some db2 => (Response.mk 201 "Vente enregistrée" (some vente) none none, db2)
          | none => (Response.mk 201 "Vente enregistrée" (some vente) none none, db1)

/-- The handler `deleteVente` under storage failures: call 0 is `prisma.vente.findFirst`,
call 1 is `prisma.client.update`, call 2 is `prisma.vente.delete`. -/
def deleteVenteWith (faults : Faults) (db : Db) (userId : UserId) (id : VenteId) :
    Response × Db :=
  match attempt faults 0 (some (venteFindFirst db id userId)) with
  | none => (serverError "Erreur lors de la suppression de la vente", db)
  | some none => (Response.plain 404 "Vente non trouvée", db)
  | some (some vente) =>
    let step1 : Option Db :=
      match (if vente.modePaiement == "credit" then vente.clientId else none) with
      | some cid => attempt faults 1 (clientDecrement db cid (JsNum.fin vente.montant))
      | none => some db
    match step1 with
    | none => (serverError "Erreur lors de la suppression de la vente", db)
    | some db1 =>
      match attempt faults 2 (venteDelete db1 id) with
      | none => (serverError "Erreur lors de la suppression de la vente", db1)
      | some db2 => (Response.plain 200 "Vente supprimée", db2)

/-- The handler `createPaiement` under storage failures: call 0 is
`prisma.client.findFirst`, call 1 is `prisma.paiement.create`, call 2 is
`prisma.client.update`, call 3 is `prisma.client.findUnique`. -/
def createPaiementWith (faults : Faults) (db : Db) (userId : UserId) (body : PaiementBody) :
    Response × Db :=
  match body.clientId with
  | none => (Response.plain 400 "Client et montant valide requis", db)
  | some cid =>
    if !body.montant.truthy || body.montant.leZero then
      (Response.plain 400 "Client et montant valide requis", db)
    else
      match attempt faults 0 (some (clientFindFirst db cid userId)) with
      | none => (serverError "Erreur lors de l'enregistrement du paiement", db)
      | some none => (Response.plain 404 "Client non trouvé", db)
      | some (some client) =>
        if (parseFloat body.montant).gt (JsNum.fin client.totalCredit) then
          (Response.plain 400 "Le montant dépasse le crédit du client", db)
        else
          match attempt faults 1
              (paiementCreate db (parseFloat body.montant) (orNull body.notes) cid) with
          | none => (serverError "Erreur lors de l'enregistrement du paiement", db)
          | some (paiement, db1) =>
            match attempt faults 2 (clientDecrement db1 cid (parseFloat body.montant)) with
            | none => (serverError "Erreur lors de l'enregistrement du paiement", db1)
            | some db2 =>
              match attempt faults 3 (some (clientFindUnique db2 cid)) with
              | none => (serverError "Erreur lors de l'enregistrement du paiement", db2)
              | some updatedClient =>
                (Response.mk 201 "Paiement enregistré" none (some paiement) updatedClient, db2)

/-- The function `handleVente` under storage failures: call 0 is `prisma.client.findFirst`,
call 1 is `prisma.vente.create`, call 2 is `prisma.client.update`. -/
def handleVenteWith (faults : Faults) (db : Db) (parsed : ParsedCommand) (userId : UserId) :
    Except Thrown VenteResult × Db :=
  let lookup : Except Thrown (Option ClientId) :=
    if parsed.modePaiement == some "credit" && (orNull parsed.nomClient).isSome then
      match attempt faults 0 (some (clientFindByName db userId (parsed.nomClient.getD ""))) with
      | none => Except.error Thrown.storage
      | some none =>
        Except.error (Thrown.error (clientNotFoundText (parsed.nomClient.getD "")))
      | some (some client) => Except.ok (some client.id)
    else Except.ok none
  match lookup with
  | Except.error e => (Except.error e, db)
  | Except.ok clientId =>
    match parsed.modePaiement with
    | none => (Except.error Thrown.storage, db)
    | some mode =>
      let message : VenteMessage :=
        if mode == "credit" then VenteMessage.credit parsed.montant parsed.nomClient
        else VenteMessage.cash parsed.montant
      match attempt faults 1 (venteCreate db (parseFloat parsed.montant) mode
          (orNull parsed.nomClient) (orNull parsed.notes) userId clientId) with
      | none => (Except.error Thrown.storage, db)
      | some (vente, db1) =>
        match (if mode == "credit" then clientId else none) with
        | some cid =>
          match attempt faults 2 (clientIncrement db1 cid (parseFloat parsed.montant)) with
          | none => (Except.error Thrown.storage, db1)
          | some db2 => (Except.ok (VenteResult.mk message vente), db2)
        | none => (Except.ok (VenteResult.mk message vente), db1)

/-! ## Overlapping payment requests

Two requests overlap only at their `await`s: each storage call is one indivisible step,
and the code between two calls runs with the call before it. -/

/-- Where one run of `createPaiement` stands between its storage calls. -/
inductive PaiementRun where
  | ready (userId : UserId) (body : PaiementBody)
  | checked (body : PaiementBody) (cid : ClientId)
  | inserted (body : PaiementBody) (cid : ClientId) (paiement : Paiement)
  | decremented (cid : ClientId) (paiement : Paiement)
  | finished (response : Response)
  deriving DecidableEq

/-- The next storage call of a run of `createPaiement`, with the code up to the call after
it: the validation, `findFirst` and the two checks; `paiement.create`; `client.update`;
`findUnique` and the answer. -/
def PaiementRun.step (db : Db) : PaiementRun → PaiementRun × Db
  | PaiementRun.ready userId body =>
    match body.clientId with
    | none => (PaiementRun.finished (Response.plain 400 "Client et montant valide requis"), db)
    | some cid =>
      if !body.montant.truthy || body.montant.leZero then
        (PaiementRun.finished (Response.plain 400 "Client et montant valide requis"), db)
      else
        match clientFindFirst db cid userId with
        | none => (PaiementRun.finished (Response.plain 404 "Client non trouvé"), db)
        | some client =>
          if (parseFloat body.montant).gt (JsNum.fin client.totalCredit) then
            (PaiementRun.finished
              (Response.plain 400 "Le montant dépasse le crédit du client"), db)
          else (PaiementRun.checked body cid, db)
  | PaiementRun.checked body cid =>
    match paiementCreate db (parseFloat body.montant) (orNull body.notes) cid with
    | none =>
      (PaiementRun.finished (serverError "Erreur lors de l'enregistrement du paiement"), db)
    | some (paiement, db1) => (PaiementRun.inserted body cid paiement, db1)
  | PaiementRun.inserted body cid paiement =>
    match clientDecrement db cid (parseFloat body.montant) with
    | none =>
      (PaiementRun.finished (serverError "Erreur lors de l'enregistrement du paiement"), db)
    | some db2 => (PaiementRun.decremented cid paiement, db2)
  | PaiementRun.decremented cid paiement =>
    (PaiementRun.finished
      (Response.mk 201 "Paiement enregistré" none (some paiement) (clientFindUnique db cid)), db)
  | PaiementRun.finished response => (PaiementRun.finished response, db)

/-- Two runs of `createPaiement` on one database. -/
structure Race where
  first : PaiementRun
  second : PaiementRun
  db : Db
  deriving DecidableEq

/-- One step of the run the scheduler picks (`true` picks the second run). -/
def Race.step (r : Race) (pickSecond : Bool) : Race :=
  if pickSecond then Race.mk r.first (r.second.step r.db).1 (r.second.step r.db).2
  else Race.mk (r.first.step r.db).1 r.second (r.first.step r.db).2

/-- The two runs under a schedule: the list of the scheduler's picks. -/
def Race.run (r : Race) : List Bool → Race
  | [] => r
  | pick :: rest => (r.step pick).run rest

/-- The status of the answer of a finished run. -/
def PaiementRun.status : PaiementRun → Option Nat
  | PaiementRun.finished response => some response.status
  | _ => none

/-- What a run has taken off the balance so far, for a request of amount `a`. -/
def PaiementRun.paid (a : ℚ) : PaiementRun → ℚ
  | PaiementRun.decremented _ _ => a
  | PaiementRun.finished response => if response.status = 201 then a else 0
  | _ => 0

/-- The payment request of amount `a` for client 1. -/
def paymentOf (a : ℚ) : PaiementBody :=
  PaiementBody.mk (some 1) (JsVal.num (JsNum.fin a)) none

/-- Two requests by account 7, of 600 and of 700, against the client of `exampleDb`, who
owes 1000. -/
def raceStart : Race :=
  Race.mk (PaiementRun.ready 7 (paymentOf 600)) (PaiementRun.ready 7 (paymentOf 700))
    (Db.mk [Client.mk 1 "Jean Kouassi" none none 1000 7] [] [])

/-- How many storage calls a run has behind it (4: the run has answered). -/
def PaiementRun.stage : PaiementRun → Nat
  | PaiementRun.ready _ _ => 0
  | PaiementRun.checked _ _ => 1
  | PaiementRun.inserted _ _ _ => 2
  | PaiementRun.decremented _ _ => 3
  | PaiementRun.finished _ => 4

/-- The states a run of the request `paymentOf a` by account 7 goes through when the
client row exists: the request and the client are the ones it started with, and the answer
is 201 or 400. -/
def PaiementRun.about (a : ℚ) : PaiementRun → Prop
  | PaiementRun.ready userId body => userId = 7 ∧ body = paymentOf a
  | PaiementRun.checked body cid => body = paymentOf a ∧ cid = 1
  | PaiementRun.inserted body cid _ => body = paymentOf a ∧ cid = 1
  | PaiementRun.decremented cid _ => cid = 1
  | PaiementRun.finished response => response.status = 201 ∨ response.status = 400

/-- What holds of the two runs started in `raceStart` at every point of every schedule:
the balance is 1000 minus what the two runs have taken off, and a run is only rejected
once the other has taken its amount off. -/
def Race.consistent (r : Race) : Prop :=
  r.first.about 600 ∧ r.second.about 700 ∧
    r.db.clients =
      [Client.mk 1 "Jean Kouassi" none none (1000 - r.first.paid 600 - r.second.paid 700) 7] ∧
    (r.first.status = some 400 → r.second.paid 700 = 700) ∧
    (r.second.status = some 400 → r.first.paid 600 = 600)

/-! ## Example data -/

/-- A database with one client, owned by account 7, who owes 1000. -/
def exampleDb : Db :=
  Db.mk [Client.mk 1 "Jean Kouassi" none none 1000 7] [] []

/-- A database with one client, owned by account 7, who owes nothing. -/
def zeroDb : Db :=
  Db.mk [Client.mk 1 "Jean Kouassi" none none 0 7] [] []

/-- The state `zeroDb` reaches after a credit sale of 100 to its client followed by a
payment of 100: the sale row is still there, the balance is back to 0. -/
def paidDb : Db :=
  Db.mk [Client.mk 1 "Jean Kouassi" none none 0 7]
    [Vente.mk 1 100 "credit" none none 7 (some 1)]
    [Paiement.mk 1 100 none 1]

/-- The database `exampleDb` with one cash sale of 500 by account 7 that names client 1. -/
def cashDb : Db :=
  Db.mk [Client.mk 1 "Jean Kouassi" none none 1000 7]
    [Vente.mk 1 500 "cash" (some "Jean Kouassi") none 7 (some 1)] []

/-- The database `exampleDb` with one credit sale of 250 by account 7 to client 1. -/
def creditDb : Db :=
  Db.mk [Client.mk 1 "Jean Kouassi" none none 1000 7]
    [Vente.mk 1 250 "credit" none none 7 (some 1)] []

/-- The trial row `createTrialSubscription` writes for account 7 at the instant
1700000000000: the trial ends 72 hours (259200000 ms) later. -/
def trialSub : Subscription :=
  Subscription.mk 1 7 "trial" 1700000000000 1700259200000 none none none none none none none
    none

/-- The table that holds only `trialSub`. -/
def trialSubs : Subscriptions := [trialSub]

/-- A row of account 7 on the monthly plan, active from 1700000000000 for 30 days
(2592000000 ms), paid 2000 by `wave`. -/
def activeSub : Subscription :=
  Subscription.mk 1 7 "active" 1699000000000 1699259200000 (some "monthly") (some 2000)
    (some 1700000000000) (some 1702592000000) (some "wave") (some "TXN_1") (some 1700000000000)
    (some 2000)

/-- The row `activeSub` once it has expired. -/
def expiredSub : Subscription :=
  activeSub.withStatus "expired"

/-- The row `activeSub` once it has been cancelled. -/
def cancelledSub : Subscription :=
  activeSub.withStatus "cancelled"

/-! ## Basic facts about the storage primitives -/

theorem freshId_gt (ids : List Nat) : ∀ i ∈ ids, i < freshId ids := by
  induction ids with
  | nil => intro i hi; cases hi
  | cons a t ih =>
    intro i hi
    have hstep : freshId (a :: t) = max a (t.foldr max 0) + 1 := rfl
    rcases List.mem_cons.mp hi with h | h
    · rw [hstep, h]
      exact Nat.lt_succ_of_le (le_max_left _ _)
    · have h1 := ih i h
      have h2 : freshId t = t.foldr max 0 + 1 := rfl
      rw [hstep]
      have h3 : t.foldr max 0 ≤ max a (t.foldr max 0) := le_max_right _ _
      omega

theorem freshId_not_mem (ids : List Nat) : freshId ids ∉ ids := fun h =>
  Nat.lt_irrefl _ (freshId_gt ids _ h)

theorem bumpCredit_any (id k : ClientId) (d : ℚ) (cs : List Client) :
    (bumpCredit id d cs).any (fun x => decide (x.id = k)) = cs.any (fun x => decide (x.id = k)) := by
  induction cs with
  | nil => rfl
  | cons a t ih =>
    simp only [bumpCredit, List.map_cons, List.any_cons] at ih ⊢
    rw [ih]
    by_cases h : a.id = id <;> simp [h, Client.addCredit]

theorem bumpCredit_map_id (id : ClientId) (d : ℚ) (cs : List Client) :
    (bumpCredit id d cs).map Client.id = cs.map Client.id := by
  induction cs with
  | nil => rfl
  | cons a t ih =>
    simp only [bumpCredit, List.map_cons] at ih ⊢
    rw [ih]
    by_cases h : a.id = id <;> simp [h, Client.addCredit]

theorem bumpCredit_bumpCredit_neg (id : ClientId) (d : ℚ) (cs : List Client) :
    bumpCredit id (-d) (bumpCredit id d cs) = cs := by
  induction cs with
  | nil => rfl
  | cons a t ih =>
    simp only [bumpCredit, List.map_cons] at ih ⊢
    rw [ih]
    cases a with
    | mk i n tel adr tc u =>
      by_cases h : i = id <;> simp [h, Client.addCredit]

theorem find_bumpCredit (id k : ClientId) (d : ℚ) (cs : List Client) :
    (bumpCredit id d cs).find? (fun c => decide (c.id = k)) =
      (cs.find? (fun c => decide (c.id = k))).map
        (fun c => if c.id = id then c.addCredit d else c) := by
  have hcomp : ((fun c : Client => decide (c.id = k)) ∘
      fun c => if c.id = id then c.addCredit d else c) = fun c => decide (c.id = k) := by
    funext c
    by_cases h : c.id = id <;> simp [h, Client.addCredit]
  unfold bumpCredit
  rw [List.find?_map, hcomp]

/-- The balance lookup after a balance update: the updated client moves by `d`, every other
client keeps its balance. -/
theorem totalCredit_bumpCredit (id k : ClientId) (d : ℚ) (cs : List Client)
    (vs vs1 : List Vente) (ps ps1 : List Paiement) :
    (Db.mk (bumpCredit id d cs) vs ps).totalCredit k =
      if k = id then ((Db.mk cs vs1 ps1).totalCredit k).map (fun t => t + d)
      else (Db.mk cs vs1 ps1).totalCredit k := by
  simp only [Db.totalCredit, find_bumpCredit]
  cases hf : cs.find? (fun c => decide (c.id = k)) with
  | none => simp
  | some c =>
    have hck : c.id = k := by simpa using List.find?_some hf
    by_cases hk : k = id
    · simp [hk, hck.trans hk, Client.addCredit]
    · have hci : ¬ c.id = id := fun h => hk (hck.symm.trans h)
      simp [hk, hci]

/-- With unique client ids, the row found for `(id, userId)` is the row with that id. -/
theorem clientFindFirst_eq_of_mem (db : Db) (c c1 : Client) (userId : UserId)
    (hn : (db.clients.map Client.id).Nodup) (hc : c ∈ db.clients)
    (hf : clientFindFirst db c.id userId = some c1) : c1 = c := by
  have hm : c1 ∈ db.clients := List.mem_of_find?_eq_some hf
  have hp := List.find?_some hf
  simp only [Bool.and_eq_true, decide_eq_true_eq] at hp
  exact List.inj_on_of_nodup_map hn hm hc hp.1

/-- With unique client ids, the balance lookup returns the balance of the row found for
`(id, userId)`. -/
theorem totalCredit_of_clientFindFirst (db : Db) (c : Client) (id : ClientId) (userId : UserId)
    (hn : (db.clients.map Client.id).Nodup) (hf : clientFindFirst db id userId = some c) :
    db.totalCredit id = some c.totalCredit := by
  have hm : c ∈ db.clients := List.mem_of_find?_eq_some hf
  have hp := List.find?_some hf
  simp only [Bool.and_eq_true, decide_eq_true_eq] at hp
  unfold Db.totalCredit
  cases hg : db.clients.find? (fun x => decide (x.id = id)) with
  | none =>
    have := List.find?_eq_none.mp hg c hm
    simp [hp.1] at this
  | some c1 =>
    have hm1 : c1 ∈ db.clients := List.mem_of_find?_eq_some hg
    have hp1 : c1.id = id := by simpa using List.find?_some hg
    have : c1 = c := List.inj_on_of_nodup_map hn hm1 hm (hp1.trans hp.1.symm)
    simp [this]

theorem any_id_of_mem (cs : List Client) (c : Client) (hc : c ∈ cs) :
    cs.any (fun x => decide (x.id = c.id)) = true := by
  simp only [List.any_eq_true, decide_eq_true_eq]
  exact ⟨c, hc, rfl⟩

theorem any_id_of_clientFindFirst (db : Db) (c : Client) (id : ClientId) (userId : UserId)
    (hf : clientFindFirst db id userId = some c) :
    db.clients.any (fun x => decide (x.id = id)) = true := by
  have hm : c ∈ db.clients := List.mem_of_find?_eq_some hf
  have hp := List.find?_some hf
  simp only [Bool.and_eq_true, decide_eq_true_eq] at hp
  simp only [List.any_eq_true, decide_eq_true_eq]
  exact ⟨c, hm, hp.1⟩

/-! ## Payments -/

/-- C2: a payment whose amount is strictly greater than the client's current totalCredit is
rejected by `createPaiement` (status 400, or 404 when the caller does not own the client):
the database, hence the payment table and every totalCredit, is left unchanged. -/
theorem createPaiement_rejects_overpayment (db : Db) (userId : UserId) (body : PaiementBody)
    (c : Client) (hn : (db.clients.map Client.id).Nodup) (hc : c ∈ db.clients)
    (hid : body.clientId = some c.id)
    (hgt : (parseFloat body.montant).gt (JsNum.fin c.totalCredit) = true) :
    (createPaiement db userId body).2 = db ∧
      ((createPaiement db userId body).1.status = 400 ∨
        (createPaiement db userId body).1.status = 404) ∧
      (c.userId = userId → (createPaiement db userId body).1.status = 400) := by
  unfold createPaiement
  rw [hid]
  by_cases hv : (!body.montant.truthy || body.montant.leZero) = true
  · simp [hv, Response.plain]
  · cases hf : clientFindFirst db c.id userId with
    | none =>
      have hu : c.userId ≠ userId := by
        intro hu
        have := List.find?_eq_none.mp hf c hc
        simp [hu] at this
      simp [hv, hf, Response.plain, hu]
    | some c1 =>
      have h1 : c1 = c := clientFindFirst_eq_of_mem db c c1 userId hn hc hf
      subst h1
      simp [hv, hf, hgt, Response.plain]

/-- Witness of C2 on the spec's example: balance 1000, payment request 1500. -/
theorem createPaiement_rejects_overpayment_witness :
    (createPaiement exampleDb 7 (PaiementBody.mk (some 1) (JsVal.num (JsNum.fin 1500)) none)).2
        = exampleDb ∧
      exampleDb.totalCredit 1 = some 1000 :=
  ⟨(createPaiement_rejects_overpayment exampleDb 7
      (PaiementBody.mk (some 1) (JsVal.num (JsNum.fin 1500)) none)
      (Client.mk 1 "Jean Kouassi" none none 1000 7)
      (by simp [exampleDb]) (by simp [exampleDb]) rfl
      (by norm_num [parseFloat, JsNum.gt])).1,
   by simp [exampleDb, Db.totalCredit]⟩

/-- What `createPaiement` does on a numeric amount `q` with `0 < q ≤ totalCredit` for a client
the caller owns: the 201 answer, the new row and the decremented balance. -/
theorem createPaiement_ok_eq (db : Db) (userId : UserId) (cid : ClientId) (c : Client) (q : ℚ)
    (notes : Option String) (hf : clientFindFirst db cid userId = some c) (hq : 0 < q)
    (hle : q ≤ c.totalCredit) :
    createPaiement db userId (PaiementBody.mk (some cid) (JsVal.num (JsNum.fin q)) notes) =
      (Response.mk 201 "Paiement enregistré" none
        (some (Paiement.mk (freshId (db.paiements.map Paiement.id)) q (orNull notes) cid))
        (clientFindUnique (Db.mk (bumpCredit cid (-q) db.clients) db.ventes
          (db.paiements ++
            [Paiement.mk (freshId (db.paiements.map Paiement.id)) q (orNull notes) cid])) cid),
       Db.mk (bumpCredit cid (-q) db.clients) db.ventes
          (db.paiements ++
            [Paiement.mk (freshId (db.paiements.map Paiement.id)) q (orNull notes) cid])) := by
  have hany := any_id_of_clientFindFirst db c cid userId hf
  have hq0 : q ≠ 0 := ne_of_gt hq
  have hnle : ¬ q ≤ 0 := not_le.mpr hq
  have hngt : ¬ c.totalCredit < q := not_lt.mpr hle
  simp [createPaiement, JsVal.truthy, JsVal.leZero, JsVal.toNumber, JsNum.le, JsNum.gt,
    parseFloat, hf, hq0, hnle, hngt, paiementCreate, clientDecrement, clientIncrement,
    JsNum.neg, hany]

/-- C3: for a client owned by the caller and an amount `q` with `0 < q ≤ totalCredit`
(equality included), `createPaiement` answers 201, appends exactly one payment row of
amount `q` for that client, leaves the sale table alone, lowers that client's totalCredit
by exactly `q` and leaves every other client's totalCredit unchanged. -/
theorem createPaiement_applies_payment (db : Db) (userId : UserId) (cid : ClientId)
    (c : Client) (q : ℚ) (notes : Option String)
    (hn : (db.clients.map Client.id).Nodup)
    (hf : clientFindFirst db cid userId = some c) (hq : 0 < q) (hle : q ≤ c.totalCredit) :
    (createPaiement db userId (PaiementBody.mk (some cid) (JsVal.num (JsNum.fin q)) notes)).1.status
        = 201 ∧
      (createPaiement db userId (PaiementBody.mk (some cid) (JsVal.num (JsNum.fin q)) notes)).2.paiements
        = db.paiements ++
            [Paiement.mk (freshId (db.paiements.map Paiement.id)) q (orNull notes) cid] ∧
      (createPaiement db userId (PaiementBody.mk (some cid) (JsVal.num (JsNum.fin q)) notes)).2.ventes
        = db.ventes ∧
      (createPaiement db userId
          (PaiementBody.mk (some cid) (JsVal.num (JsNum.fin q)) notes)).2.totalCredit cid
        = some (c.totalCredit - q) ∧
      ∀ k, k ≠ cid →
        (createPaiement db userId
            (PaiementBody.mk (some cid) (JsVal.num (JsNum.fin q)) notes)).2.totalCredit k
          = db.totalCredit k := by
  have htc := totalCredit_of_clientFindFirst db c cid userId hn hf
  rw [createPaiement_ok_eq db userId cid c q notes hf hq hle]
  refine ⟨rfl, rfl, rfl, ?_, ?_⟩
  · rw [totalCredit_bumpCredit cid cid (-q) db.clients _ db.ventes _ db.paiements]
    cases db
    simp only [if_true] at htc ⊢
    rw [htc]
    simp [sub_eq_add_neg]
  · intro k hk
    rw [totalCredit_bumpCredit cid k (-q) db.clients _ db.ventes _ db.paiements]
    simp [hk]

/-- Witness of C3: the client of `exampleDb` pays the whole balance of 1000. -/
theorem createPaiement_applies_payment_witness :
    (createPaiement exampleDb 7
        (PaiementBody.mk (some 1) (JsVal.num (JsNum.fin 1000)) none)).2.totalCredit 1
      = some (1000 - 1000) :=
  (createPaiement_applies_payment exampleDb 7 1 (Client.mk 1 "Jean Kouassi" none none 1000 7)
    1000 none (by simp [exampleDb]) (by simp [exampleDb, clientFindFirst])
    (by norm_num) (by norm_num)).2.2.2.1

/-! ## Sales -/

theorem vente_id_ne_fresh (vs : List Vente) :
    ∀ v ∈ vs, ¬ v.id = freshId (vs.map Vente.id) := fun v hv =>
  Nat.ne_of_lt (freshId_gt (vs.map Vente.id) v.id (List.mem_map_of_mem Vente.id hv))

theorem find_fresh_vente (vs : List Vente) (userId : UserId) :
    vs.find? (fun v => decide (v.id = freshId (vs.map Vente.id)) && decide (v.userId = userId))
      = none := by
  rw [List.find?_eq_none]
  intro v hv
  have hlt := freshId_gt (vs.map Vente.id) v.id (List.mem_map_of_mem Vente.id hv)
  have hne : v.id ≠ freshId (vs.map Vente.id) := Nat.ne_of_lt hlt
  simp [hne]

theorem filter_fresh_vente (vs : List Vente) :
    vs.filter (fun v => decide (v.id ≠ freshId (vs.map Vente.id))) = vs := by
  rw [List.filter_eq_self]
  intro v hv
  have hlt := freshId_gt (vs.map Vente.id) v.id (List.mem_map_of_mem Vente.id hv)
  have hne : v.id ≠ freshId (vs.map Vente.id) := Nat.ne_of_lt hlt
  simp [hne]

/-- What `createVente` does on a credit sale of a positive numeric amount to an existing
client id: the 201 answer, the new row and the incremented balance. -/
theorem createVente_credit_eq (db : Db) (userId : UserId) (cid : ClientId) (q : ℚ)
    (nomClient notes : Option String)
    (hc : db.clients.any (fun x => decide (x.id = cid)) = true) (hq : 0 < q) :
    createVente db userId
        (VenteBody.mk (JsVal.num (JsNum.fin q)) (some "credit") nomClient notes (some cid)) =
      (Response.mk 201 "Vente enregistrée"
        (some (Vente.mk (freshId (db.ventes.map Vente.id)) q "credit" (orNull nomClient)
          (orNull notes) userId (some cid))) none none,
       Db.mk (bumpCredit cid q db.clients)
        (db.ventes ++ [Vente.mk (freshId (db.ventes.map Vente.id)) q "credit" (orNull nomClient)
          (orNull notes) userId (some cid)]) db.paiements) := by
  have hq0 : q ≠ 0 := ne_of_gt hq
  have hnle : ¬ q ≤ 0 := not_le.mpr hq
  simp [createVente, JsVal.truthy, JsVal.leZero, JsVal.toNumber, JsNum.le, parseFloat,
    venteCreate, clientIncrement, hq0, hnle, hc]

/-- C4: creating a credit sale of a positive amount for an existing client and then deleting
that sale succeeds twice (201, then 200) and gives back the database the pair started
from; in particular every client's totalCredit is exactly its value before the sale. -/
theorem createVente_deleteVente_roundtrip (db : Db) (userId : UserId) (cid : ClientId) (q : ℚ)
    (nomClient notes : Option String)
    (hc : db.clients.any (fun x => decide (x.id = cid)) = true) (hq : 0 < q) :
    (createVente db userId (VenteBody.mk (JsVal.num (JsNum.fin q)) (some "credit") nomClient
        notes (some cid))).1.status = 201 ∧
      ((createVente db userId (VenteBody.mk (JsVal.num (JsNum.fin q)) (some "credit") nomClient
        notes (some cid))).1.vente.map Vente.id) = some (freshId (db.ventes.map Vente.id)) ∧
      (deleteVente (createVente db userId (VenteBody.mk (JsVal.num (JsNum.fin q)) (some "credit")
        nomClient notes (some cid))).2 userId (freshId (db.ventes.map Vente.id))).1.status = 200 ∧
      (deleteVente (createVente db userId (VenteBody.mk (JsVal.num (JsNum.fin q)) (some "credit")
        nomClient notes (some cid))).2 userId (freshId (db.ventes.map Vente.id))).2 = db ∧
      ∀ k, (deleteVente (createVente db userId (VenteBody.mk (JsVal.num (JsNum.fin q))
        (some "credit") nomClient notes (some cid))).2 userId
          (freshId (db.ventes.map Vente.id))).2.totalCredit k = db.totalCredit k := by
  rw [createVente_credit_eq db userId cid q nomClient notes hc hq]
  have hany : (bumpCredit cid q db.clients).any (fun x => decide (x.id = cid)) = true := by
    rw [bumpCredit_any]; exact hc
  have hdel : deleteVente
      (Db.mk (bumpCredit cid q db.clients)
        (db.ventes ++ [Vente.mk (freshId (db.ventes.map Vente.id)) q "credit" (orNull nomClient)
          (orNull notes) userId (some cid)]) db.paiements) userId
      (freshId (db.ventes.map Vente.id)) = (Response.plain 200 "Vente supprimée", db) := by
    cases db with
    | mk cs vs ps =>
      simp [deleteVente, venteFindFirst, List.find?_append, find_fresh_vente, clientDecrement,
        clientIncrement, JsNum.neg, hany, venteDelete, bumpCredit_bumpCredit_neg,
        List.filter_append, filter_fresh_vente, Response.plain]
      exact vente_id_ne_fresh vs
  rw [hdel]
  exact ⟨rfl, rfl, rfl, rfl, fun _ => rfl⟩

/-- Witness of C4: a credit sale of 250 to the client of `exampleDb`, then its deletion. -/
theorem createVente_deleteVente_roundtrip_witness :
    (deleteVente (createVente exampleDb 7 (VenteBody.mk (JsVal.num (JsNum.fin 250))
        (some "credit") none none (some 1))).2 7 (freshId (exampleDb.ventes.map Vente.id))).2
      = exampleDb :=
  (createVente_deleteVente_roundtrip exampleDb 7 1 250 none none
    (by simp [exampleDb]) (by norm_num)).2.2.2.1

/-- Counterexample to C5: from a zero balance, a credit sale of 100 and then a payment of
100 lead to `paidDb`; deleting the sale there is answered 200 and the unguarded decrement
leaves the client with a totalCredit of -100. -/
theorem deleteVente_drives_balance_negative :
    (createPaiement
        (createVente zeroDb 7
          (VenteBody.mk (JsVal.num (JsNum.fin 100)) (some "credit") none none (some 1))).2 7
        (PaiementBody.mk (some 1) (JsVal.num (JsNum.fin 100)) none)).2 = paidDb ∧
      (deleteVente paidDb 7 1).1 = Response.plain 200 "Vente supprimée" ∧
      (deleteVente paidDb 7 1).2.totalCredit 1 = some (-100) := by
  refine ⟨?_, ?_, ?_⟩
  · norm_num [createPaiement, createVente, zeroDb, paidDb, JsVal.truthy, JsVal.leZero,
      JsVal.toNumber, JsNum.le, JsNum.gt, JsNum.neg, parseFloat, venteCreate, paiementCreate,
      clientIncrement, clientDecrement, clientFindFirst, clientFindUnique, bumpCredit,
      Client.addCredit, freshId, orNull]
  · simp [deleteVente, paidDb, venteFindFirst, clientDecrement, clientIncrement, JsNum.neg,
      venteDelete, bumpCredit, Client.addCredit, Response.plain]
  · simp [deleteVente, paidDb, venteFindFirst, clientDecrement, clientIncrement, JsNum.neg,
      venteDelete, bumpCredit, Client.addCredit, Response.plain, Db.totalCredit]

/-- C5, amended: `deleteVente` has no consistency check.  For every credit sale of the
caller whose client row exists it answers 200, removes the sale row and subtracts exactly
the sale's amount from that client's totalCredit, without clamping; the new balance is
non-negative exactly when the amount does not exceed the current balance; every other
client's totalCredit is unchanged. -/
theorem deleteVente_credit_decrements (db : Db) (userId : UserId) (id : VenteId) (v : Vente)
    (cid : ClientId) (hf : venteFindFirst db id userId = some v)
    (hm : v.modePaiement = "credit") (hcid : v.clientId = some cid)
    (hc : db.clients.any (fun x => decide (x.id = cid)) = true) :
    deleteVente db userId id =
        (Response.plain 200 "Vente supprimée",
          Db.mk (bumpCredit cid (-v.montant) db.clients)
            (db.ventes.filter (fun w => decide (w.id ≠ id))) db.paiements) ∧
      (∀ t, db.totalCredit cid = some t →
        (deleteVente db userId id).2.totalCredit cid = some (t - v.montant) ∧
          (0 ≤ t - v.montant ↔ v.montant ≤ t)) ∧
      ∀ k, k ≠ cid → (deleteVente db userId id).2.totalCredit k = db.totalCredit k := by
  have hmem : v ∈ db.ventes := List.mem_of_find?_eq_some hf
  have hp := List.find?_some hf
  simp only [Bool.and_eq_true, decide_eq_true_eq] at hp
  have hvany : db.ventes.any (fun w => decide (w.id = id)) = true := by
    simp only [List.any_eq_true, decide_eq_true_eq]
    exact ⟨v, hmem, hp.1⟩
  have hres : deleteVente db userId id =
      (Response.plain 200 "Vente supprimée",
        Db.mk (bumpCredit cid (-v.montant) db.clients)
          (db.ventes.filter (fun w => decide (w.id ≠ id))) db.paiements) := by
    simp [deleteVente, hf, hm, hcid, clientDecrement, clientIncrement, JsNum.neg, hc,
      venteDelete, hvany]
  rw [hres]
  refine ⟨rfl, ?_, ?_⟩
  · intro t ht
    constructor
    · rw [totalCredit_bumpCredit cid cid (-v.montant) db.clients _ db.ventes _ db.paiements]
      cases db
      simp only [if_true] at ht ⊢
      rw [ht]
      simp [sub_eq_add_neg]
    · exact sub_nonneg
  · intro k hk
    rw [totalCredit_bumpCredit cid k (-v.montant) db.clients _ db.ventes _ db.paiements]
    simp [hk]

/-- Witness of the amended C5 on `paidDb`: the sale of 100 is deleted and the balance 0
becomes 0 - 100. -/
theorem deleteVente_credit_decrements_witness :
    (deleteVente paidDb 7 1).2.totalCredit 1 = some (0 - 100) ∧ ¬ ((0 : ℚ) ≤ 0 - 100) :=
  ⟨((deleteVente_credit_decrements paidDb 7 1 (Vente.mk 1 100 "credit" none none 7 (some 1)) 1
      (by simp [paidDb, venteFindFirst]) rfl rfl (by simp [paidDb])).2.1 0
      (by simp [paidDb, Db.totalCredit])).1,
   by norm_num⟩

/-! ## Client deletion -/

/-- C6: for a client the caller owns, `deleteClient` answers 400 and keeps the database when
totalCredit > 0, and answers 200 and removes the client row when totalCredit = 0; when the
caller owns no client with that id (in particular when the client belongs to another
account) it answers 404 and keeps the database. -/
theorem deleteClient_guard (db : Db) (userId : UserId) (id : ClientId) :
    (∀ c, clientFindFirst db id userId = some c → 0 < c.totalCredit →
        deleteClient db userId id =
          (Response.plain 400 "Impossible de supprimer un client avec un crédit en cours", db)) ∧
      (∀ c, clientFindFirst db id userId = some c → c.totalCredit = 0 →
        deleteClient db userId id =
          (Response.plain 200 "Client supprimé",
            Db.mk (db.clients.filter (fun x => decide (x.id ≠ id))) db.ventes db.paiements) ∧
          (∀ x ∈ (deleteClient db userId id).2.clients, x.id ≠ id) ∧
          (deleteClient db userId id).2.totalCredit id = none) ∧
      (clientFindFirst db id userId = none →
        deleteClient db userId id = (Response.plain 404 "Client non trouvé", db)) ∧
      (∀ c ∈ db.clients, (db.clients.map Client.id).Nodup → c.id = id → c.userId ≠ userId →
        deleteClient db userId id = (Response.plain 404 "Client non trouvé", db)) := by
  have hnone : clientFindFirst db id userId = none →
      deleteClient db userId id = (Response.plain 404 "Client non trouvé", db) := by
    intro hf
    simp [deleteClient, hf]
  refine ⟨?_, ?_, hnone, ?_⟩
  · intro c hf hpos
    simp [deleteClient, hf, hpos]
  · intro c hf hz
    have hany := any_id_of_clientFindFirst db c id userId hf
    have hres : deleteClient db userId id =
        (Response.plain 200 "Client supprimé",
          Db.mk (db.clients.filter (fun x => decide (x.id ≠ id))) db.ventes db.paiements) := by
      simp [deleteClient, hf, hz, clientDelete, hany]
    rw [hres]
    refine ⟨rfl, ?_, ?_⟩
    · intro x hx
      have := (List.mem_filter.mp hx).2
      simpa using this
    · simp only [Db.totalCredit, Option.map_eq_none', List.find?_eq_none]
      intro x hx
      have := (List.mem_filter.mp hx).2
      simpa using this
  · intro c hc hn hid hu
    apply hnone
    cases hf : clientFindFirst db id userId with
    | none => rfl
    | some c1 =>
      subst hid
      have h1 : c1 = c := clientFindFirst_eq_of_mem db c c1 userId hn hc hf
      have hp := List.find?_some hf
      simp only [Bool.and_eq_true, decide_eq_true_eq] at hp
      exact absurd (h1 ▸ hp.2) hu

/-- Witness of C6: the client of `exampleDb` owes 1000 and is kept; the client of `zeroDb`
owes nothing and is removed; account 8 does not own the client and gets 404. -/
theorem deleteClient_guard_witness :
    (deleteClient exampleDb 7 1).2 = exampleDb ∧
      (deleteClient zeroDb 7 1).2.totalCredit 1 = none ∧
      (deleteClient zeroDb 8 1).2 = zeroDb :=
  ⟨by rw [(deleteClient_guard exampleDb 7 1).1 (Client.mk 1 "Jean Kouassi" none none 1000 7)
      (by simp [exampleDb, clientFindFirst]) (by norm_num)],
   ((deleteClient_guard zeroDb 7 1).2.1 (Client.mk 1 "Jean Kouassi" none none 0 7)
      (by simp [zeroDb, clientFindFirst]) rfl).2.2,
   by rw [(deleteClient_guard zeroDb 8 1).2.2.1 (by simp [zeroDb, clientFindFirst])]⟩

/-! ## Credit sales through both paths -/

theorem totalCredit_of_mem (db : Db) (c : Client) (hn : (db.clients.map Client.id).Nodup)
    (hc : c ∈ db.clients) : db.totalCredit c.id = some c.totalCredit := by
  unfold Db.totalCredit
  cases hg : db.clients.find? (fun x => decide (x.id = c.id)) with
  | none =>
    have := List.find?_eq_none.mp hg c hc
    simp at this
  | some c1 =>
    have hm1 : c1 ∈ db.clients := List.mem_of_find?_eq_some hg
    have hp1 : c1.id = c.id := by simpa using List.find?_some hg
    have : c1 = c := List.inj_on_of_nodup_map hn hm1 hc hp1
    simp [this]

theorem orNull_some (name : String) (hne : name ≠ "") : orNull (some name) = some name := by
  simp [orNull, Option.filter, hne]

/-- What `handleVente` does on a credit command of a positive numeric amount whose client
name resolves: the returned sale, the new row and the incremented balance. -/
theorem handleVente_credit_eq (db : Db) (userId : UserId) (parsed : ParsedCommand)
    (name : String) (c : Client) (q : ℚ) (hm : parsed.montant = JsVal.num (JsNum.fin q))
    (hmode : parsed.modePaiement = some "credit") (hname : parsed.nomClient = some name)
    (hne : name ≠ "") (hf : clientFindByName db userId name = some c) :
    handleVente db parsed userId =
      (Except.ok (VenteResult.mk (VenteMessage.credit (JsVal.num (JsNum.fin q)) (some name))
        (Vente.mk (freshId (db.ventes.map Vente.id)) q "credit" (some name)
          (orNull parsed.notes) userId (some c.id))),
       Db.mk (bumpCredit c.id q db.clients)
        (db.ventes ++ [Vente.mk (freshId (db.ventes.map Vente.id)) q "credit" (some name)
          (orNull parsed.notes) userId (some c.id)]) db.paiements) := by
  have hc : c ∈ db.clients := List.mem_of_find?_eq_some hf
  have hany := any_id_of_mem db.clients c hc
  simp [handleVente, hm, hmode, hname, orNull_some name hne, hf, parseFloat, venteCreate,
    clientIncrement, hany]

/-- C7: for a credit sale of a positive amount `q` whose client reference resolves to a
client `c` of the caller's account, the direct path (`createVente`, reference by id) and
the command path (`handleVente`, reference by name, which only resolves inside the caller's
account) both succeed, append exactly one sale row of amount `q` for that client, raise the
client's totalCredit by exactly `q`, and leave every other client's totalCredit unchanged.
The direct path needs `c` to exist; it does not look at the owner of `c`. -/
theorem credit_sale_increments_balance (db : Db) (userId : UserId) (c : Client) (q : ℚ)
    (hn : (db.clients.map Client.id).Nodup) (hc : c ∈ db.clients) (hq : 0 < q) :
    (∀ nomClient notes,
      (createVente db userId (VenteBody.mk (JsVal.num (JsNum.fin q)) (some "credit") nomClient
          notes (some c.id))).1.status = 201 ∧
        (createVente db userId (VenteBody.mk (JsVal.num (JsNum.fin q)) (some "credit") nomClient
          notes (some c.id))).2.ventes =
          db.ventes ++ [Vente.mk (freshId (db.ventes.map Vente.id)) q "credit"
            (orNull nomClient) (orNull notes) userId (some c.id)] ∧
        (createVente db userId (VenteBody.mk (JsVal.num (JsNum.fin q)) (some "credit") nomClient
          notes (some c.id))).2.totalCredit c.id = some (c.totalCredit + q) ∧
        ∀ k, k ≠ c.id →
          (createVente db userId (VenteBody.mk (JsVal.num (JsNum.fin q)) (some "credit")
            nomClient notes (some c.id))).2.totalCredit k = db.totalCredit k) ∧
      (∀ (parsed : ParsedCommand) (name : String),
        parsed.montant = JsVal.num (JsNum.fin q) → parsed.modePaiement = some "credit" →
        parsed.nomClient = some name → name ≠ "" → clientFindByName db userId name = some c →
        ((handleVente db parsed userId).1.toOption.map (fun r => r.data)) =
            some (Vente.mk (freshId (db.ventes.map Vente.id)) q "credit" (some name)
              (orNull parsed.notes) userId (some c.id)) ∧
          (handleVente db parsed userId).2.ventes =
            db.ventes ++ [Vente.mk (freshId (db.ventes.map Vente.id)) q "credit" (some name)
              (orNull parsed.notes) userId (some c.id)] ∧
          (handleVente db parsed userId).2.totalCredit c.id = some (c.totalCredit + q) ∧
          ∀ k, k ≠ c.id → (handleVente db parsed userId).2.totalCredit k = db.totalCredit k) := by
  have htc := totalCredit_of_mem db c hn hc
  have hbal : ∀ (vs : List Vente) (ps : List Paiement),
      (Db.mk (bumpCredit c.id q db.clients) vs ps).totalCredit c.id = some (c.totalCredit + q) := by
    intro vs ps
    rw [totalCredit_bumpCredit c.id c.id q db.clients vs db.ventes ps db.paiements]
    cases db
    simp only [if_true] at htc ⊢
    rw [htc]
    rfl
  have hoth : ∀ (vs : List Vente) (ps : List Paiement) (k : ClientId), k ≠ c.id →
      (Db.mk (bumpCredit c.id q db.clients) vs ps).totalCredit k = db.totalCredit k := by
    intro vs ps k hk
    rw [totalCredit_bumpCredit c.id k q db.clients vs db.ventes ps db.paiements]
    simp [hk]
  constructor
  · intro nomClient notes
    rw [createVente_credit_eq db userId c.id q nomClient notes (any_id_of_mem db.clients c hc) hq]
    exact ⟨rfl, rfl, hbal _ _, hoth _ _⟩
  · intro parsed name hm hmode hname hne hf
    rw [handleVente_credit_eq db userId parsed name c q hm hmode hname hne hf]
    exact ⟨rfl, rfl, hbal _ _, hoth _ _⟩

/-- Witness of C7: account 7 sells 250 on credit to its client of `exampleDb`, by id and
by the name "jean". -/
theorem credit_sale_increments_balance_witness :
    (createVente exampleDb 7 (VenteBody.mk (JsVal.num (JsNum.fin 250)) (some "credit") none none
        (some 1))).2.totalCredit 1 = some (1000 + 250) ∧
      (handleVente exampleDb
        (ParsedCommand.mk (some "vente") (JsVal.num (JsNum.fin 250)) (some "credit")
          (some "jean") none none none none none none none) 7).2.totalCredit 1
        = some (1000 + 250) :=
  ⟨((credit_sale_increments_balance exampleDb 7 (Client.mk 1 "Jean Kouassi" none none 1000 7)
      250 (by simp [exampleDb]) (by simp [exampleDb]) (by norm_num)).1 none none).2.2.1,
   ((credit_sale_increments_balance exampleDb 7 (Client.mk 1 "Jean Kouassi" none none 1000 7)
      250 (by simp [exampleDb]) (by simp [exampleDb]) (by norm_num)).2
      (ParsedCommand.mk (some "vente") (JsVal.num (JsNum.fin 250)) (some "credit")
        (some "jean") none none none none none none none) "jean" rfl rfl rfl (by decide)
      (by decide)).2.2.1⟩

/-- The sibling paths are scoped: when the caller owns no client with the given id,
`createPaiement` and `deleteClient` answer 404 and write nothing. -/
theorem foreign_client_untouched_by_siblings (db : Db) (userId : UserId) (cid : ClientId)
    (hf : clientFindFirst db cid userId = none) :
    (∀ m notes, (createPaiement db userId (PaiementBody.mk (some cid) m notes)).2 = db) ∧
      deleteClient db userId cid = (Response.plain 404 "Client non trouvé", db) := by
  constructor
  · intro m notes
    unfold createPaiement
    simp only [hf]
    split <;> rfl
  · simp [deleteClient, hf]

/-- C8, the failing input evaluated: account 8 does not own client 1 of `exampleDb` (the
scoped lookup finds nothing), yet its credit sale of 100 with `clientId` 1 is answered 201
and raises that client's totalCredit from 1000 to 1100. -/
theorem createVente_changes_foreign_balance :
    clientFindFirst exampleDb 1 8 = none ∧
      exampleDb.totalCredit 1 = some 1000 ∧
      (createVente exampleDb 8 (VenteBody.mk (JsVal.num (JsNum.fin 100)) (some "credit") none
        none (some 1))).1.status = 201 ∧
      (createVente exampleDb 8 (VenteBody.mk (JsVal.num (JsNum.fin 100)) (some "credit") none
        none (some 1))).2.totalCredit 1 = some 1100 := by
  rw [createVente_credit_eq exampleDb 8 1 100 none none (by simp [exampleDb]) (by norm_num)]
  refine ⟨by simp [exampleDb, clientFindFirst], by simp [exampleDb, Db.totalCredit], rfl, ?_⟩
  norm_num [exampleDb, Db.totalCredit, bumpCredit, Client.addCredit]

/-! ## Sales without a balance effect -/

theorem venteCreate_clients (db db1 : Db) (montant : JsNum) (mode : String)
    (nomClient notes : Option String) (userId : UserId) (clientId : Option ClientId) (v : Vente)
    (hv : venteCreate db montant mode nomClient notes userId clientId = some (v, db1)) :
    db1.clients = db.clients := by
  cases montant <;> simp [venteCreate] at hv
  obtain ⟨_, _, h⟩ := hv
  rw [← h]

theorem venteDelete_clients (db db2 : Db) (id : VenteId) (hd : venteDelete db id = some db2) :
    db2.clients = db.clients := by
  simp [venteDelete] at hd
  obtain ⟨_, h⟩ := hd
  rw [← h]

/-- C9: a sale whose mode is not credit (a cash sale, whatever client id or name comes with
it) or that has no client reference leaves every client row, hence every totalCredit,
unchanged: when `createVente` handles it, when `handleVente` handles it, and when
`deleteVente` deletes it. -/
theorem no_balance_effect_without_credit_client (db : Db) (userId : UserId) :
    (∀ body : VenteBody, body.modePaiement ≠ some "credit" ∨ body.clientId = none →
        (createVente db userId body).2.clients = db.clients) ∧
      (∀ parsed : ParsedCommand,
        parsed.modePaiement ≠ some "credit" ∨ orNull parsed.nomClient = none →
        (handleVente db parsed userId).2.clients = db.clients) ∧
      (∀ (id : VenteId) (v : Vente), venteFindFirst db id userId = some v →
        v.modePaiement ≠ "credit" ∨ v.clientId = none →
        (deleteVente db userId id).2.clients = db.clients) := by
  refine ⟨?_, ?_, ?_⟩
  · intro body h
    unfold createVente
    split
    · rfl
    · cases hmode : body.modePaiement with
      | none => rfl
      | some mode =>
        simp only []
        split
        · rfl
        · cases hv : venteCreate db (parseFloat body.montant) mode (orNull body.nomClient)
              (orNull body.notes) userId body.clientId with
          | none => rfl
          | some r =>
            obtain ⟨vente, db1⟩ := r
            have hdb1 : db1.clients = db.clients := venteCreate_clients _ _ _ _ _ _ _ _ _ hv
            cases hcid : body.clientId with
            | none => simpa using hdb1
            | some cid =>
              have hne : mode ≠ "credit" := by
                rcases h with h | h
                · intro hm
                  apply h
                  rw [hmode, hm]
                · rw [hcid] at h
                  cases h
              simpa [hne] using hdb1
  · intro parsed h
    have hlook : (parsed.modePaiement == some "credit" && (orNull parsed.nomClient).isSome)
        = false := by
      rcases h with h | h
      · simp [h]
      · simp [h]
    unfold handleVente
    simp only [hlook]
    cases hmode : parsed.modePaiement with
    | none => rfl
    | some mode =>
      cases hv : venteCreate db (parseFloat parsed.montant) mode (orNull parsed.nomClient)
          (orNull parsed.notes) userId none with
      | none => simp [hv]
      | some r =>
        obtain ⟨vente, db1⟩ := r
        have hdb1 : db1.clients = db.clients := venteCreate_clients _ _ _ _ _ _ _ _ _ hv
        simpa [hv] using hdb1
  · intro id v hf h
    have hsel : (if v.modePaiement == "credit" then v.clientId else none) = none := by
      rcases h with h | h
      · simp [h]
      · simp [h]
    unfold deleteVente
    simp only [hf, hsel]
    cases hd : venteDelete db id with
    | none => rfl
    | some db2 => exact venteDelete_clients db db2 id hd


/-- Witness of C9: a cash sale that names client 1 (by id, by name) and the deletion of a
stored cash sale that names client 1 all leave the client rows as they were. -/
theorem no_balance_effect_without_credit_client_witness :
    (createVente exampleDb 7 (VenteBody.mk (JsVal.num (JsNum.fin 500)) (some "cash")
        (some "Jean Kouassi") none (some 1))).2.clients = exampleDb.clients ∧
      (handleVente exampleDb
        (ParsedCommand.mk (some "vente") (JsVal.num (JsNum.fin 500)) (some "cash")
          (some "Jean Kouassi") none none none none none none none) 7).2.clients
        = exampleDb.clients ∧
      (deleteVente cashDb 7 1).2.clients = cashDb.clients :=
  ⟨(no_balance_effect_without_credit_client exampleDb 7).1
      (VenteBody.mk (JsVal.num (JsNum.fin 500)) (some "cash") (some "Jean Kouassi") none (some 1))
      (Or.inl (by decide)),
   (no_balance_effect_without_credit_client exampleDb 7).2.1
      (ParsedCommand.mk (some "vente") (JsVal.num (JsNum.fin 500)) (some "cash")
        (some "Jean Kouassi") none none none none none none none)
      (Or.inl (by decide)),
   (no_balance_effect_without_credit_client cashDb 7).2.2 1
      (Vente.mk 1 500 "cash" (some "Jean Kouassi") none 7 (some 1))
      (by simp [cashDb, venteFindFirst]) (Or.inl (by decide))⟩

/-! ## Amount validation -/

/-- Readings of a few amounts by `Number` and by `parseFloat`: they agree on numeric
strings and differ on strings with a numeric head. -/
theorem number_and_parseFloat_readings :
    (readNumber "5000" = NumberReading.literal (Literal.decimal false 5000 0) ∧
      readFloat "5000" = some (Literal.decimal false 5000 0)) ∧
    (readNumber " 12.5 " = NumberReading.literal (Literal.decimal false 125 (-1)) ∧
      readFloat " 12.5 " = some (Literal.decimal false 125 (-1))) ∧
    (readNumber "-5" = NumberReading.literal (Literal.decimal true 5 0) ∧
      readFloat "-5" = some (Literal.decimal true 5 0)) ∧
    (readNumber "" = NumberReading.empty ∧ readFloat "" = none) ∧
    (readNumber "abc" = NumberReading.notANumber ∧ readFloat "abc" = none) ∧
    (readNumber "-5abc" = NumberReading.notANumber ∧
      readFloat "-5abc" = some (Literal.decimal true 5 0)) ∧
    (readNumber "0x10" = NumberReading.radix 16 ∧
      readFloat "0x10" = some (Literal.decimal false 0 0)) ∧
    (readNumber "1e3" = NumberReading.literal (Literal.decimal false 1 3) ∧
      readFloat "1e3 F" = some (Literal.decimal false 1 3)) := by
  decide

theorem parseFloat_minus5abc : parseFloat (JsVal.str "-5abc") = JsNum.fin (-5) := by
  have h : readFloat "-5abc" = some (Literal.decimal true 5 0) := by decide
  simp [parseFloat, parseFloatString, h, Literal.toNum]

theorem leZero_minus5abc : (JsVal.str "-5abc").leZero = false := by
  have h : readNumber "-5abc" = NumberReading.notANumber := by decide
  simp [JsVal.leZero, JsVal.toNumber, stringToNumber, h, JsNum.le]

/-- C10, the failing input evaluated: the amount `"-5abc"` is truthy and `"-5abc" <= 0` is
false (the string converts to NaN), so the validation of `createVente` lets it through;
`parseFloat("-5abc")` is -5, so the request is answered 201 and a sale row of amount -5 is
stored.  The same amount sent to `createPaiement` is answered 201, stores a payment row of
amount -5 and raises the balance from 1000 to 1005. -/
theorem createVente_stores_negative_amount :
    (JsVal.str "-5abc").truthy = true ∧ (JsVal.str "-5abc").leZero = false ∧
      parseFloat (JsVal.str "-5abc") = JsNum.fin (-5) ∧
      createVente exampleDb 7 (VenteBody.mk (JsVal.str "-5abc") (some "cash") none none none) =
        (Response.mk 201 "Vente enregistrée" (some (Vente.mk 1 (-5) "cash" none none 7 none))
          none none,
         Db.mk exampleDb.clients [Vente.mk 1 (-5) "cash" none none 7 none] []) ∧
      (createPaiement exampleDb 7 (PaiementBody.mk (some 1) (JsVal.str "-5abc") none)).1.status
        = 201 ∧
      (createPaiement exampleDb 7 (PaiementBody.mk (some 1) (JsVal.str "-5abc") none)).2.paiements
        = [Paiement.mk 1 (-5) none 1] ∧
      (createPaiement exampleDb 7
        (PaiementBody.mk (some 1) (JsVal.str "-5abc") none)).2.totalCredit 1 = some 1005 := by
  have hp := parseFloat_minus5abc
  have hz := leZero_minus5abc
  have ht : (JsVal.str "-5abc").truthy = true := by decide
  refine ⟨ht, hz, hp, ?_, ?_, ?_, ?_⟩
  · simp [createVente, ht, hz, hp, venteCreate, exampleDb, freshId, orNull]
  · norm_num [createPaiement, ht, hz, hp, exampleDb, clientFindFirst, JsNum.gt, paiementCreate,
      clientDecrement, clientIncrement, JsNum.neg]
  · norm_num [createPaiement, ht, hz, hp, exampleDb, clientFindFirst, JsNum.gt, paiementCreate,
      clientDecrement, clientIncrement, JsNum.neg, freshId, orNull]
  · norm_num [createPaiement, ht, hz, hp, exampleDb, clientFindFirst, JsNum.gt, paiementCreate,
      clientDecrement, clientIncrement, JsNum.neg, freshId, orNull, Db.totalCredit, bumpCredit,
      Client.addCredit]


/-! ## The balance along a client's history -/

/-- C1, the failing input evaluated: the client of `zeroDb` starts at totalCredit 0; the one
credit sale request with amount `"-5abc"` is accepted (201) with a stored amount of -5, so
the accepted sale amounts sum to -5, no payment is accepted, and the client's totalCredit
after the history is -5: equal to the sum, and negative. -/
theorem replay_negative_balance :
    zeroDb.totalCredit 1 = some 0 ∧
      ((LedgerOp.sale 7 (JsVal.str "-5abc") none none).run 1 zeroDb).1.status = 201 ∧
      acceptedSales 1 zeroDb [LedgerOp.sale 7 (JsVal.str "-5abc") none none] = -5 ∧
      acceptedPayments 1 zeroDb [LedgerOp.sale 7 (JsVal.str "-5abc") none none] = 0 ∧
      (replay 1 zeroDb [LedgerOp.sale 7 (JsVal.str "-5abc") none none]).totalCredit 1
        = some (-5) := by
  have hp := parseFloat_minus5abc
  have hz := leZero_minus5abc
  have ht : (JsVal.str "-5abc").truthy = true := by decide
  have hrun : (LedgerOp.sale 7 (JsVal.str "-5abc") none none).run 1 zeroDb =
      (Response.mk 201 "Vente enregistrée" (some (Vente.mk 1 (-5) "credit" none none 7 (some 1)))
        none none,
       Db.mk [Client.mk 1 "Jean Kouassi" none none (-5) 7]
        [Vente.mk 1 (-5) "credit" none none 7 (some 1)] []) := by
    norm_num [LedgerOp.run, createVente, ht, hz, hp, venteCreate, clientIncrement, zeroDb,
      freshId, orNull, bumpCredit, Client.addCredit]
  refine ⟨by simp [zeroDb, Db.totalCredit], ?_, ?_, ?_, ?_⟩
  · rw [hrun]
  · simp [acceptedSales, hrun, Response.saleAmount]
  · simp [acceptedPayments, hrun, Response.paymentAmount]
  · simp [replay, hrun, Db.totalCredit]


theorem any_id_of_totalCredit (db : Db) (cid : ClientId) (t : ℚ)
    (ht : db.totalCredit cid = some t) :
    db.clients.any (fun x => decide (x.id = cid)) = true := by
  unfold Db.totalCredit at ht
  cases hg : db.clients.find? (fun x => decide (x.id = cid)) with
  | none => rw [hg] at ht; cases ht
  | some c =>
    have hp : c.id = cid := by simpa using List.find?_some hg
    simp only [List.any_eq_true, decide_eq_true_eq]
    exact ⟨c, List.mem_of_find?_eq_some hg, hp⟩

/-- One history request with a numeric amount keeps client ids unique, moves the balance by
the accepted sale amount minus the accepted payment amount, and keeps it non-negative. -/
theorem run_numeric_step (cid : ClientId) (db : Db) (op : LedgerOp) (t : ℚ)
    (hn : (db.clients.map Client.id).Nodup) (ht : db.totalCredit cid = some t) (h0 : 0 ≤ t)
    (hnum : ∃ n, op.montant = JsVal.num n) :
    ((op.run cid db).2.clients.map Client.id).Nodup ∧
      (op.run cid db).2.totalCredit cid =
        some (t + (op.run cid db).1.saleAmount - (op.run cid db).1.paymentAmount) ∧
      0 ≤ t + (op.run cid db).1.saleAmount - (op.run cid db).1.paymentAmount := by
  have hany := any_id_of_totalCredit db cid t ht
  have hkeep : ∀ r : Response, r.status ≠ 201 →
      ((r, db).2.clients.map Client.id).Nodup ∧
        (r, db).2.totalCredit cid = some (t + (r, db).1.saleAmount - (r, db).1.paymentAmount) ∧
        0 ≤ t + (r, db).1.saleAmount - (r, db).1.paymentAmount := by
    intro r hr
    simp [Response.saleAmount, Response.paymentAmount, hr, hn, ht, h0]
  obtain ⟨n, hm⟩ := hnum
  cases op with
  | sale u m nc nt =>
    simp only [LedgerOp.montant] at hm
    subst hm
    simp only [LedgerOp.run]
    cases n with
    | nan =>
      have : createVente db u (VenteBody.mk (JsVal.num JsNum.nan) (some "credit") nc nt (some cid))
          = (Response.plain 400 "Le montant doit être supérieur à 0", db) := by
        simp [createVente, JsVal.truthy]
      rw [this]
      exact hkeep _ (by simp [Response.plain])
    | negInf =>
      have : createVente db u
          (VenteBody.mk (JsVal.num JsNum.negInf) (some "credit") nc nt (some cid))
          = (Response.plain 400 "Le montant doit être supérieur à 0", db) := by
        simp [createVente, JsVal.truthy, JsVal.leZero, JsVal.toNumber, JsNum.le]
      rw [this]
      exact hkeep _ (by simp [Response.plain])
    | posInf =>
      have : createVente db u
          (VenteBody.mk (JsVal.num JsNum.posInf) (some "credit") nc nt (some cid))
          = (serverError "Erreur lors de l'enregistrement de la vente", db) := by
        simp [createVente, JsVal.truthy, JsVal.leZero, JsVal.toNumber, JsNum.le, parseFloat,
          venteCreate]
      rw [this]
      exact hkeep _ (by simp [serverError, Response.plain])
    | fin q =>
      by_cases hq : 0 < q
      · rw [createVente_credit_eq db u cid q nc nt hany hq]
        refine ⟨?_, ?_, ?_⟩
        · simp only [bumpCredit_map_id]
          exact hn
        · rw [totalCredit_bumpCredit cid cid q db.clients _ db.ventes _ db.paiements]
          cases db
          simp only [if_true] at ht ⊢
          rw [ht]
          simp [Response.saleAmount, Response.paymentAmount]
        · simp only [Response.saleAmount, Response.paymentAmount]
          simp only [if_true, Option.map_some', Option.getD_some, Option.map_none',
            Option.getD_none]
          linarith
      · have hle : q ≤ 0 := not_lt.mp hq
        have : createVente db u
            (VenteBody.mk (JsVal.num (JsNum.fin q)) (some "credit") nc nt (some cid))
            = (Response.plain 400 "Le montant doit être supérieur à 0", db) := by
          simp [createVente, JsVal.truthy, JsVal.leZero, JsVal.toNumber, JsNum.le, hle]
        rw [this]
        exact hkeep _ (by simp [Response.plain])
  | payment u m nt =>
    simp only [LedgerOp.montant] at hm
    subst hm
    simp only [LedgerOp.run]
    cases hf : clientFindFirst db cid u with
    | none =>
      have : (createPaiement db u (PaiementBody.mk (some cid) (JsVal.num n) nt)).2 = db ∧
          (createPaiement db u (PaiementBody.mk (some cid) (JsVal.num n) nt)).1.status ≠ 201 := by
        unfold createPaiement
        simp only [hf]
        split <;> simp [Response.plain]
      have hr := hkeep (createPaiement db u (PaiementBody.mk (some cid) (JsVal.num n) nt)).1 this.2
      simp only [this.1]
      exact hr
    | some c =>
      have hct : c.totalCredit = t := by
        have := totalCredit_of_clientFindFirst db c cid u hn hf
        rw [ht] at this
        exact (Option.some.inj this).symm
      cases n with
      | nan =>
        have : createPaiement db u (PaiementBody.mk (some cid) (JsVal.num JsNum.nan) nt)
            = (Response.plain 400 "Client et montant valide requis", db) := by
          simp [createPaiement, JsVal.truthy]
        rw [this]
        exact hkeep _ (by simp [Response.plain])
      | negInf =>
        have : createPaiement db u (PaiementBody.mk (some cid) (JsVal.num JsNum.negInf) nt)
            = (Response.plain 400 "Client et montant valide requis", db) := by
          simp [createPaiement, JsVal.truthy, JsVal.leZero, JsVal.toNumber, JsNum.le]
        rw [this]
        exact hkeep _ (by simp [Response.plain])
      | posInf =>
        have : createPaiement db u (PaiementBody.mk (some cid) (JsVal.num JsNum.posInf) nt)
            = (Response.plain 400 "Le montant dépasse le crédit du client", db) := by
          simp [createPaiement, JsVal.truthy, JsVal.leZero, JsVal.toNumber, JsNum.le, parseFloat,
            hf, JsNum.gt]
        rw [this]
        exact hkeep _ (by simp [Response.plain])
      | fin q =>
        by_cases hq : 0 < q
        · by_cases hle : q ≤ c.totalCredit
          · rw [createPaiement_ok_eq db u cid c q nt hf hq hle]
            refine ⟨?_, ?_, ?_⟩
            · simp only [bumpCredit_map_id]
              exact hn
            · rw [totalCredit_bumpCredit cid cid (-q) db.clients _ db.ventes _ db.paiements]
              cases db
              simp only [if_true] at ht ⊢
              rw [ht]
              simp [Response.saleAmount, Response.paymentAmount, sub_eq_add_neg]
            · simp only [Response.saleAmount, Response.paymentAmount]
              simp only [if_true, Option.map_some', Option.getD_some, Option.map_none',
                Option.getD_none]
              linarith
          · have hgt : c.totalCredit < q := not_le.mp hle
            have hq0 : q ≠ 0 := ne_of_gt hq
            have hnle : ¬ q ≤ 0 := not_le.mpr hq
            have : createPaiement db u (PaiementBody.mk (some cid) (JsVal.num (JsNum.fin q)) nt)
                = (Response.plain 400 "Le montant dépasse le crédit du client", db) := by
              simp [createPaiement, JsVal.truthy, JsVal.leZero, JsVal.toNumber, JsNum.le,
                parseFloat, hf, JsNum.gt, hgt, hq0, hnle]
            rw [this]
            exact hkeep _ (by simp [Response.plain])
        · have hle : q ≤ 0 := not_lt.mp hq
          have : createPaiement db u (PaiementBody.mk (some cid) (JsVal.num (JsNum.fin q)) nt)
              = (Response.plain 400 "Client et montant valide requis", db) := by
            simp [createPaiement, JsVal.truthy, JsVal.leZero, JsVal.toNumber, JsNum.le, hle]
          rw [this]
          exact hkeep _ (by simp [Response.plain])

/-- For a history whose amounts are all JSON numbers, on a client that starts at a
non-negative totalCredit `t`: after the history the totalCredit is `t` plus the accepted
credit-sale amounts minus the accepted payment amounts, and it is non-negative. -/
theorem replay_balance_numeric (cid : ClientId) (ops : List LedgerOp) :
    ∀ (db : Db) (t : ℚ), (db.clients.map Client.id).Nodup → db.totalCredit cid = some t →
      0 ≤ t → (∀ op ∈ ops, ∃ n, op.montant = JsVal.num n) →
      (replay cid db ops).totalCredit cid =
          some (t + acceptedSales cid db ops - acceptedPayments cid db ops) ∧
        0 ≤ t + acceptedSales cid db ops - acceptedPayments cid db ops := by
  induction ops with
  | nil =>
    intro db t _ ht h0 _
    simp [replay, acceptedSales, acceptedPayments, ht, h0]
  | cons op ops ih =>
    intro db t hn ht h0 hnum
    have hstep := run_numeric_step cid db op t hn ht h0 (hnum op (List.mem_cons_self _ _))
    have hrest := ih (op.run cid db).2 _ hstep.1 hstep.2.1 hstep.2.2
      (fun o ho => hnum o (List.mem_cons_of_mem _ ho))
    simp only [replay, acceptedSales, acceptedPayments]
    constructor
    · rw [hrest.1]
      congr 1
      ring
    · have := hrest.2
      linarith


/-- The same at every point of the history: after any number `k` of its requests the
totalCredit is the accepted sales minus the accepted payments so far, and non-negative. -/
theorem replay_balance_numeric_prefix (cid : ClientId) (ops : List LedgerOp) (db : Db) (t : ℚ)
    (k : Nat) (hn : (db.clients.map Client.id).Nodup) (ht : db.totalCredit cid = some t)
    (h0 : 0 ≤ t) (hnum : ∀ op ∈ ops, ∃ n, op.montant = JsVal.num n) :
    (replay cid db (ops.take k)).totalCredit cid =
        some (t + acceptedSales cid db (ops.take k) - acceptedPayments cid db (ops.take k)) ∧
      0 ≤ t + acceptedSales cid db (ops.take k) - acceptedPayments cid db (ops.take k) :=
  replay_balance_numeric cid (ops.take k) db t hn ht h0
    (fun op hop => hnum op (List.mem_of_mem_take hop))

/-- The part of the amount validation that holds for every value: an amount that is falsy
(missing, null, NaN, 0, the empty string) or that compares `<= 0` (a negative number, a
numeric string such as "-5" or "0") is answered 400 by both handlers, which write
nothing. -/
theorem falsy_or_nonpositive_amount_rejected (db : Db) (userId : UserId) (m : JsVal)
    (h : m.truthy = false ∨ m.leZero = true) :
    (∀ mode nomClient notes clientId,
      createVente db userId (VenteBody.mk m mode nomClient notes clientId) =
        (Response.plain 400 "Le montant doit être supérieur à 0", db)) ∧
      (∀ clientId notes,
        createPaiement db userId (PaiementBody.mk clientId m notes) =
          (Response.plain 400 "Client et montant valide requis", db)) := by
  have hv : (!m.truthy || m.leZero) = true := by
    rcases h with h | h <;> simp [h]
  constructor
  · intro mode nomClient notes clientId
    simp [createVente, hv]
  · intro clientId notes
    cases clientId <;> simp [createPaiement, hv]


/-! ## Access decisions: the branches of `checkAccess` -/

/-- The integer expression for `Math.ceil(msLeft / unit)` is the ceiling of the exact
quotient. -/
theorem ceilDiv_eq_ceil (msLeft : Int) (unit : Nat) :
    ceilDiv msLeft unit = ⌈(msLeft : ℚ) / (unit : ℚ)⌉ := by
  unfold ceilDiv
  rw [← Rat.floor_intCast_div_natCast, Int.cast_neg, neg_div, Int.floor_neg, neg_neg]

theorem subscription_mem_of_find (subs : Subscriptions) (userId : UserId) (s : Subscription)
    (hf : subscriptionFindUnique subs userId = some s) : s ∈ subs ∧ s.userId = userId := by
  refine ⟨List.mem_of_find?_eq_some hf, ?_⟩
  simpa using List.find?_some hf

theorem subscriptionUpdateStatus_of_find (subs : Subscriptions) (userId : UserId)
    (s : Subscription) (status : String) (hf : subscriptionFindUnique subs userId = some s) :
    subscriptionUpdateStatus subs s.id status =
      some (subs.map (fun r => if r.id = s.id then r.withStatus status else r)) := by
  have hm := (subscription_mem_of_find subs userId s hf).1
  have hany : subs.any (fun r => decide (r.id = s.id)) = true := by
    simp only [List.any_eq_true, decide_eq_true_eq]
    exact ⟨s, hm, rfl⟩
  simp [subscriptionUpdateStatus, hany]

/-- After the status of the row found for an account has been rewritten, the row found for
that account is the same row with the new status. -/
theorem find_after_updateStatus (subs : Subscriptions) (userId : UserId) (s : Subscription)
    (status : String) (hf : subscriptionFindUnique subs userId = some s) :
    subscriptionFindUnique
        (subs.map (fun r => if r.id = s.id then r.withStatus status else r)) userId =
      some (s.withStatus status) := by
  have hcomp : ((fun r : Subscription => decide (r.userId = userId)) ∘
      fun r => if r.id = s.id then r.withStatus status else r) =
      fun r => decide (r.userId = userId) := by
    funext r
    by_cases h : r.id = s.id <;> simp [h, Subscription.withStatus]
  unfold subscriptionFindUnique at hf ⊢
  rw [List.find?_map, hcomp, hf]
  simp

theorem checkAccess_none_eq (subs : Subscriptions) (now : Int) (userId : UserId)
    (hf : subscriptionFindUnique subs userId = none) :
    checkAccess subs now userId =
      (Except.ok (Access.mk false none (some "no_subscription") none none none none none
        AccessMessage.noSubscription), subs) := by
  simp [checkAccess, hf]

theorem checkAccess_trial_eq (subs : Subscriptions) (now : Int) (userId : UserId)
    (s : Subscription) (hf : subscriptionFindUnique subs userId = some s)
    (hs : s.status = "trial") (hn : now < s.trialEndDate) :
    checkAccess subs now userId =
      (Except.ok (Access.mk true (some "trial") none none none
        (some (ceilDiv (s.trialEndDate - now) (1000 * 60 * 60))) none (some s.trialEndDate)
        (AccessMessage.trial (ceilDiv (s.trialEndDate - now) (1000 * 60 * 60)))), subs) := by
  simp [checkAccess, hf, hs, hn]

theorem checkAccess_trial_expired_eq (subs : Subscriptions) (now : Int) (userId : UserId)
    (s : Subscription) (hf : subscriptionFindUnique subs userId = some s)
    (hs : s.status = "trial") (hn : s.trialEndDate ≤ now) :
    checkAccess subs now userId =
      (Except.ok (Access.mk false none (some "trial_expired") none none none none none
        AccessMessage.trialExpired),
       subs.map (fun r => if r.id = s.id then r.withStatus "expired" else r)) := by
  have hlt : ¬ now < s.trialEndDate := not_lt.mpr hn
  simp [checkAccess, hf, hs, hlt, subscriptionUpdateStatus_of_find subs userId s "expired" hf]

theorem checkAccess_active_eq (subs : Subscriptions) (now : Int) (userId : UserId)
    (s : Subscription) (hf : subscriptionFindUnique subs userId = some s)
    (hs : s.status = "active") (hn : now < dateOf s.currentPeriodEnd) :
    checkAccess subs now userId =
      (Except.ok (Access.mk true (some "active") none s.plan
        ((planProperty (s.plan.getD "null")).bind PlanProperty.name) none
        (some (ceilDiv (dateOf s.currentPeriodEnd - now) (1000 * 60 * 60 * 24)))
        (some (dateOf s.currentPeriodEnd))
        (AccessMessage.active ((planProperty (s.plan.getD "null")).bind PlanProperty.name)
          (ceilDiv (dateOf s.currentPeriodEnd - now) (1000 * 60 * 60 * 24)))), subs) := by
  have hne : ¬ ("active" = "trial") := by decide
  simp [checkAccess, hf, hs, hn, hne]

theorem checkAccess_active_expired_eq (subs : Subscriptions) (now : Int) (userId : UserId)
    (s : Subscription) (hf : subscriptionFindUnique subs userId = some s)
    (hs : s.status = "active") (hn : dateOf s.currentPeriodEnd ≤ now) :
    checkAccess subs now userId =
      (Except.ok (Access.mk false none (some "subscription_expired") none none none none none
        AccessMessage.subscriptionExpired),
       subs.map (fun r => if r.id = s.id then r.withStatus "expired" else r)) := by
  have hne : ¬ ("active" = "trial") := by decide
  have hlt : ¬ now < dateOf s.currentPeriodEnd := not_lt.mpr hn
  simp [checkAccess, hf, hs, hlt, hne,
    subscriptionUpdateStatus_of_find subs userId s "expired" hf]

theorem checkAccess_other_eq (subs : Subscriptions) (now : Int) (userId : UserId)
    (s : Subscription) (hf : subscriptionFindUnique subs userId = some s)
    (ht : s.status ≠ "trial") (ha : s.status ≠ "active") :
    checkAccess subs now userId =
      (Except.ok (Access.mk false none (some s.status) none none none none none
        (if s.status = "expired" then AccessMessage.expired else AccessMessage.cancelled)),
       subs) := by
  simp [checkAccess, hf, ht, ha]


/-! ## Repeated access checks -/

/-- Counterexample to C11: 73 hours after the start of the trial `trialSub`, the first
`checkAccess` denies access with reason `trial_expired` and stores the status `expired`;
the second call at the same instant denies access with reason `expired`, not
`trial_expired`. -/
theorem checkAccess_reason_differs_on_second_call :
    (checkAccess trialSubs (1700000000000 + 73 * 3600000) 7).1 =
        Except.ok (Access.mk false none (some "trial_expired") none none none none none
          AccessMessage.trialExpired) ∧
      (checkAccess trialSubs (1700000000000 + 73 * 3600000) 7).2 =
        [trialSub.withStatus "expired"] ∧
      (checkAccess (checkAccess trialSubs (1700000000000 + 73 * 3600000) 7).2
          (1700000000000 + 73 * 3600000) 7).1 =
        Except.ok (Access.mk false none (some "expired") none none none none none
          AccessMessage.expired) := by
  have h1 : checkAccess trialSubs (1700000000000 + 73 * 3600000) 7 =
      (Except.ok (Access.mk false none (some "trial_expired") none none none none none
        AccessMessage.trialExpired), [trialSub.withStatus "expired"]) :=
    checkAccess_trial_expired_eq trialSubs _ 7 trialSub rfl rfl (by decide)
  have h2 : checkAccess [trialSub.withStatus "expired"] (1700000000000 + 73 * 3600000) 7 =
      (Except.ok (Access.mk false none (some "expired") none none none none none
        AccessMessage.expired), [trialSub.withStatus "expired"]) :=
    checkAccess_other_eq _ _ 7 (trialSub.withStatus "expired") rfl (by decide) (by decide)
  rw [h1]
  exact ⟨rfl, rfl, by rw [h2]⟩

/-- C11, amended: a second `checkAccess` at the same instant writes nothing (the table
stays as the first call left it), returns the same `hasAccess` as the first call, and a
third call returns exactly what the second returned.  When the first call did not expire
the subscription, the second call returns exactly what the first returned; when the first
call lazily expired a trial (an active period), it reports `trial_expired`
(`subscription_expired`) and the second call reports `expired`. -/
theorem checkAccess_second_call (subs : Subscriptions) (now : Int) (userId : UserId) :
    (checkAccess (checkAccess subs now userId).2 now userId).2 =
        (checkAccess subs now userId).2 ∧
      (checkAccess (checkAccess subs now userId).2 now userId).1.toOption.map Access.hasAccess =
        (checkAccess subs now userId).1.toOption.map Access.hasAccess ∧
      checkAccess (checkAccess (checkAccess subs now userId).2 now userId).2 now userId =
        checkAccess (checkAccess subs now userId).2 now userId ∧
      ((¬ ∃ s, subscriptionFindUnique subs userId = some s ∧
            ((s.status = "trial" ∧ s.trialEndDate ≤ now) ∨
              (s.status = "active" ∧ dateOf s.currentPeriodEnd ≤ now))) →
        checkAccess (checkAccess subs now userId).2 now userId = checkAccess subs now userId) ∧
      (∀ s, subscriptionFindUnique subs userId = some s → s.status = "trial" →
        s.trialEndDate ≤ now →
        (checkAccess subs now userId).1.toOption.bind Access.reason = some "trial_expired" ∧
          (checkAccess (checkAccess subs now userId).2 now userId).1.toOption.bind Access.reason
            = some "expired") ∧
      (∀ s, subscriptionFindUnique subs userId = some s → s.status = "active" →
        dateOf s.currentPeriodEnd ≤ now →
        (checkAccess subs now userId).1.toOption.bind Access.reason
            = some "subscription_expired" ∧
          (checkAccess (checkAccess subs now userId).2 now userId).1.toOption.bind Access.reason
            = some "expired") := by
  have hexp : ∀ s, subscriptionFindUnique subs userId = some s →
      checkAccess (subs.map (fun r => if r.id = s.id then r.withStatus "expired" else r)) now
          userId =
        (Except.ok (Access.mk false none (some "expired") none none none none none
          AccessMessage.expired),
         subs.map (fun r => if r.id = s.id then r.withStatus "expired" else r)) := by
    intro s hf
    have h := checkAccess_other_eq _ now userId (s.withStatus "expired")
      (find_after_updateStatus subs userId s "expired" hf)
      (by simp [Subscription.withStatus]) (by simp [Subscription.withStatus])
    simpa [Subscription.withStatus] using h
  cases hf : subscriptionFindUnique subs userId with
  | none =>
    have h1 := checkAccess_none_eq subs now userId hf
    simp [h1]
  | some s =>
    by_cases ht : s.status = "trial"
    · by_cases hn : now < s.trialEndDate
      · have h1 := checkAccess_trial_eq subs now userId s hf ht hn
        have hle : ¬ s.trialEndDate ≤ now := not_le.mpr hn
        simp [h1, ht, hle]
      · have hle : s.trialEndDate ≤ now := not_lt.mp hn
        have h1 := checkAccess_trial_expired_eq subs now userId s hf ht hle
        have h2 := hexp s hf
        simp [h1, h2, ht, hle, Except.toOption]
    · by_cases ha : s.status = "active"
      · by_cases hn : now < dateOf s.currentPeriodEnd
        · have h1 := checkAccess_active_eq subs now userId s hf ha hn
          have hle : ¬ dateOf s.currentPeriodEnd ≤ now := not_le.mpr hn
          simp [h1, ha, hle]
        · have hle : dateOf s.currentPeriodEnd ≤ now := not_lt.mp hn
          have h1 := checkAccess_active_expired_eq subs now userId s hf ha hle
          have h2 := hexp s hf
          simp [h1, h2, ha, hle, Except.toOption]
      · have h1 := checkAccess_other_eq subs now userId s hf ht ha
        simp [h1, ht, ha]


/-- Witness of the amended C11 on `trialSub`, 73 hours after the start of the trial. -/
theorem checkAccess_second_call_witness :
    (checkAccess trialSubs (1700000000000 + 73 * 3600000) 7).1.toOption.bind Access.reason
        = some "trial_expired" ∧
      (checkAccess (checkAccess trialSubs (1700000000000 + 73 * 3600000) 7).2
        (1700000000000 + 73 * 3600000) 7).1.toOption.bind Access.reason = some "expired" :=
  (checkAccess_second_call trialSubs (1700000000000 + 73 * 3600000) 7).2.2.2.2.1 trialSub rfl
    rfl (by decide)

/-! ## Access decisions, branch by branch -/

/-- C12: for a subscription in status trial and an instant `now` strictly before its
trialEndDate, `checkAccess` grants access with status `trial`, expiresAt = trialEndDate and
hoursLeft = ⌈(trialEndDate - now) / 3600000 ms⌉, and returns the table unchanged. -/
theorem checkAccess_trial_grants (subs : Subscriptions) (now : Int) (userId : UserId)
    (s : Subscription) (hf : subscriptionFindUnique subs userId = some s)
    (hs : s.status = "trial") (hn : now < s.trialEndDate) :
    checkAccess subs now userId =
      (Except.ok (Access.mk true (some "trial") none none none
        (some ⌈((s.trialEndDate - now : Int) : ℚ) / 3600000⌉) none (some s.trialEndDate)
        (AccessMessage.trial ⌈((s.trialEndDate - now : Int) : ℚ) / 3600000⌉)), subs) := by
  rw [checkAccess_trial_eq subs now userId s hf hs hn, ceilDiv_eq_ceil]
  norm_num

/-- Witness of C12: one hour after the start of the trial `trialSub`, 71 hours are left. -/
theorem checkAccess_trial_grants_witness :
    checkAccess trialSubs (1700000000000 + 3600000) 7 =
      (Except.ok (Access.mk true (some "trial") none none none (some 71) none
        (some 1700259200000) (AccessMessage.trial 71)), trialSubs) := by
  have h := checkAccess_trial_grants trialSubs (1700000000000 + 3600000) 7 trialSub rfl rfl
    (by decide)
  have hc : ⌈((trialSub.trialEndDate - (1700000000000 + 3600000) : Int) : ℚ) / 3600000⌉ = 71 := by
    rw [Int.ceil_eq_iff]
    norm_num [trialSub]
  rw [hc] at h
  exact h

/-- C13: for a subscription in status trial with trialEndDate ≤ `now` (equality included),
`checkAccess` denies access with reason `trial_expired`; for a subscription in status
active with currentPeriodEnd ≤ `now` (a null currentPeriodEnd reads as the epoch), it
denies access with reason `subscription_expired`.  In both cases the stored row of the
account becomes the same row with status `expired` and every other field as before, and
rows with another id are left as they are. -/
theorem checkAccess_lazy_expiry (subs : Subscriptions) (now : Int) (userId : UserId)
    (s : Subscription) (hf : subscriptionFindUnique subs userId = some s) :
    (s.status = "trial" → s.trialEndDate ≤ now →
      (checkAccess subs now userId).1 =
        Except.ok (Access.mk false none (some "trial_expired") none none none none none
          AccessMessage.trialExpired) ∧
      (checkAccess subs now userId).2 =
        subs.map (fun r => if r.id = s.id then r.withStatus "expired" else r)) ∧
    (s.status = "active" → dateOf s.currentPeriodEnd ≤ now →
      (checkAccess subs now userId).1 =
        Except.ok (Access.mk false none (some "subscription_expired") none none none none none
          AccessMessage.subscriptionExpired) ∧
      (checkAccess subs now userId).2 =
        subs.map (fun r => if r.id = s.id then r.withStatus "expired" else r)) ∧
    subscriptionFindUnique
        (subs.map (fun r => if r.id = s.id then r.withStatus "expired" else r)) userId =
      some (Subscription.mk s.id s.userId "expired" s.trialStartDate s.trialEndDate s.plan
        s.amount s.currentPeriodStart s.currentPeriodEnd s.paymentMethod s.transactionId
        s.lastPaymentDate s.lastPaymentAmount) ∧
    ∀ r ∈ subs, r.id ≠ s.id →
      r ∈ subs.map (fun r => if r.id = s.id then r.withStatus "expired" else r) := by
  refine ⟨?_, ?_, ?_, ?_⟩
  · intro hs hn
    rw [checkAccess_trial_expired_eq subs now userId s hf hs hn]
    exact ⟨rfl, rfl⟩
  · intro hs hn
    rw [checkAccess_active_expired_eq subs now userId s hf hs hn]
    exact ⟨rfl, rfl⟩
  · exact find_after_updateStatus subs userId s "expired" hf
  · intro r hr hne
    rw [List.mem_map]
    exact ⟨r, hr, by simp [hne]⟩

/-- Witness of C13: the trial `trialSub` at the very instant its window ends, and the
active row `activeSub` one millisecond after its period ends. -/
theorem checkAccess_lazy_expiry_witness :
    (checkAccess trialSubs 1700259200000 7).2 = [trialSub.withStatus "expired"] ∧
      (checkAccess [activeSub] 1702592000001 7).2 = [activeSub.withStatus "expired"] :=
  ⟨((checkAccess_lazy_expiry trialSubs 1700259200000 7 trialSub rfl).1 rfl (by decide)).2,
   ((checkAccess_lazy_expiry [activeSub] 1702592000001 7 activeSub rfl).2.1 rfl
      (by decide)).2⟩

/-- C14: for a subscription in status active and an instant `now` strictly before its
currentPeriodEnd `e`, `checkAccess` grants access with status `active`, expiresAt = `e`,
daysLeft = ⌈(e - now) / 86400000 ms⌉ and the stored plan identifier, with the catalog name
of that plan when the plan is a catalog plan, and returns the table unchanged. -/
theorem checkAccess_active_grants (subs : Subscriptions) (now : Int) (userId : UserId)
    (s : Subscription) (e : Int) (hf : subscriptionFindUnique subs userId = some s)
    (hs : s.status = "active") (he : s.currentPeriodEnd = some e) (hn : now < e) :
    (checkAccess subs now userId).2 = subs ∧
      ∃ a, (checkAccess subs now userId).1 = Except.ok a ∧ a.hasAccess = true ∧
        a.status = some "active" ∧ a.reason = none ∧ a.expiresAt = some e ∧
        a.daysLeft = some ⌈((e - now : Int) : ℚ) / 86400000⌉ ∧ a.hoursLeft = none ∧
        a.plan = s.plan ∧
        (∀ key p, s.plan = some key → PLANS key = some p → a.planName = some p.name) ∧
        a.message = AccessMessage.active a.planName ⌈((e - now : Int) : ℚ) / 86400000⌉ := by
  have hd : dateOf s.currentPeriodEnd = e := by simp [he, dateOf]
  have hn1 : now < dateOf s.currentPeriodEnd := by rw [hd]; exact hn
  rw [checkAccess_active_eq subs now userId s hf hs hn1, hd, ceilDiv_eq_ceil]
  refine ⟨rfl, _, rfl, rfl, rfl, rfl, rfl, ?_, rfl, rfl, ?_, ?_⟩
  · norm_num
  · intro key p hk hp
    simp [hk, planProperty, hp, PlanProperty.name]
  · norm_num

/-- Witness of C14: the monthly row `activeSub`, ten and a half days into its period, has
19.5 days left, reported as 20. -/
theorem checkAccess_active_grants_witness :
    (checkAccess [activeSub] (1700000000000 + 907200000) 7).1.toOption.bind Access.daysLeft
      = some 20 := by
  obtain ⟨_, a, ha, _, _, _, _, hd, _⟩ :=
    checkAccess_active_grants [activeSub] (1700000000000 + 907200000) 7 activeSub
      1702592000000 rfl rfl rfl (by decide)
  have hc : ⌈((1702592000000 - (1700000000000 + 907200000) : Int) : ℚ) / 86400000⌉ = 20 := by
    rw [Int.ceil_eq_iff]
    norm_num
  rw [ha]
  show a.daysLeft = some 20
  rw [hd, hc]

/-- C15: at every instant `checkAccess` denies access with reason `expired` for a
subscription in status expired, with reason `cancelled` for a subscription in status
cancelled, and with reason `no_subscription` when the account has no row; in the three
cases the table is returned unchanged. -/
theorem checkAccess_terminal (subs : Subscriptions) (now : Int) (userId : UserId) :
    (∀ s, subscriptionFindUnique subs userId = some s → s.status = "expired" →
      checkAccess subs now userId =
        (Except.ok (Access.mk false none (some "expired") none none none none none
          AccessMessage.expired), subs)) ∧
    (∀ s, subscriptionFindUnique subs userId = some s → s.status = "cancelled" →
      checkAccess subs now userId =
        (Except.ok (Access.mk false none (some "cancelled") none none none none none
          AccessMessage.cancelled), subs)) ∧
    (subscriptionFindUnique subs userId = none →
      checkAccess subs now userId =
        (Except.ok (Access.mk false none (some "no_subscription") none none none none none
          AccessMessage.noSubscription), subs)) := by
  refine ⟨?_, ?_, checkAccess_none_eq subs now userId⟩
  · intro s hf hs
    rw [checkAccess_other_eq subs now userId s hf (by rw [hs]; decide) (by rw [hs]; decide)]
    simp [hs]
  · intro s hf hs
    rw [checkAccess_other_eq subs now userId s hf (by rw [hs]; decide) (by rw [hs]; decide)]
    simp [hs]

/-- Witness of C15: the rows `expiredSub` and `cancelledSub`, and an account without a
row. -/
theorem checkAccess_terminal_witness :
    (checkAccess [expiredSub] 1700000000000 7).2 = [expiredSub] ∧
      (checkAccess [cancelledSub] 1700000000000 7).2 = [cancelledSub] ∧
      (checkAccess [expiredSub] 1700000000000 8).2 = [expiredSub] :=
  ⟨by rw [(checkAccess_terminal [expiredSub] 1700000000000 7).1 expiredSub rfl rfl],
   by rw [(checkAccess_terminal [cancelledSub] 1700000000000 7).2.1 cancelledSub rfl rfl],
   by rw [(checkAccess_terminal [expiredSub] 1700000000000 8).2.2 rfl]⟩


/-! ## Activation -/

/-- The catalog has exactly the four plans, with these names, prices and durations. -/
theorem PLANS_cases (key : String) (p : Plan) (hp : PLANS key = some p) :
    (key = "monthly" ∧ p = Plan.mk "Mensuel" 2000 30 "1 mois d'accès" none false) ∨
      (key = "quarterly" ∧ p = Plan.mk "Trimestriel" 5000 90 "3 mois d'accès" (some 1000) false) ∨
      (key = "semesterly" ∧
        p = Plan.mk "Semestriel" 10000 180 "6 mois d'accès" (some 2000) false) ∨
      (key = "yearly" ∧ p = Plan.mk "Annuel" 20000 365 "1 an d'accès" (some 4000) true) := by
  unfold PLANS at hp
  split at hp
  · left; exact ⟨by assumption, (Option.some.inj hp).symm⟩
  · split at hp
    · right; left; exact ⟨by assumption, (Option.some.inj hp).symm⟩
    · split at hp
      · right; right; left; exact ⟨by assumption, (Option.some.inj hp).symm⟩
      · split at hp
        · right; right; right; exact ⟨by assumption, (Option.some.inj hp).symm⟩
        · cases hp

theorem PLANS_duration_pos (key : String) (p : Plan) (hp : PLANS key = some p) :
    0 < p.durationDays := by
  rcases PLANS_cases key p hp with h | h | h | h <;> rw [h.2] <;> decide

theorem planProperty_of_PLANS (key : String) (p : Plan) (hp : PLANS key = some p) :
    planProperty key = some (PlanProperty.own p) := by
  simp [planProperty, hp]

/-- After the row of an account has been rewritten by an activation, the row found for the
account is the rewritten row. -/
theorem find_after_activation (subs : Subscriptions) (userId : UserId) (s : Subscription)
    (d : ActivationData) (e : Int) (hf : subscriptionFindUnique subs userId = some s) :
    subscriptionFindUnique
        (subs.map (fun r => if r.userId = userId then r.activated d e else r)) userId =
      some (s.activated d e) := by
  have hu := (subscription_mem_of_find subs userId s hf).2
  have hcomp : ((fun r : Subscription => decide (r.userId = userId)) ∘
      fun r => if r.userId = userId then r.activated d e else r) =
      fun r => decide (r.userId = userId) := by
    funext r
    by_cases h : r.userId = userId <;> simp [h, Subscription.activated]
  unfold subscriptionFindUnique at hf ⊢
  rw [List.find?_map, hcomp, hf]
  simp [hu]

/-- What `activateSubscription` does for a catalog plan on an account that has a row: it
returns the rewritten row and rewrites the rows of the account. -/
theorem activateSubscription_catalog_eq (subs : Subscriptions) (now : Int) (userId : UserId)
    (key : String) (p : Plan) (s : Subscription) (transactionId paymentMethod : Arg)
    (hp : PLANS key = some p) (hf : subscriptionFindUnique subs userId = some s) :
    activateSubscription subs now userId (Arg.str key) transactionId paymentMethod =
      (Except.ok (Subscription.mk s.id s.userId "active" s.trialStartDate s.trialEndDate
        (some key) (some p.amount) (some now)
        (some (now + (p.durationDays : Int) * 24 * 60 * 60 * 1000))
        (paymentMethod.write s.paymentMethod) (transactionId.write s.transactionId) (some now)
        (some p.amount)),
       subs.map (fun r => if r.userId = userId then
          r.activated (ActivationData.mk "active" key (some p.amount) now
            (some (now + (p.durationDays : Int) * 24 * 60 * 60 * 1000)) paymentMethod
            transactionId now (some p.amount))
            (now + (p.durationDays : Int) * 24 * 60 * 60 * 1000)
          else r)) := by
  simp [activateSubscription, Arg.key, planProperty_of_PLANS key p hp, PlanProperty.amount,
    PlanProperty.durationDays, subscriptionUpdateByUser, hf, Subscription.activated]

/-- The row found for the account after the activation of a catalog plan. -/
theorem find_after_activateSubscription (subs : Subscriptions) (now : Int) (userId : UserId)
    (key : String) (p : Plan) (s : Subscription) (transactionId paymentMethod : Arg)
    (hp : PLANS key = some p) (hf : subscriptionFindUnique subs userId = some s) :
    subscriptionFindUnique
        (activateSubscription subs now userId (Arg.str key) transactionId paymentMethod).2
        userId =
      some (Subscription.mk s.id s.userId "active" s.trialStartDate s.trialEndDate
        (some key) (some p.amount) (some now)
        (some (now + (p.durationDays : Int) * 24 * 60 * 60 * 1000))
        (paymentMethod.write s.paymentMethod) (transactionId.write s.transactionId) (some now)
        (some p.amount)) := by
  rw [activateSubscription_catalog_eq subs now userId key p s transactionId paymentMethod hp hf]
  simp only []
  rw [find_after_activation subs userId s _ _ hf]
  simp [Subscription.activated]


/-- C16: for a catalog plan (monthly: 30 days, quarterly: 90, semesterly: 180, yearly: 365)
and an account that has a row, `activateSubscription` at the instant `now` succeeds and
leaves the row with status `active`, the plan, currentPeriodStart = `now`,
currentPeriodEnd = `now` + durationDays × 86400000 ms, amount and lastPaymentAmount = the
catalog price, lastPaymentDate = `now`, the given payment method and transaction
reference, and the id, owner and trial window it had; rows of other accounts are kept. -/
theorem activateSubscription_sets_period (subs : Subscriptions) (now : Int) (userId : UserId)
    (key : String) (p : Plan) (s : Subscription) (transactionId paymentMethod : String)
    (hp : PLANS key = some p) (hf : subscriptionFindUnique subs userId = some s) :
    (activateSubscription subs now userId (Arg.str key) (Arg.str transactionId)
        (Arg.str paymentMethod)).1 =
      Except.ok (Subscription.mk s.id s.userId "active" s.trialStartDate s.trialEndDate
        (some key) (some p.amount) (some now) (some (now + (p.durationDays : Int) * 86400000))
        (some paymentMethod) (some transactionId) (some now) (some p.amount)) ∧
    subscriptionFindUnique
        (activateSubscription subs now userId (Arg.str key) (Arg.str transactionId)
          (Arg.str paymentMethod)).2 userId =
      some (Subscription.mk s.id s.userId "active" s.trialStartDate s.trialEndDate
        (some key) (some p.amount) (some now) (some (now + (p.durationDays : Int) * 86400000))
        (some paymentMethod) (some transactionId) (some now) (some p.amount)) ∧
    (∀ r ∈ subs, r.userId ≠ userId →
      r ∈ (activateSubscription subs now userId (Arg.str key) (Arg.str transactionId)
        (Arg.str paymentMethod)).2) ∧
    ((key = "monthly" ∧ p.durationDays = 30 ∧ p.amount = 2000) ∨
      (key = "quarterly" ∧ p.durationDays = 90 ∧ p.amount = 5000) ∨
      (key = "semesterly" ∧ p.durationDays = 180 ∧ p.amount = 10000) ∨
      (key = "yearly" ∧ p.durationDays = 365 ∧ p.amount = 20000)) := by
  have hms : now + (p.durationDays : Int) * 24 * 60 * 60 * 1000 =
      now + (p.durationDays : Int) * 86400000 := by ring
  refine ⟨?_, ?_, ?_, ?_⟩
  · rw [activateSubscription_catalog_eq subs now userId key p s _ _ hp hf, hms]
    rfl
  · rw [find_after_activateSubscription subs now userId key p s _ _ hp hf, hms]
    rfl
  · intro r hr hne
    rw [activateSubscription_catalog_eq subs now userId key p s _ _ hp hf]
    simp only []
    rw [List.mem_map]
    exact ⟨r, hr, by simp [hne]⟩
  · rcases PLANS_cases key p hp with h | h | h | h
    · exact Or.inl ⟨h.1, by rw [h.2], by rw [h.2]⟩
    · exact Or.inr (Or.inl ⟨h.1, by rw [h.2], by rw [h.2]⟩)
    · exact Or.inr (Or.inr (Or.inl ⟨h.1, by rw [h.2], by rw [h.2]⟩))
    · exact Or.inr (Or.inr (Or.inr ⟨h.1, by rw [h.2], by rw [h.2]⟩))

/-- Witness of C16: the expired row `expiredSub` is activated on the quarterly plan. -/
theorem activateSubscription_sets_period_witness :
    (activateSubscription [expiredSub] 1710000000000 7 (Arg.str "quarterly") (Arg.str "TXN_2")
        (Arg.str "mtn_money")).1 =
      Except.ok (Subscription.mk 1 7 "active" 1699000000000 1699259200000 (some "quarterly")
        (some 5000) (some 1710000000000) (some (1710000000000 + ((90 : Nat) : Int) * 86400000))
        (some "mtn_money") (some "TXN_2") (some 1710000000000) (some 5000)) :=
  (activateSubscription_sets_period [expiredSub] 1710000000000 7 "quarterly"
    (Plan.mk "Trimestriel" 5000 90 "3 mois d'accès" (some 1000) false) expiredSub "TXN_2"
    "mtn_money" (by decide) rfl).1

/-! ## Unknown plans -/

/-- What holds for every identifier outside the catalog: `activateSubscription` returns an
error and the table unchanged, and `webhook` answers 500 and returns the table unchanged;
when the identifier is not a member name of `Object.prototype` either, the error is the
invalid-plan error. -/
theorem activateSubscription_non_catalog (subs : Subscriptions) (now : Int) (plan : Arg)
    (hp : PLANS plan.key = none) :
    (∀ userId transactionId paymentMethod,
      (activateSubscription subs now userId plan transactionId paymentMethod).2 = subs ∧
        (activateSubscription subs now userId plan transactionId paymentMethod).1.toOption
          = none) ∧
    (∀ userId transactionId,
      webhook subs now (WebhookBody.mk transactionId (some "success") userId plan) =
        (WebhookResponse.mk 500 false, subs)) ∧
    (plan.key ∉ objectPrototypeKeys → ∀ userId transactionId paymentMethod,
      activateSubscription subs now userId plan transactionId paymentMethod =
        (Except.error (Thrown.error (invalidPlanText plan)), subs)) := by
  have hact : ∀ userId transactionId paymentMethod,
      (activateSubscription subs now userId plan transactionId paymentMethod).2 = subs ∧
        ∃ e, (activateSubscription subs now userId plan transactionId paymentMethod).1
          = Except.error e := by
    intro userId transactionId paymentMethod
    by_cases hk : plan.key ∈ objectPrototypeKeys
    · simp [activateSubscription, planProperty, hp, hk, PlanProperty.durationDays,
        subscriptionUpdateByUser]
    · simp [activateSubscription, planProperty, hp, hk]
  refine ⟨?_, ?_, ?_⟩
  · intro userId transactionId paymentMethod
    obtain ⟨h2, e, he⟩ := hact userId transactionId paymentMethod
    exact ⟨h2, by rw [he]; rfl⟩
  · intro userId transactionId
    cases userId with
    | none => simp [webhook]
    | some u =>
      obtain ⟨h2, e, he⟩ := hact u transactionId (Arg.str "mobile_money")
      have hpair : activateSubscription subs now u plan transactionId (Arg.str "mobile_money")
          = (Except.error e, subs) := Prod.ext he h2
      simp [webhook, hpair]
  · intro hk userId transactionId paymentMethod
    simp [activateSubscription, planProperty, hp, hk]

/-- C17, the failing input evaluated: `constructor` is not a catalog plan, but
`PLANS["constructor"]` is the inherited function `Object`, so the guard
`!PLANS[plan]` does not throw the invalid-plan error; the plan has no `durationDays`, the
period end is an invalid date, and the call fails in the storage update instead.  The
table is unchanged and `webhook` answers 500. -/
theorem activateSubscription_constructor_plan :
    PLANS "constructor" = none ∧
      planProperty "constructor" = some (PlanProperty.inherited "constructor") ∧
      activateSubscription [expiredSub] 1710000000000 7 (Arg.str "constructor")
          (Arg.str "TXN_2") (Arg.str "wave") = (Except.error Thrown.storage, [expiredSub]) ∧
      activateSubscription [expiredSub] 1710000000000 7 (Arg.str "constructor")
          (Arg.str "TXN_2") (Arg.str "wave") ≠
        (Except.error (Thrown.error (invalidPlanText (Arg.str "constructor"))), [expiredSub]) ∧
      webhook [expiredSub] 1710000000000
          (WebhookBody.mk (Arg.str "TXN_2") (some "success") (some 7) (Arg.str "constructor")) =
        (WebhookResponse.mk 500 false, [expiredSub]) := by
  have hP : PLANS "constructor" = none := by decide
  have hpp : planProperty "constructor" = some (PlanProperty.inherited "constructor") := by
    decide
  have hact : activateSubscription [expiredSub] 1710000000000 7 (Arg.str "constructor")
      (Arg.str "TXN_2") (Arg.str "wave") = (Except.error Thrown.storage, [expiredSub]) := by
    simp [activateSubscription, Arg.key, hpp, PlanProperty.durationDays,
      subscriptionUpdateByUser]
  refine ⟨hP, hpp, hact, ?_, ?_⟩
  · rw [hact]
    intro h
    cases h
  · simp [webhook, activateSubscription, Arg.key, hpp, PlanProperty.durationDays,
      subscriptionUpdateByUser]


/-! ## No stacking -/

/-- The days left right after an activation: the ceiling of a whole number of days. -/
theorem ceilDiv_period (now : Int) (d : Nat) :
    ceilDiv (now + (d : Int) * 24 * 60 * 60 * 1000 - now) (1000 * 60 * 60 * 24) = (d : Int) := by
  unfold ceilDiv
  push_cast
  omega

/-- C18: the period `activateSubscription` writes for a catalog plan is
(`now`, `now` + durationDays × 86400000 ms) whatever row the account had before: it depends
on the plan and on `now` only.  In particular, after an activation of any catalog plan at
`now1`, an activation at `now2` leaves the period (`now2`, `now2` + durationDays × 86400000
ms) of the second plan: what remained of the first period is discarded. -/
theorem activateSubscription_no_stacking (subs : Subscriptions) (now1 now2 : Int)
    (userId : UserId) (key1 key2 : String) (p1 p2 : Plan) (s : Subscription)
    (tx1 pm1 tx2 pm2 : Arg) (hp1 : PLANS key1 = some p1) (hp2 : PLANS key2 = some p2)
    (hf : subscriptionFindUnique subs userId = some s) :
    ((subscriptionFindUnique (activateSubscription subs now2 userId (Arg.str key2) tx2 pm2).2
        userId).map (fun r => (r.currentPeriodStart, r.currentPeriodEnd)) =
      some (some now2, some (now2 + (p2.durationDays : Int) * 86400000))) ∧
    ((subscriptionFindUnique
        (activateSubscription
          (activateSubscription subs now1 userId (Arg.str key1) tx1 pm1).2 now2 userId
          (Arg.str key2) tx2 pm2).2 userId).map
        (fun r => (r.currentPeriodStart, r.currentPeriodEnd)) =
      some (some now2, some (now2 + (p2.durationDays : Int) * 86400000))) := by
  have hms : now2 + (p2.durationDays : Int) * 24 * 60 * 60 * 1000 =
      now2 + (p2.durationDays : Int) * 86400000 := by ring
  have hf1 := find_after_activateSubscription subs now1 userId key1 p1 s tx1 pm1 hp1 hf
  constructor
  · rw [find_after_activateSubscription subs now2 userId key2 p2 s tx2 pm2 hp2 hf, hms]
    rfl
  · rw [find_after_activateSubscription _ now2 userId key2 p2 _ tx2 pm2 hp2 hf1, hms]
    rfl

/-- Witness of C18: `expiredSub` is activated on the monthly plan and, ten days later, on
the yearly plan: the period ends 365 days after the second activation. -/
theorem activateSubscription_no_stacking_witness :
    (subscriptionFindUnique
        (activateSubscription
          (activateSubscription [expiredSub] 1710000000000 7 (Arg.str "monthly")
            (Arg.str "TXN_2") (Arg.str "wave")).2 1710864000000 7
          (Arg.str "yearly") (Arg.str "TXN_3") (Arg.str "wave")).2 7).map
        (fun r => (r.currentPeriodStart, r.currentPeriodEnd)) =
      some (some 1710864000000, some (1710864000000 + ((365 : Nat) : Int) * 86400000)) :=
  (activateSubscription_no_stacking [expiredSub] 1710000000000 1710864000000 7 "monthly"
    "yearly" (Plan.mk "Mensuel" 2000 30 "1 mois d'accès" none false)
    (Plan.mk "Annuel" 20000 365 "1 an d'accès" (some 4000) true) expiredSub (Arg.str "TXN_2")
    (Arg.str "wave") (Arg.str "TXN_3") (Arg.str "wave") (by decide) (by decide) rfl).2

/-- The access decision right after the activation of a catalog plan on a table in which
the account has a row. -/
theorem checkAccess_after_activation (subs : Subscriptions) (now : Int) (userId : UserId)
    (key : String) (p : Plan) (s : Subscription) (tx pm : Arg) (hp : PLANS key = some p)
    (hf : subscriptionFindUnique subs userId = some s) :
    checkAccess (activateSubscription subs now userId (Arg.str key) tx pm).2 now userId =
      (Except.ok (Access.mk true (some "active") none (some key) (some p.name) none
        (some (p.durationDays : Int)) (some (now + (p.durationDays : Int) * 86400000))
        (AccessMessage.active (some p.name) (p.durationDays : Int))),
       (activateSubscription subs now userId (Arg.str key) tx pm).2) := by
  have hms : now + (p.durationDays : Int) * 24 * 60 * 60 * 1000 =
      now + (p.durationDays : Int) * 86400000 := by ring
  have hfind := find_after_activateSubscription subs now userId key p s tx pm hp hf
  have hpos : (0 : Int) < (p.durationDays : Int) := by
    exact_mod_cast PLANS_duration_pos key p hp
  have hlt : now < now + (p.durationDays : Int) * 24 * 60 * 60 * 1000 := by omega
  rw [checkAccess_active_eq _ now userId _ hfind rfl (by simpa [dateOf] using hlt)]
  simp only [dateOf, Option.getD_some, ceilDiv_period, planProperty_of_PLANS key p hp]
  rw [hms]
  rfl

/-- C19: right after `activateSubscription` of a catalog plan, `checkAccess` at the same
instant grants access with status `active`, that plan and daysLeft = durationDays of the
plan (30 for monthly); after a further activation at `now2` of a second catalog plan (365
days for yearly), `checkAccess` at `now2` reports the durationDays of the second plan
alone. -/
theorem activate_then_checkAccess (subs : Subscriptions) (now now2 : Int) (userId : UserId)
    (key key2 : String) (p p2 : Plan) (s : Subscription) (tx pm tx2 pm2 : Arg)
    (hp : PLANS key = some p) (hp2 : PLANS key2 = some p2)
    (hf : subscriptionFindUnique subs userId = some s) :
    (checkAccess (activateSubscription subs now userId (Arg.str key) tx pm).2 now userId).1 =
      Except.ok (Access.mk true (some "active") none (some key) (some p.name) none
        (some (p.durationDays : Int)) (some (now + (p.durationDays : Int) * 86400000))
        (AccessMessage.active (some p.name) (p.durationDays : Int))) ∧
    (checkAccess
        (activateSubscription (activateSubscription subs now userId (Arg.str key) tx pm).2 now2
          userId (Arg.str key2) tx2 pm2).2 now2 userId).1 =
      Except.ok (Access.mk true (some "active") none (some key2) (some p2.name) none
        (some (p2.durationDays : Int)) (some (now2 + (p2.durationDays : Int) * 86400000))
        (AccessMessage.active (some p2.name) (p2.durationDays : Int))) ∧
    (key = "monthly" → p.durationDays = 30) ∧ (key2 = "yearly" → p2.durationDays = 365) := by
  have hf1 := find_after_activateSubscription subs now userId key p s tx pm hp hf
  refine ⟨?_, ?_, ?_, ?_⟩
  · rw [checkAccess_after_activation subs now userId key p s tx pm hp hf]
  · rw [checkAccess_after_activation _ now2 userId key2 p2 _ tx2 pm2 hp2 hf1]
  · intro hk
    subst hk
    have : PLANS "monthly" = some (Plan.mk "Mensuel" 2000 30 "1 mois d'accès" none false) := by
      decide
    rw [this] at hp
    rw [← Option.some.inj hp]
  · intro hk
    subst hk
    have : PLANS "yearly" = some (Plan.mk "Annuel" 20000 365 "1 an d'accès" (some 4000) true) := by
      decide
    rw [this] at hp2
    rw [← Option.some.inj hp2]

/-- Witness of C19: `trialSub` is activated on the monthly plan (30 days left), then ten
days later on the yearly plan (365 days left). -/
theorem activate_then_checkAccess_witness :
    (checkAccess (activateSubscription trialSubs 1700000000000 7 (Arg.str "monthly")
        (Arg.str "TXN_1") (Arg.str "wave")).2 1700000000000 7).1.toOption.bind Access.daysLeft
        = some 30 ∧
      (checkAccess
        (activateSubscription
          (activateSubscription trialSubs 1700000000000 7 (Arg.str "monthly") (Arg.str "TXN_1")
            (Arg.str "wave")).2 1700864000000 7 (Arg.str "yearly") (Arg.str "TXN_2")
          (Arg.str "wave")).2 1700864000000 7).1.toOption.bind Access.daysLeft = some 365 := by
  obtain ⟨h1, h2, _, _⟩ := activate_then_checkAccess trialSubs 1700000000000 1700864000000 7
    "monthly" "yearly" (Plan.mk "Mensuel" 2000 30 "1 mois d'accès" none false)
    (Plan.mk "Annuel" 20000 365 "1 an d'accès" (some 4000) true) trialSub (Arg.str "TXN_1")
    (Arg.str "wave") (Arg.str "TXN_2") (Arg.str "wave") (by decide) (by decide) rfl
  rw [h1, h2]
  exact ⟨rfl, rfl⟩


/-! ## Renewal -/

/-- The invalid-plan text starts with `P`, the no-prior-plan text with `A`. -/
theorem invalidPlanText_ne_noPriorPlanText (plan : Arg) :
    invalidPlanText plan ≠ noPriorPlanText := by
  intro h
  have hd := congrArg String.data h
  simp [invalidPlanText, noPriorPlanText, String.data_append] at hd

/-- The error of `activateSubscription`, if any, is never the no-prior-plan error. -/
theorem activateSubscription_ne_noPriorPlan (subs subs1 : Subscriptions) (now : Int)
    (userId : UserId) (plan transactionId paymentMethod : Arg) :
    activateSubscription subs now userId plan transactionId paymentMethod ≠
      (Except.error (Thrown.error noPriorPlanText), subs1) := by
  intro h
  unfold activateSubscription at h
  split at h
  · simp only [Prod.mk.injEq, Except.error.injEq, Thrown.error.injEq] at h
    exact invalidPlanText_ne_noPriorPlanText plan h.1
  · split at h
    · simp at h
    · simp at h

/-- C20: `renewSubscription` fails with the no-prior-plan error if and only if the account
has no row or its row has no recorded plan (`null` or the empty string), and it then
returns the table unchanged; otherwise its result and the resulting table are those of
`activateSubscription` called with the stored plan and the same transaction reference and
payment method, so that a row with a catalog plan (an expired one in particular) is active
again for the duration of that plan. -/
theorem renewSubscription_spec (subs : Subscriptions) (now : Int) (userId : UserId)
    (transactionId paymentMethod : Arg) :
    ((renewSubscription subs now userId transactionId paymentMethod).1 =
        Except.error (Thrown.error noPriorPlanText) ↔
      (subscriptionFindUnique subs userId = none ∨
        ∃ s, subscriptionFindUnique subs userId = some s ∧
          (s.plan = none ∨ s.plan = some ""))) ∧
    ((subscriptionFindUnique subs userId = none ∨
        ∃ s, subscriptionFindUnique subs userId = some s ∧
          (s.plan = none ∨ s.plan = some "")) →
      (renewSubscription subs now userId transactionId paymentMethod).2 = subs) ∧
    (∀ s plan, subscriptionFindUnique subs userId = some s → s.plan = some plan → plan ≠ "" →
      renewSubscription subs now userId transactionId paymentMethod =
        activateSubscription subs now userId (Arg.str plan) transactionId paymentMethod) ∧
    (∀ s key p, subscriptionFindUnique subs userId = some s → s.plan = some key →
      PLANS key = some p →
      (subscriptionFindUnique
          (renewSubscription subs now userId transactionId paymentMethod).2 userId).map
          (fun r => (r.status, r.plan, r.currentPeriodEnd)) =
        some ("active", some key, some (now + (p.durationDays : Int) * 86400000))) := by
  have hdel : ∀ s plan, subscriptionFindUnique subs userId = some s → s.plan = some plan →
      plan ≠ "" →
      renewSubscription subs now userId transactionId paymentMethod =
        activateSubscription subs now userId (Arg.str plan) transactionId paymentMethod := by
    intro s plan hf hplan hne
    simp [renewSubscription, hf, hplan, hne]
  have hfail : (subscriptionFindUnique subs userId = none ∨
      ∃ s, subscriptionFindUnique subs userId = some s ∧ (s.plan = none ∨ s.plan = some "")) →
      renewSubscription subs now userId transactionId paymentMethod =
        (Except.error (Thrown.error noPriorPlanText), subs) := by
    rintro (hf | ⟨s, hf, hplan | hplan⟩)
    · simp [renewSubscription, hf]
    · simp [renewSubscription, hf, hplan]
    · simp [renewSubscription, hf, hplan]
  refine ⟨?_, ?_, hdel, ?_⟩
  · constructor
    · intro h
      cases hf : subscriptionFindUnique subs userId with
      | none => exact Or.inl rfl
      | some s =>
        right
        refine ⟨s, rfl, ?_⟩
        cases hplan : s.plan with
        | none => exact Or.inl rfl
        | some plan =>
          right
          by_cases hne : plan = ""
          · rw [hne]
          · rw [hdel s plan hf hplan hne] at h
            have hpair : activateSubscription subs now userId (Arg.str plan) transactionId
                paymentMethod =
                (Except.error (Thrown.error noPriorPlanText),
                  (activateSubscription subs now userId (Arg.str plan) transactionId
                    paymentMethod).2) := Prod.ext h rfl
            exact absurd hpair (activateSubscription_ne_noPriorPlan subs _ now userId _ _ _)
    · intro h
      rw [hfail h]
  · intro h
    rw [hfail h]
  · intro s key p hf hplan hp
    have hne : key ≠ "" := by
      intro hk
      rw [hk] at hp
      have : PLANS "" = none := by decide
      rw [this] at hp
      cases hp
    have hms : now + (p.durationDays : Int) * 24 * 60 * 60 * 1000 =
        now + (p.durationDays : Int) * 86400000 := by ring
    rw [hdel s key hf hplan hne,
      find_after_activateSubscription subs now userId key p s _ _ hp hf, hms]
    rfl

/-- Witness of C20: account 8 has no row and `trialSub` has no plan (both fail and keep the
table); the expired monthly row `expiredSub` is renewed for 30 days. -/
theorem renewSubscription_spec_witness :
    (renewSubscription trialSubs 1710000000000 8 (Arg.str "TXN_R") (Arg.str "wave")).1 =
        Except.error (Thrown.error noPriorPlanText) ∧
      (renewSubscription trialSubs 1710000000000 7 (Arg.str "TXN_R") (Arg.str "wave")).2 =
        trialSubs ∧
      (subscriptionFindUnique
          (renewSubscription [expiredSub] 1710000000000 7 (Arg.str "TXN_R")
            (Arg.str "wave")).2 7).map (fun r => (r.status, r.plan, r.currentPeriodEnd)) =
        some ("active", some "monthly", some (1710000000000 + ((30 : Nat) : Int) * 86400000)) :=
  ⟨(renewSubscription_spec trialSubs 1710000000000 8 (Arg.str "TXN_R") (Arg.str "wave")).1.mpr
      (Or.inl rfl),
   (renewSubscription_spec trialSubs 1710000000000 7 (Arg.str "TXN_R") (Arg.str "wave")).2.1
      (Or.inr ⟨trialSub, rfl, Or.inl rfl⟩),
   (renewSubscription_spec [expiredSub] 1710000000000 7 (Arg.str "TXN_R")
      (Arg.str "wave")).2.2.2 expiredSub "monthly"
      (Plan.mk "Mensuel" 2000 30 "1 mois d'accès" none false) rfl rfl (by decide)⟩

/-! ## Cancelled subscriptions -/

/-- The status of the row found for an account after `renewSubscription`, when the row has
a stored catalog plan: the renewal is the activation of that plan. -/
theorem renewSubscription_catalog_eq (subs : Subscriptions) (now : Int) (userId : UserId)
    (key : String) (p : Plan) (s : Subscription) (transactionId paymentMethod : Arg)
    (hp : PLANS key = some p) (hf : subscriptionFindUnique subs userId = some s)
    (hplan : s.plan = some key) :
    renewSubscription subs now userId transactionId paymentMethod =
      activateSubscription subs now userId (Arg.str key) transactionId paymentMethod := by
  have hne : key ≠ "" := by
    intro h
    rw [h] at hp
    have hnone : PLANS "" = none := by decide
    rw [hnone] at hp
    cases hp
  simp [renewSubscription, hf, hplan, hne]

/-- Counterexample to C21: the cancelled row `cancelledSub` (monthly plan) is set to
`active` by `activateSubscription` with the plan `monthly`, and also by
`renewSubscription`. -/
theorem activateSubscription_revives_cancelled :
    cancelledSub.status = "cancelled" ∧
      (subscriptionFindUnique
          (activateSubscription [cancelledSub] 1710000000000 7 (Arg.str "monthly")
            (Arg.str "TXN_2") (Arg.str "wave")).2 7).map Subscription.status =
        some "active" ∧
      (subscriptionFindUnique
          (renewSubscription [cancelledSub] 1710000000000 7 (Arg.str "TXN_2")
            (Arg.str "wave")).2 7).map Subscription.status =
        some "active" := by
  refine ⟨rfl, ?_, ?_⟩
  · rw [find_after_activateSubscription [cancelledSub] 1710000000000 7 "monthly"
      (Plan.mk "Mensuel" 2000 30 "1 mois d'accès" none false) cancelledSub _ _ rfl rfl]
    rfl
  · rw [renewSubscription_catalog_eq [cancelledSub] 1710000000000 7 "monthly"
      (Plan.mk "Mensuel" 2000 30 "1 mois d'accès" none false) cancelledSub _ _ rfl rfl rfl,
      find_after_activateSubscription [cancelledSub] 1710000000000 7 "monthly"
      (Plan.mk "Mensuel" 2000 30 "1 mois d'accès" none false) cancelledSub _ _ rfl rfl]
    rfl

/-- C21, amended: `checkAccess` leaves a cancelled subscription as it is (it denies access
with reason `cancelled` and returns the table unchanged); `activateSubscription` with a
catalog plan sets the status of the account's row to `active` whatever its status was
(cancelled, expired, trial or active), and so does `renewSubscription` when the row stores
a catalog plan. -/
theorem cancelled_kept_by_checkAccess_only (subs : Subscriptions) (now : Int)
    (userId : UserId) (key : String) (p : Plan) (s : Subscription)
    (transactionId paymentMethod : Arg) (hp : PLANS key = some p)
    (hf : subscriptionFindUnique subs userId = some s) :
    (s.status = "cancelled" →
      checkAccess subs now userId =
        (Except.ok (Access.mk false none (some "cancelled") none none none none none
          AccessMessage.cancelled), subs)) ∧
    (subscriptionFindUnique
        (activateSubscription subs now userId (Arg.str key) transactionId paymentMethod).2
        userId).map Subscription.status = some "active" ∧
    (s.plan = some key →
      (subscriptionFindUnique
          (renewSubscription subs now userId transactionId paymentMethod).2
          userId).map Subscription.status = some "active") := by
  refine ⟨?_, ?_, ?_⟩
  · intro hs
    rw [checkAccess_other_eq subs now userId s hf (by rw [hs]; decide) (by rw [hs]; decide)]
    simp [hs]
  · rw [find_after_activateSubscription subs now userId key p s _ _ hp hf]
    rfl
  · intro hplan
    rw [renewSubscription_catalog_eq subs now userId key p s _ _ hp hf hplan,
      find_after_activateSubscription subs now userId key p s _ _ hp hf]
    rfl

/-- Witness of C21 (amended): the table that holds the cancelled monthly row
`cancelledSub`. -/
theorem cancelled_kept_by_checkAccess_only_witness :
    (checkAccess [cancelledSub] 1710000000000 7).2 = [cancelledSub] ∧
      (subscriptionFindUnique
          (activateSubscription [cancelledSub] 1710000000000 7 (Arg.str "yearly")
            (Arg.str "TXN_2") (Arg.str "wave")).2 7).map Subscription.status =
        some "active" :=
  ⟨by rw [(cancelled_kept_by_checkAccess_only [cancelledSub] 1710000000000 7 "yearly"
      (Plan.mk "Annuel" 20000 365 "1 an d'accès" (some 4000) true) cancelledSub
      (Arg.str "TXN_2") (Arg.str "wave") rfl rfl).1 rfl],
   (cancelled_kept_by_checkAccess_only [cancelledSub] 1710000000000 7 "yearly"
      (Plan.mk "Annuel" 20000 365 "1 an d'accès" (some 4000) true) cancelledSub
      (Arg.str "TXN_2") (Arg.str "wave") rfl rfl).2.1⟩

/-! ## The trial -/

/-- The trial row of a new account is the row found for it afterwards. -/
theorem find_after_append (subs : Subscriptions) (userId : UserId) (row : Subscription)
    (hnew : subscriptionFindUnique subs userId = none) (hu : row.userId = userId) :
    subscriptionFindUnique (subs ++ [row]) userId = some row := by
  unfold subscriptionFindUnique at hnew ⊢
  simp [List.find?_append, hnew, hu]

/-- What `createTrialSubscription` does for an account without a row. -/
theorem createTrialSubscription_eq (subs : Subscriptions) (now : Int) (userId : UserId)
    (hnew : subscriptionFindUnique subs userId = none) :
    createTrialSubscription subs now userId =
      (Except.ok (Subscription.mk (freshId (subs.map Subscription.id)) userId "trial" now
          (now + 72 * 3600000) none none none none none none none none),
        subs ++ [Subscription.mk (freshId (subs.map Subscription.id)) userId "trial" now
          (now + 72 * 3600000) none none none none none none none none]) := by
  have hany : subs.any (fun s => decide (s.userId = userId)) = false := by
    unfold subscriptionFindUnique at hnew
    rw [List.find?_eq_none] at hnew
    rw [List.any_eq_false]
    exact hnew
  simp [createTrialSubscription, subscriptionCreateTrial, hany]

/-- C22: for an account without a row, `createTrialSubscription` at the instant `now`
stores and returns a row with status `trial`, trialStartDate = `now` and trialEndDate =
`now` + 72 hours; `checkAccess` at `now` + t then grants access exactly when t < 72 hours;
one hour after the start it grants access with 71 hours left and leaves the table as it
is, and 73 hours after the start it denies access with reason `trial_expired`. -/
theorem createTrialSubscription_then_checkAccess (subs : Subscriptions) (now : Int)
    (userId : UserId) (hnew : subscriptionFindUnique subs userId = none) :
    createTrialSubscription subs now userId =
        (Except.ok (Subscription.mk (freshId (subs.map Subscription.id)) userId "trial" now
            (now + 72 * 3600000) none none none none none none none none),
          subs ++ [Subscription.mk (freshId (subs.map Subscription.id)) userId "trial" now
            (now + 72 * 3600000) none none none none none none none none]) ∧
      (∀ t : Int, ∃ a,
        (checkAccess (createTrialSubscription subs now userId).2 (now + t) userId).1 =
          Except.ok a ∧ (a.hasAccess = true ↔ t < 72 * 3600000)) ∧
      checkAccess (createTrialSubscription subs now userId).2 (now + 1 * 3600000) userId =
        (Except.ok (Access.mk true (some "trial") none none none (some 71) none
          (some (now + 72 * 3600000)) (AccessMessage.trial 71)),
         (createTrialSubscription subs now userId).2) ∧
      (checkAccess (createTrialSubscription subs now userId).2 (now + 73 * 3600000)
          userId).1 =
        Except.ok (Access.mk false none (some "trial_expired") none none none none none
          AccessMessage.trialExpired) := by
  have hc := createTrialSubscription_eq subs now userId hnew
  have hf := find_after_append subs userId
    (Subscription.mk (freshId (subs.map Subscription.id)) userId "trial" now
      (now + 72 * 3600000) none none none none none none none none) hnew rfl
  refine ⟨hc, ?_, ?_, ?_⟩
  · intro t
    rw [hc]
    by_cases ht : t < 72 * 3600000
    · refine ⟨_, congrArg Prod.fst
        (checkAccess_trial_eq _ (now + t) userId _ hf rfl (by simp only []; omega)), ?_⟩
      exact ⟨fun _ => ht, fun _ => rfl⟩
    · refine ⟨_, congrArg Prod.fst
        (checkAccess_trial_expired_eq _ (now + t) userId _ hf rfl (by simp only []; omega)), ?_⟩
      exact ⟨fun h => absurd h Bool.false_ne_true, fun h => absurd h ht⟩
  · rw [hc]
    rw [checkAccess_trial_eq _ (now + 1 * 3600000) userId _ hf rfl (by simp only []; omega)]
    have hms : now + 72 * 3600000 - (now + 1 * 3600000) = 255600000 := by ring
    simp only [hms]
    have hh : ceilDiv 255600000 (1000 * 60 * 60) = 71 := by decide
    rw [hh]
  · rw [hc]
    exact congrArg Prod.fst
      (checkAccess_trial_expired_eq _ (now + 73 * 3600000) userId _ hf rfl
        (by simp only []; omega))

/-- Witness of C22: account 7 starts its trial at the instant 1700000000000 on an empty
table; 73 hours later access is denied. -/
theorem createTrialSubscription_then_checkAccess_witness :
    (createTrialSubscription [] 1700000000000 7).2 = [trialSub] ∧
      (checkAccess (createTrialSubscription [] 1700000000000 7).2
          (1700000000000 + 73 * 3600000) 7).1 =
        Except.ok (Access.mk false none (some "trial_expired") none none none none none
          AccessMessage.trialExpired) :=
  ⟨by rw [(createTrialSubscription_then_checkAccess [] 1700000000000 7 rfl).1]; rfl,
   (createTrialSubscription_then_checkAccess [] 1700000000000 7 rfl).2.2.2⟩

/-! ## Savings -/

/-- C23: for the quarterly (3 months), semesterly (6) and yearly (12) plans,
`calculateSavings` reports savings = monthly price (2000) × months − plan price, that is
1000, 2000 and 4000, which are the savings figures of the catalog `PLANS`; each
savingsPercent is 17, the integer nearest to savings / (monthly price × months) × 100
(16.67 for the three plans). -/
theorem calculateSavings_matches_catalog :
    PLANS "monthly" = some (Plan.mk "Mensuel" 2000 30 "1 mois d'accès" none false) ∧
      some calculateSavings.quarterly.plan = PLANS "quarterly" ∧
      some calculateSavings.semesterly.plan = PLANS "semesterly" ∧
      some calculateSavings.yearly.plan = PLANS "yearly" ∧
      calculateSavings.quarterly.savings = 2000 * 3 - calculateSavings.quarterly.plan.amount ∧
      calculateSavings.semesterly.savings =
        2000 * 6 - calculateSavings.semesterly.plan.amount ∧
      calculateSavings.yearly.savings = 2000 * 12 - calculateSavings.yearly.plan.amount ∧
      calculateSavings.quarterly.savings = 1000 ∧
      calculateSavings.semesterly.savings = 2000 ∧
      calculateSavings.yearly.savings = 4000 ∧
      some calculateSavings.quarterly.savings = calculateSavings.quarterly.plan.savings ∧
      some calculateSavings.semesterly.savings = calculateSavings.semesterly.plan.savings ∧
      some calculateSavings.yearly.savings = calculateSavings.yearly.plan.savings ∧
      calculateSavings.quarterly.savingsPercent = 17 ∧
      calculateSavings.semesterly.savingsPercent = 17 ∧
      calculateSavings.yearly.savingsPercent = 17 ∧
      |(calculateSavings.quarterly.savingsPercent : ℚ) -
          calculateSavings.quarterly.savings / (2000 * 3) * 100| ≤ 1 / 2 ∧
      |(calculateSavings.semesterly.savingsPercent : ℚ) -
          calculateSavings.semesterly.savings / (2000 * 6) * 100| ≤ 1 / 2 ∧
      |(calculateSavings.yearly.savingsPercent : ℚ) -
          calculateSavings.yearly.savings / (2000 * 12) * 100| ≤ 1 / 2 := by
  have hm : planOf "monthly" = Plan.mk "Mensuel" 2000 30 "1 mois d'accès" none false := rfl
  have hq : planOf "quarterly" =
      Plan.mk "Trimestriel" 5000 90 "3 mois d'accès" (some 1000) false := rfl
  have hs : planOf "semesterly" =
      Plan.mk "Semestriel" 10000 180 "6 mois d'accès" (some 2000) false := rfl
  have hy : planOf "yearly" = Plan.mk "Annuel" 20000 365 "1 an d'accès" (some 4000) true := rfl
  have hr3 : mathRound ((((2000 : ℚ) * 3 - 5000) / (2000 * 3)) * 100) = 17 := by
    unfold mathRound
    rw [Int.floor_eq_iff]
    norm_num
  have hr6 : mathRound ((((2000 : ℚ) * 6 - 10000) / (2000 * 6)) * 100) = 17 := by
    unfold mathRound
    rw [Int.floor_eq_iff]
    norm_num
  have hr12 : mathRound ((((2000 : ℚ) * 12 - 20000) / (2000 * 12)) * 100) = 17 := by
    unfold mathRound
    rw [Int.floor_eq_iff]
    norm_num
  have hqs : calculateSavings.quarterly.savings = 1000 := by
    simp only [calculateSavings, savingsEntry, hm, hq]
    norm_num
  have hss : calculateSavings.semesterly.savings = 2000 := by
    simp only [calculateSavings, savingsEntry, hm, hs]
    norm_num
  have hys : calculateSavings.yearly.savings = 4000 := by
    simp only [calculateSavings, savingsEntry, hm, hy]
    norm_num
  have hqp : calculateSavings.quarterly.savingsPercent = 17 := by
    simp only [calculateSavings, savingsEntry, hm, hq]
    exact hr3
  have hsp : calculateSavings.semesterly.savingsPercent = 17 := by
    simp only [calculateSavings, savingsEntry, hm, hs]
    exact hr6
  have hyp : calculateSavings.yearly.savingsPercent = 17 := by
    simp only [calculateSavings, savingsEntry, hm, hy]
    exact hr12
  have hqa : calculateSavings.quarterly.plan = planOf "quarterly" := rfl
  have hsa : calculateSavings.semesterly.plan = planOf "semesterly" := rfl
  have hya : calculateSavings.yearly.plan = planOf "yearly" := rfl
  refine ⟨rfl, rfl, rfl, rfl, ?_, ?_, ?_, hqs, hss, hys, ?_, ?_, ?_, hqp, hsp, hyp, ?_, ?_, ?_⟩
  · rw [hqs, hqa, hq]; norm_num
  · rw [hss, hsa, hs]; norm_num
  · rw [hys, hya, hy]; norm_num
  · rw [hqs, hqa, hq]
  · rw [hss, hsa, hs]
  · rw [hys, hya, hy]
  · rw [hqs, hqp, abs_le]; norm_num
  · rw [hss, hsp, abs_le]; norm_num
  · rw [hys, hyp, abs_le]; norm_num

/-! ## Command validation -/

/-- On a finite number the amount test `!montant || montant <= 0` is `montant ≤ 0`. -/
theorem montant_guard_numeric (q : ℚ) :
    (!(JsVal.num (JsNum.fin q)).truthy || (JsVal.num (JsNum.fin q)).leZero) =
      decide (q ≤ 0) := by
  by_cases h : q ≤ 0
  · simp [JsVal.truthy, JsVal.leZero, JsVal.toNumber, JsNum.le, h]
  · have h0 : q ≠ 0 := fun h0 => h (le_of_eq h0)
    simp [JsVal.truthy, JsVal.leZero, JsVal.toNumber, JsNum.le, h, h0]

/-- The rules of `validateCommand` on commands whose amount is a finite number: a sale is
valid exactly when the amount is positive, the mode is `cash` or `credit` and, for
`credit`, the client name is not blank; an expense exactly when the amount is positive and
the reason is not blank; a new client exactly when the name is not blank (whatever the
amount field holds). -/
theorem validateCommand_numeric (c : ParsedCommand) (q : ℚ)
    (hm : c.montant = JsVal.num (JsNum.fin q)) :
    (c.type = some "vente" →
      ((validateCommand c).isValid = true ↔
        0 < q ∧ (c.modePaiement = some "cash" ∨ c.modePaiement = some "credit") ∧
          (c.modePaiement = some "credit" → isBlank c.nomClient = false))) ∧
    (c.type = some "depense" →
      ((validateCommand c).isValid = true ↔ 0 < q ∧ isBlank c.motif = false)) := by
  have hg := montant_guard_numeric q
  constructor
  · intro ht
    by_cases hq : q ≤ 0
    · have hq2 : ¬ 0 < q := not_lt.mpr hq
      simp [validateCommand, ht, hm, hg, hq, hq2]
    · have hq2 : 0 < q := not_le.mp hq
      by_cases hcash : c.modePaiement = some "cash"
      · simp [validateCommand, ht, hm, hg, hq, hq2, hcash]
      · by_cases hcredit : c.modePaiement = some "credit"
        · simp [validateCommand, ht, hm, hg, hq, hq2, hcredit]
        · simp [validateCommand, ht, hm, hg, hq, hq2, hcash, hcredit]
  · intro ht
    by_cases hq : q ≤ 0
    · have hq2 : ¬ 0 < q := not_lt.mpr hq
      simp [validateCommand, ht, hm, hg, hq, hq2]
    · have hq2 : 0 < q := not_le.mp hq
      simp [validateCommand, ht, hm, hg, hq, hq2]

/-- The rule of `validateCommand` for a new client: valid exactly when the name is not
blank. -/
theorem validateCommand_nouveau_client (c : ParsedCommand)
    (ht : c.type = some "nouveau_client") :
    ((validateCommand c).isValid = true ↔ isBlank c.nom = false) := by
  cases hb : isBlank c.nom <;> simp [validateCommand, ht, hb]

/-- C24, the failing input evaluated: the cash sale command whose amount is the string
`"-5abc"` is reported valid with no error, although the amount is not greater than 0
(`"-5abc"` converts to NaN, and `NaN > 0` is false); `handleVente` then stores a sale of
amount -5.  The expense command with the same amount is reported valid too. -/
theorem validateCommand_accepts_non_numeric_amount :
    validateCommand (ParsedCommand.mk (some "vente") (JsVal.str "-5abc") (some "cash") none
        none none none none none none none) =
      Validation.mk true [] (ParsedCommand.mk (some "vente") (JsVal.str "-5abc") (some "cash")
        none none none none none none none none) ∧
    (JsVal.str "-5abc").toNumber = JsNum.nan ∧
    (JsVal.str "-5abc").toNumber.gt (JsNum.fin 0) = false ∧
    (handleVente exampleDb (ParsedCommand.mk (some "vente") (JsVal.str "-5abc") (some "cash")
        none none none none none none none none) 7).2.ventes =
      [Vente.mk 1 (-5) "cash" none none 7 none] ∧
    (validateCommand (ParsedCommand.mk (some "depense") (JsVal.str "-5abc") none none none
        (some "transport") none none none none none)).isValid = true := by
  have hp := parseFloat_minus5abc
  have hz := leZero_minus5abc
  have ht : (JsVal.str "-5abc").truthy = true := by decide
  have hn : (JsVal.str "-5abc").toNumber = JsNum.nan := by
    have h : readNumber "-5abc" = NumberReading.notANumber := by decide
    simp [JsVal.toNumber, stringToNumber, h]
  have hb : isBlank (some "transport") = false := by decide
  refine ⟨?_, hn, ?_, ?_, ?_⟩
  · simp [validateCommand, ht, hz]
  · rw [hn]; rfl
  · simp [handleVente, hp, venteCreate, exampleDb, freshId, orNull]
  · simp [validateCommand, ht, hz, hb]

/-! ## Commands that are not applied -/

/-- What `validateCommand` answers for a command of a kind other than sale, expense and new
client. -/
theorem validateCommand_other_kind (c : ParsedCommand) (h1 : c.type ≠ some "vente")
    (h2 : c.type ≠ some "depense") (h3 : c.type ≠ some "nouveau_client") :
    validateCommand c =
      Validation.mk false
        (if c.type = some "erreur" then [(orNull c.message).getD "Commande non comprise"]
          else ["Type de commande non reconnu"]) c := by
  by_cases he : c.type = some "erreur" <;> simp [validateCommand, h1, h2, h3, he]

/-- C25: for a command of kind `erreur`, and for every command whose kind is not `vente`,
`depense` or `nouveau_client`, `validateCommand` reports the command invalid with exactly
one error: the command's own message for an `erreur` that carries a non-empty one,
`Commande non comprise` for an `erreur` without message, `Type de commande non reconnu` for
any other kind.  `processVoiceCommand` then answers 400 with that error (or with the
missing-text error when the text is blank) and returns every table unchanged: no handler
runs. -/
theorem unsupported_kind_short_circuits (st : CommandDb) (userId : UserId)
    (text : Option String) (analyze : String → ParsedCommand)
    (h1 : (analyze (text.getD "")).type ≠ some "vente")
    (h2 : (analyze (text.getD "")).type ≠ some "depense")
    (h3 : (analyze (text.getD "")).type ≠ some "nouveau_client") :
    (validateCommand (analyze (text.getD ""))).isValid = false ∧
      (validateCommand (analyze (text.getD ""))).errors ≠ [] ∧
      ((analyze (text.getD "")).type = some "erreur" →
        ∀ m, (analyze (text.getD "")).message = some m → m ≠ "" →
          (validateCommand (analyze (text.getD ""))).errors = [m]) ∧
      ((analyze (text.getD "")).type = some "erreur" →
        orNull (analyze (text.getD "")).message = none →
          (validateCommand (analyze (text.getD ""))).errors = ["Commande non comprise"]) ∧
      ((analyze (text.getD "")).type ≠ some "erreur" →
        (validateCommand (analyze (text.getD ""))).errors =
          ["Type de commande non reconnu"]) ∧
      (processVoiceCommand st userId text analyze).2 = st ∧
      (isBlank text = false →
        (processVoiceCommand st userId text analyze).1 =
          VoiceResponse.badRequest
            (String.intercalate ", " (validateCommand (analyze (text.getD ""))).errors)
            (some (analyze (text.getD "")))) ∧
      (isBlank text = true →
        (processVoiceCommand st userId text analyze).1 =
          VoiceResponse.badRequest "Le texte de la commande est requis" none) := by
  have hv := validateCommand_other_kind (analyze (text.getD "")) h1 h2 h3
  refine ⟨by rw [hv], ?_, ?_, ?_, ?_, ?_, ?_, ?_⟩
  · rw [hv]
    by_cases he : (analyze (text.getD "")).type = some "erreur" <;> simp [he]
  · intro he m hm hne
    rw [hv]
    simp [he, hm, orNull_some m hne]
  · intro he hnone
    rw [hv]
    simp [he, hnone]
  · intro he
    rw [hv]
    simp [he]
  · cases hb : isBlank text <;> simp [processVoiceCommand, hb, hv]
  · intro hb
    simp [processVoiceCommand, hb, hv]
  · intro hb
    simp [processVoiceCommand, hb]

/-- Witness of C25: the interpreter answers a command of kind `erreur` with the message
`Format de réponse invalide.`; the request is answered 400 with that message and the
tables are unchanged. -/
theorem unsupported_kind_short_circuits_witness :
    (processVoiceCommand (CommandDb.mk exampleDb []) 7 (some "bonjour")
        (fun _ => ParsedCommand.mk (some "erreur") JsVal.undefined none none none none none
          none none none (some "Format de réponse invalide."))).2 =
      CommandDb.mk exampleDb [] ∧
    (validateCommand (ParsedCommand.mk (some "erreur") JsVal.undefined none none none none
        none none none none (some "Format de réponse invalide."))).errors =
      ["Format de réponse invalide."] :=
  ⟨(unsupported_kind_short_circuits (CommandDb.mk exampleDb []) 7 (some "bonjour")
      (fun _ => ParsedCommand.mk (some "erreur") JsVal.undefined none none none none none
        none none none (some "Format de réponse invalide.")) (by decide) (by decide)
      (by decide)).2.2.2.2.2.1,
   (unsupported_kind_short_circuits (CommandDb.mk exampleDb []) 7 (some "bonjour")
      (fun _ => ParsedCommand.mk (some "erreur") JsVal.undefined none none none none none
        none none none (some "Format de réponse invalide.")) (by decide) (by decide)
      (by decide)).2.2.1 rfl "Format de réponse invalide." rfl (by decide)⟩

/-! ## Credit sale commands for an unknown client -/

/-- The lookup by name only returns a client of the caller's account whose name contains
the needle. -/
theorem clientFindByName_some (db : Db) (userId : UserId) (needle : String) (c : Client)
    (hf : clientFindByName db userId needle = some c) :
    c ∈ db.clients ∧ c.userId = userId ∧ containsInsensitive c.nom needle = true := by
  refine ⟨List.mem_of_find?_eq_some hf, ?_⟩
  simpa using List.find?_some hf

/-- The lookup by name finds nothing when no client of the account matches, whatever the
clients of other accounts are called. -/
theorem clientFindByName_none (db : Db) (userId : UserId) (needle : String)
    (hno : ∀ c ∈ db.clients, c.userId = userId → containsInsensitive c.nom needle = false) :
    clientFindByName db userId needle = none := by
  unfold clientFindByName
  rw [List.find?_eq_none]
  intro c hc hp
  simp only [Bool.and_eq_true, decide_eq_true_eq] at hp
  rw [hno c hc hp.1] at hp
  exact absurd hp.2 Bool.false_ne_true

/-- C26: for a credit sale command with a non-empty client name that no client of the
issuing account contains (case ignored), `handleVente` throws the client-not-found error,
whose text tells the user to create the client first, and returns the database unchanged:
no sale row, no client, no balance change.  Clients of other accounts are not looked at,
and a client the lookup does return always belongs to the issuing account. -/
theorem handleVente_client_not_found (db : Db) (parsed : ParsedCommand) (userId : UserId)
    (name : String) (hmode : parsed.modePaiement = some "credit")
    (hname : parsed.nomClient = some name) (hne : name ≠ "")
    (hno : ∀ c ∈ db.clients, c.userId = userId → containsInsensitive c.nom name = false) :
    handleVente db parsed userId =
        (Except.error (Thrown.error
          ("Le client \"" ++ name ++ "\" n'existe pas dans votre base. " ++
            "Créez-le d'abord avec la commande : \"Créer un nouveau client " ++ name ++ "\"")),
         db) ∧
      (∀ needle c, clientFindByName db userId needle = some c → c.userId = userId) := by
  constructor
  · have hf := clientFindByName_none db userId name hno
    simp [handleVente, hmode, hname, orNull_some name hne, hf, clientNotFoundText]
  · intro needle c hf
    exact (clientFindByName_some db userId needle c hf).2.1

/-- Witness of C26: account 7 has no client; the client `Jean Kouassi` belongs to account
8.  The credit sale command of account 7 for `jean` fails and changes nothing. -/
theorem handleVente_client_not_found_witness :
    (handleVente (Db.mk [Client.mk 1 "Jean Kouassi" none none 1000 8] [] [])
        (ParsedCommand.mk (some "vente") (JsVal.num (JsNum.fin 500)) (some "credit")
          (some "jean") none none none none none none none) 7).2 =
      Db.mk [Client.mk 1 "Jean Kouassi" none none 1000 8] [] [] := by
  rw [(handleVente_client_not_found (Db.mk [Client.mk 1 "Jean Kouassi" none none 1000 8] [] [])
    (ParsedCommand.mk (some "vente") (JsVal.num (JsNum.fin 500)) (some "credit")
      (some "jean") none none none none none none none) 7 "jean" rfl rfl (by decide)
    (by simp)).1]

/-! ## New client commands -/

/-- The exact lookup finds a client exactly when the account has one of that name, case
ignored. -/
theorem clientFindByExactName_isSome (db : Db) (userId : UserId) (name : String) :
    (∃ c, clientFindByExactName db userId (some name) = some c) ↔
      ∃ c ∈ db.clients, c.userId = userId ∧ equalsInsensitive c.nom name = true := by
  constructor
  · rintro ⟨c, hf⟩
    refine ⟨c, List.mem_of_find?_eq_some hf, ?_⟩
    simpa [clientFindByExactName] using List.find?_some hf
  · rintro ⟨c, hc, hu, he⟩
    cases hf : clientFindByExactName db userId (some name) with
    | some c1 => exact ⟨c1, rfl⟩
    | none =>
      unfold clientFindByExactName at hf
      rw [List.find?_eq_none] at hf
      exact absurd (by simp [hu, he]) (hf c hc)

/-- C27: for a new-client command with a name, `handleNouveauClient` throws the
duplicate-client error and returns the database unchanged if and only if the issuing
account already has a client whose name equals the given name, case ignored; otherwise it
succeeds and appends exactly one client row, owned by the issuing account, with the given
name and totalCredit 0, and changes nothing else. -/
theorem handleNouveauClient_duplicate_iff (db : Db) (parsed : ParsedCommand)
    (userId : UserId) (name : String) (hn : parsed.nom = some name) :
    ((∃ e, (handleNouveauClient db parsed userId).1 = Except.error e) ↔
        ∃ c ∈ db.clients, c.userId = userId ∧ equalsInsensitive c.nom name = true) ∧
      ((∃ c ∈ db.clients, c.userId = userId ∧ equalsInsensitive c.nom name = true) →
        handleNouveauClient db parsed userId =
          (Except.error (Thrown.error
            ("Le client \"" ++ name ++ "\" existe déjà dans votre base. " ++
              "Utilisez-le directement pour vos ventes à crédit.")), db)) ∧
      ((¬ ∃ c ∈ db.clients, c.userId = userId ∧ equalsInsensitive c.nom name = true) →
        ∃ r, handleNouveauClient db parsed userId =
            (Except.ok r,
              Db.mk (db.clients ++
                [Client.mk (freshId (db.clients.map Client.id)) name (orNull parsed.telephone)
                  (orNull parsed.adresse) 0 userId]) db.ventes db.paiements) ∧
          r.data = CommandData.client
            (Client.mk (freshId (db.clients.map Client.id)) name (orNull parsed.telephone)
              (orNull parsed.adresse) 0 userId)) := by
  have hdup : (∃ c ∈ db.clients, c.userId = userId ∧ equalsInsensitive c.nom name = true) →
      handleNouveauClient db parsed userId =
        (Except.error (Thrown.error
          ("Le client \"" ++ name ++ "\" existe déjà dans votre base. " ++
            "Utilisez-le directement pour vos ventes à crédit.")), db) := by
    intro h
    obtain ⟨c, hf⟩ := (clientFindByExactName_isSome db userId name).mpr h
    simp [handleNouveauClient, hn, hf, duplicateClientText]
  have hnew : (¬ ∃ c ∈ db.clients, c.userId = userId ∧ equalsInsensitive c.nom name = true) →
      ∃ r, handleNouveauClient db parsed userId =
          (Except.ok r,
            Db.mk (db.clients ++
              [Client.mk (freshId (db.clients.map Client.id)) name (orNull parsed.telephone)
                (orNull parsed.adresse) 0 userId]) db.ventes db.paiements) ∧
        r.data = CommandData.client
          (Client.mk (freshId (db.clients.map Client.id)) name (orNull parsed.telephone)
            (orNull parsed.adresse) 0 userId) := by
    intro h
    have hf : clientFindByExactName db userId (some name) = none := by
      cases hf : clientFindByExactName db userId (some name) with
      | none => rfl
      | some c => exact absurd ((clientFindByExactName_isSome db userId name).mp ⟨c, hf⟩) h
    refine ⟨CommandResult.mk
      (match orNull parsed.telephone with
        | some tel => CommandMessage.clientWithPhone parsed.nom tel
        | none => CommandMessage.client parsed.nom)
      (CommandData.client
        (Client.mk (freshId (db.clients.map Client.id)) name (orNull parsed.telephone)
          (orNull parsed.adresse) 0 userId)), ?_, rfl⟩
    simp [handleNouveauClient, hn, hf, clientCreate]
  refine ⟨⟨?_, fun h => ⟨_, congrArg Prod.fst (hdup h)⟩⟩, hdup, hnew⟩
  rintro ⟨e, he⟩
  by_contra hno
  obtain ⟨r, hr, _⟩ := hnew hno
  rw [hr] at he
  cases he

/-- Witness of C27: account 7 already has the client `Jean Kouassi`, so the command for
`JEAN KOUASSI` is rejected and changes nothing. -/
theorem handleNouveauClient_duplicate_iff_witness :
    handleNouveauClient exampleDb
        (ParsedCommand.mk (some "nouveau_client") JsVal.undefined none none none none none
          (some "JEAN KOUASSI") none none none) 7 =
      (Except.error (Thrown.error
        ("Le client \"" ++ "JEAN KOUASSI" ++ "\" existe déjà dans votre base. " ++
          "Utilisez-le directement pour vos ventes à crédit.")), exampleDb) :=
  (handleNouveauClient_duplicate_iff exampleDb
    (ParsedCommand.mk (some "nouveau_client") JsVal.undefined none none none none none
      (some "JEAN KOUASSI") none none none) 7 "JEAN KOUASSI" rfl).2.1
    ⟨Client.mk 1 "Jean Kouassi" none none 1000 7, by simp [exampleDb], rfl, by decide⟩

/-! ## Storage failures in the middle of an operation -/

theorem attempt_ok {α : Type} (faults : Faults) (k : Nat) (call : Option α)
    (h : faults k = false) : attempt faults k call = call := by
  simp [attempt, h]

theorem attempt_fail {α : Type} (faults : Faults) (k : Nat) (call : Option α)
    (h : faults k = true) : attempt faults k call = none := by
  simp [attempt, h]

/-- When no storage call fails from outside, the handlers under storage failures are the
handlers themselves. -/
theorem handlers_without_faults (faults : Faults) (hall : ∀ k, faults k = false) (db : Db)
    (userId : UserId) :
    (∀ body, createVenteWith faults db userId body = createVente db userId body) ∧
      (∀ id, deleteVenteWith faults db userId id = deleteVente db userId id) ∧
      (∀ body, createPaiementWith faults db userId body = createPaiement db userId body) ∧
      (∀ parsed, handleVenteWith faults db parsed userId = handleVente db parsed userId) := by
  refine ⟨?_, ?_, ?_, ?_⟩
  · intro body
    simp only [createVenteWith, createVente, attempt, hall]
    rfl
  · intro id
    simp only [deleteVenteWith, deleteVente, attempt, hall]
    cases venteFindFirst db id userId <;> rfl
  · intro body
    simp only [createPaiementWith, createPaiement, attempt, hall]
    cases body.clientId with
    | none => rfl
    | some cid =>
      simp only []
      split
      · rfl
      · cases clientFindFirst db cid userId <;> rfl
  · intro parsed
    simp only [handleVenteWith, handleVente, attempt, hall, Bool.false_eq_true, ↓reduceIte]
    by_cases hc : (parsed.modePaiement == some "credit" && (orNull parsed.nomClient).isSome)
        = true
    · simp only [hc, ↓reduceIte]
      cases clientFindByName db userId (parsed.nomClient.getD "") <;> rfl
    · simp only [hc, Bool.false_eq_true, ↓reduceIte]

/-- Counterexample to C28: when the second write of an operation fails, the first one
stays.  A credit sale of 250 whose balance update fails is answered 500 and leaves the sale
row stored with the balance still 1000; a payment of 600 whose balance update fails is
answered 500 and leaves the payment row stored with the balance still 1000; the deletion of
the credit sale of `creditDb` whose `delete` call fails is answered 500 and leaves the
balance lowered to 750 with the sale row still stored. -/
theorem failed_second_write_keeps_first :
    createVenteWith (fun k => decide (k = 1)) exampleDb 7
        (VenteBody.mk (JsVal.num (JsNum.fin 250)) (some "credit") none none (some 1)) =
      (serverError "Erreur lors de l'enregistrement de la vente",
        Db.mk [Client.mk 1 "Jean Kouassi" none none 1000 7]
          [Vente.mk 1 250 "credit" none none 7 (some 1)] []) ∧
    createPaiementWith (fun k => decide (k = 2)) exampleDb 7
        (PaiementBody.mk (some 1) (JsVal.num (JsNum.fin 600)) none) =
      (serverError "Erreur lors de l'enregistrement du paiement",
        Db.mk [Client.mk 1 "Jean Kouassi" none none 1000 7] [] [Paiement.mk 1 600 none 1]) ∧
    deleteVenteWith (fun k => decide (k = 2)) creditDb 7 1 =
      (serverError "Erreur lors de la suppression de la vente",
        Db.mk [Client.mk 1 "Jean Kouassi" none none 750 7]
          [Vente.mk 1 250 "credit" none none 7 (some 1)] []) := by
  refine ⟨?_, ?_, ?_⟩
  · norm_num [createVenteWith, attempt, JsVal.truthy, JsVal.leZero, JsVal.toNumber, JsNum.le,
      parseFloat, venteCreate, exampleDb, freshId, orNull]
  · norm_num [createPaiementWith, attempt, JsVal.truthy, JsVal.leZero, JsVal.toNumber,
      JsNum.le, JsNum.gt, parseFloat, clientFindFirst, paiementCreate, exampleDb, freshId,
      orNull]
  · norm_num [deleteVenteWith, attempt, creditDb, venteFindFirst, clientDecrement,
      clientIncrement, JsNum.neg, bumpCredit, Client.addCredit]

theorem venteCreate_ventes (db db1 : Db) (montant : JsNum) (mode : String)
    (nomClient notes : Option String) (userId : UserId) (clientId : Option ClientId) (v : Vente)
    (hv : venteCreate db montant mode nomClient notes userId clientId = some (v, db1)) :
    db1.ventes = db.ventes ++ [v] ∧ db1.paiements = db.paiements := by
  cases montant <;> simp [venteCreate] at hv
  obtain ⟨_, hv1, h⟩ := hv
  rw [← h, ← hv1]
  exact ⟨rfl, rfl⟩

theorem paiementCreate_rows (db db1 : Db) (montant : JsNum) (notes : Option String)
    (clientId : ClientId) (p : Paiement)
    (hp : paiementCreate db montant notes clientId = some (p, db1)) :
    db1.paiements = db.paiements ++ [p] ∧ db1.clients = db.clients ∧
      db1.ventes = db.ventes := by
  cases montant <;> simp [paiementCreate] at hp
  obtain ⟨_, hp1, h⟩ := hp
  rw [← h, ← hp1]
  exact ⟨rfl, rfl, rfl⟩

theorem clientDecrement_rows (db db1 : Db) (cid : ClientId) (q : ℚ)
    (hd : clientDecrement db cid (JsNum.fin q) = some db1) :
    db1.clients = bumpCredit cid (-q) db.clients ∧ db1.ventes = db.ventes ∧
      db1.paiements = db.paiements := by
  simp [clientDecrement, clientIncrement, JsNum.neg] at hd
  obtain ⟨_, h⟩ := hd
  rw [← h]
  exact ⟨rfl, rfl, rfl⟩

/-- C28, amended: the balance-affecting operations run their storage calls one after the
other, without a transaction.  When a call fails, the operation is answered 500
(`handleVente` throws) and the writes made before it stay.  For a credit sale (`createVente`
and `handleVente`): a failed insertion leaves the database as it was; a failed balance
update leaves the sale row inserted and every balance as it was.  For `deleteVente` of a
credit sale: a failed lookup or balance update leaves the database as it was; a failed
`delete` leaves the balance lowered and the sale row still stored.  For `createPaiement`: a
failed lookup or insertion leaves the database as it was; a failed balance update leaves
the payment row inserted and the balance as it was; a failed re-read answers 500 after both
writes. -/
theorem storage_failure_outcomes (faults : Faults) (db : Db) (userId : UserId) :
    (∀ (cid : ClientId) (q : ℚ) (nomClient notes : Option String) (v : Vente) (db1 : Db),
      0 < q →
      venteCreate db (JsNum.fin q) "credit" (orNull nomClient) (orNull notes) userId
        (some cid) = some (v, db1) →
      (faults 0 = true →
        createVenteWith faults db userId
            (VenteBody.mk (JsVal.num (JsNum.fin q)) (some "credit") nomClient notes (some cid)) =
          (serverError "Erreur lors de l'enregistrement de la vente", db)) ∧
      (faults 0 = false → faults 1 = true →
        createVenteWith faults db userId
            (VenteBody.mk (JsVal.num (JsNum.fin q)) (some "credit") nomClient notes (some cid)) =
          (serverError "Erreur lors de l'enregistrement de la vente", db1) ∧
        db1.ventes = db.ventes ++ [v] ∧ db1.clients = db.clients)) ∧
    (∀ (id : VenteId) (v : Vente) (cid : ClientId) (db1 : Db),
      venteFindFirst db id userId = some v → v.modePaiement = "credit" →
      v.clientId = some cid → clientDecrement db cid (JsNum.fin v.montant) = some db1 →
      (faults 0 = true →
        deleteVenteWith faults db userId id =
          (serverError "Erreur lors de la suppression de la vente", db)) ∧
      (faults 0 = false → faults 1 = true →
        deleteVenteWith faults db userId id =
          (serverError "Erreur lors de la suppression de la vente", db)) ∧
      (faults 0 = false → faults 1 = false → faults 2 = true →
        deleteVenteWith faults db userId id =
          (serverError "Erreur lors de la suppression de la vente", db1) ∧
        db1.ventes = db.ventes ∧ db1.clients = bumpCredit cid (-v.montant) db.clients)) ∧
    (∀ (cid : ClientId) (c : Client) (q : ℚ) (notes : Option String) (p : Paiement)
        (db1 db2 : Db),
      0 < q → clientFindFirst db cid userId = some c → q ≤ c.totalCredit →
      paiementCreate db (JsNum.fin q) (orNull notes) cid = some (p, db1) →
      clientDecrement db1 cid (JsNum.fin q) = some db2 →
      (faults 0 = true →
        createPaiementWith faults db userId
            (PaiementBody.mk (some cid) (JsVal.num (JsNum.fin q)) notes) =
          (serverError "Erreur lors de l'enregistrement du paiement", db)) ∧
      (faults 0 = false → faults 1 = true →
        createPaiementWith faults db userId
            (PaiementBody.mk (some cid) (JsVal.num (JsNum.fin q)) notes) =
          (serverError "Erreur lors de l'enregistrement du paiement", db)) ∧
      (faults 0 = false → faults 1 = false → faults 2 = true →
        createPaiementWith faults db userId
            (PaiementBody.mk (some cid) (JsVal.num (JsNum.fin q)) notes) =
          (serverError "Erreur lors de l'enregistrement du paiement", db1) ∧
        db1.paiements = db.paiements ++ [p] ∧ db1.clients = db.clients) ∧
      (faults 0 = false → faults 1 = false → faults 2 = false → faults 3 = true →
        createPaiementWith faults db userId
            (PaiementBody.mk (some cid) (JsVal.num (JsNum.fin q)) notes) =
          (serverError "Erreur lors de l'enregistrement du paiement", db2) ∧
        db2.paiements = db.paiements ++ [p] ∧
        db2.clients = bumpCredit cid (-q) db.clients)) ∧
    (∀ (parsed : ParsedCommand) (name : String) (c : Client) (q : ℚ) (v : Vente) (db1 : Db),
      parsed.modePaiement = some "credit" → parsed.nomClient = some name → name ≠ "" →
      parsed.montant = JsVal.num (JsNum.fin q) →
      clientFindByName db userId name = some c →
      venteCreate db (JsNum.fin q) "credit" (some name) (orNull parsed.notes) userId
        (some c.id) = some (v, db1) →
      (faults 0 = true →
        handleVenteWith faults db parsed userId = (Except.error Thrown.storage, db)) ∧
      (faults 0 = false → faults 1 = true →
        handleVenteWith faults db parsed userId = (Except.error Thrown.storage, db)) ∧
      (faults 0 = false → faults 1 = false → faults 2 = true →
        handleVenteWith faults db parsed userId = (Except.error Thrown.storage, db1) ∧
        db1.ventes = db.ventes ++ [v] ∧ db1.clients = db.clients)) := by
  refine ⟨?_, ?_, ?_, ?_⟩
  · intro cid q nomClient notes v db1 hq hv
    have hg := montant_guard_numeric q
    have hq2 : ¬ q ≤ 0 := not_le.mpr hq
    refine ⟨?_, ?_⟩
    · intro h0
      simp [createVenteWith, hg, hq2, attempt, h0]
    · intro h0 h1
      refine ⟨?_, (venteCreate_ventes _ _ _ _ _ _ _ _ _ hv).1,
        venteCreate_clients _ _ _ _ _ _ _ _ _ hv⟩
      simp [createVenteWith, hg, hq2, attempt, h0, h1, parseFloat, hv]
  · intro id v cid db1 hf hm hc hd
    refine ⟨?_, ?_, ?_⟩
    · intro h0
      simp [deleteVenteWith, attempt, h0]
    · intro h0 h1
      simp [deleteVenteWith, attempt, h0, h1, hf, hm, hc]
    · intro h0 h1 h2
      refine ⟨?_, (clientDecrement_rows _ _ _ _ hd).2.1, (clientDecrement_rows _ _ _ _ hd).1⟩
      simp [deleteVenteWith, attempt, h0, h1, h2, hf, hm, hc, hd]
  · intro cid c q notes p db1 db2 hq hf hle hp hd
    have hg := montant_guard_numeric q
    have hq2 : ¬ q ≤ 0 := not_le.mpr hq
    have hgt : ¬ c.totalCredit < q := not_lt.mpr hle
    have hr1 := paiementCreate_rows _ _ _ _ _ _ hp
    have hr2 := clientDecrement_rows _ _ _ _ hd
    refine ⟨?_, ?_, ?_, ?_⟩
    · intro h0
      simp [createPaiementWith, hg, hq2, attempt, h0]
    · intro h0 h1
      simp [createPaiementWith, hg, hq2, attempt, h0, h1, hf, parseFloat, JsNum.gt, hgt]
    · intro h0 h1 h2
      refine ⟨?_, hr1.1, hr1.2.1⟩
      simp [createPaiementWith, hg, hq2, attempt, h0, h1, h2, hf, parseFloat, JsNum.gt, hgt, hp]
    · intro h0 h1 h2 h3
      refine ⟨?_, by rw [hr2.2.2, hr1.1], by rw [hr2.1, hr1.2.1]⟩
      simp [createPaiementWith, hg, hq2, attempt, h0, h1, h2, h3, hf, parseFloat, JsNum.gt, hgt,
        hp, hd]
  · intro parsed name c q v db1 hmode hname hne hm hf hv
    have hor := orNull_some name hne
    refine ⟨?_, ?_, ?_⟩
    · intro h0
      simp [handleVenteWith, attempt, h0, hmode, hname, hor]
    · intro h0 h1
      simp [handleVenteWith, attempt, h0, h1, hmode, hname, hor, hf]
    · intro h0 h1 h2
      refine ⟨?_, (venteCreate_ventes _ _ _ _ _ _ _ _ _ hv).1,
        venteCreate_clients _ _ _ _ _ _ _ _ _ hv⟩
      simp [handleVenteWith, attempt, h0, h1, h2, hmode, hname, hor, hf, hm, parseFloat, hv]

/-- Witness of C28 (amended): a payment of 600 on the client of `exampleDb` whose final
re-read fails is answered 500 although the payment row is stored and the balance is 400. -/
theorem storage_failure_outcomes_witness :
    createPaiementWith (fun k => decide (k = 3)) exampleDb 7
        (PaiementBody.mk (some 1) (JsVal.num (JsNum.fin 600)) none) =
      (serverError "Erreur lors de l'enregistrement du paiement",
        Db.mk [Client.mk 1 "Jean Kouassi" none none 400 7] [] [Paiement.mk 1 600 none 1]) :=
  (((storage_failure_outcomes (fun k => decide (k = 3)) exampleDb 7).2.2.1 1
    (Client.mk 1 "Jean Kouassi" none none 1000 7) 600 none (Paiement.mk 1 600 none 1)
    (Db.mk [Client.mk 1 "Jean Kouassi" none none 1000 7] [] [Paiement.mk 1 600 none 1])
    (Db.mk [Client.mk 1 "Jean Kouassi" none none 400 7] [] [Paiement.mk 1 600 none 1])
    (by norm_num) (by simp [clientFindFirst, exampleDb]) (by norm_num)
    (by simp [paiementCreate, exampleDb, freshId, orNull])
    (by norm_num [clientDecrement, clientIncrement, JsNum.neg, bumpCredit,
      Client.addCredit])).2.2.2 (by decide) (by decide) (by decide) (by decide)).1

/-! ## Two overlapping payments -/

/-- A run of `createPaiement` on its own: its four steps in a row give the answer and the
database of the handler. -/
theorem paiementRun_alone (db : Db) (userId : UserId) (body : PaiementBody) :
    ((((PaiementRun.ready userId body).step db).1.step
          ((PaiementRun.ready userId body).step db).2).1.step
        ((((PaiementRun.ready userId body).step db).1.step
          ((PaiementRun.ready userId body).step db).2).2)).1.step
      ((((PaiementRun.ready userId body).step db).1.step
          ((PaiementRun.ready userId body).step db).2).1.step
        ((((PaiementRun.ready userId body).step db).1.step
          ((PaiementRun.ready userId body).step db).2).2)).2 =
      (PaiementRun.finished (createPaiement db userId body).1,
        (createPaiement db userId body).2) := by
  unfold createPaiement
  cases hc : body.clientId with
  | none => simp [PaiementRun.step, hc]
  | some cid =>
    by_cases hg : (!body.montant.truthy || body.montant.leZero) = true
    · simp [PaiementRun.step, hc, hg]
    · cases hf : clientFindFirst db cid userId with
      | none => simp [PaiementRun.step, hc, hg, hf]
      | some client =>
        by_cases hgt : (parseFloat body.montant).gt (JsNum.fin client.totalCredit) = true
        · simp [PaiementRun.step, hc, hg, hf, hgt]
        · cases hp : paiementCreate db (parseFloat body.montant) (orNull body.notes) cid with
          | none => simp [PaiementRun.step, hc, hg, hf, hgt, hp]
          | some res =>
            obtain ⟨paiement, db1⟩ := res
            cases hd : clientDecrement db1 cid (parseFloat body.montant) with
            | none => simp [PaiementRun.step, hc, hg, hf, hgt, hp, hd]
            | some db2 => simp [PaiementRun.step, hc, hg, hf, hgt, hp, hd]

/-- A run has taken off the balance either nothing or its whole amount. -/
theorem paid_cases (a : ℚ) (t : PaiementRun) : t.paid a = 0 ∨ t.paid a = a := by
  cases t with
  | ready _ _ => exact Or.inl rfl
  | checked _ _ => exact Or.inl rfl
  | inserted _ _ _ => exact Or.inl rfl
  | decremented _ _ => exact Or.inr rfl
  | finished r =>
    by_cases h : r.status = 201
    · exact Or.inr (by simp [PaiementRun.paid, h])
    · exact Or.inl (by simp [PaiementRun.paid, h])

/-- One step of a run of the request of amount `a`, while the other run has taken `other`
off the balance of 1000: the run stays on its request, the balance stays 1000 minus what
both have taken off, the run moves one stage on (or has answered), an amount taken off
stays taken off, and the run is only rejected when the other has taken something off. -/
theorem step_spec (a other : ℚ) (t : PaiementRun) (db : Db) (ha0 : 0 < a) (ha : a ≤ 1000)
    (hother : other = 0 ∨ 1000 - other < a) (hwf : t.about a)
    (hdb : db.clients = [Client.mk 1 "Jean Kouassi" none none (1000 - t.paid a - other) 7]) :
    (t.step db).1.about a ∧
      (t.step db).2.clients =
        [Client.mk 1 "Jean Kouassi" none none (1000 - (t.step db).1.paid a - other) 7] ∧
      ((t.step db).1.stage = 4 ∨ (t.step db).1.stage = t.stage + 1) ∧
      (t.stage = 4 → (t.step db).1 = t) ∧
      (t.paid a = a → (t.step db).1.paid a = a) ∧
      ((t.step db).1.status = some 400 → t.status = some 400 ∨ other ≠ 0) := by
  have hg := montant_guard_numeric a
  have hq2 : ¬ a ≤ 0 := not_le.mpr ha0
  cases t with
  | ready userId body =>
    obtain ⟨hu, hb⟩ := hwf
    subst hu
    subst hb
    have hf : clientFindFirst db 1 7 =
        some (Client.mk 1 "Jean Kouassi" none none (1000 - 0 - other) 7) := by
      simp [clientFindFirst, hdb, PaiementRun.paid]
    rcases hother with h0 | hlt
    · subst h0
      have hgt : ¬ (1000 : ℚ) < a := not_lt.mpr ha
      have hstep : (PaiementRun.ready 7 (paymentOf a)).step db =
          (PaiementRun.checked (paymentOf a) 1, db) := by
        simp [PaiementRun.step, paymentOf, hg, hq2, hf, parseFloat, JsNum.gt, hgt]
      rw [hstep]
      simp [PaiementRun.about, PaiementRun.paid, PaiementRun.stage, PaiementRun.status, hdb]
    · have hne : other ≠ 0 := by
        intro h
        rw [h] at hlt
        linarith
      have hstep : (PaiementRun.ready 7 (paymentOf a)).step db =
          (PaiementRun.finished (Response.plain 400 "Le montant dépasse le crédit du client"),
            db) := by
        simp [PaiementRun.step, paymentOf, hg, hq2, hf, parseFloat, JsNum.gt, hlt]
      rw [hstep]
      simp [PaiementRun.about, PaiementRun.paid, PaiementRun.stage, PaiementRun.status, hdb,
        Response.plain, hne]
  | checked body cid =>
    obtain ⟨hb, hc⟩ := hwf
    subst hb
    subst hc
    simp [PaiementRun.step, paymentOf, parseFloat, paiementCreate, hdb, PaiementRun.about,
      PaiementRun.paid, PaiementRun.stage, PaiementRun.status]
  | inserted body cid paiement =>
    obtain ⟨hb, hc⟩ := hwf
    subst hb
    subst hc
    simp [PaiementRun.step, paymentOf, parseFloat, clientDecrement, clientIncrement, JsNum.neg,
      hdb, PaiementRun.about, PaiementRun.paid, PaiementRun.stage, PaiementRun.status,
      bumpCredit, Client.addCredit]
    ring
  | decremented cid paiement =>
    simp [PaiementRun.step, PaiementRun.about, PaiementRun.paid, PaiementRun.stage,
      PaiementRun.status, hdb]
  | finished response =>
    exact ⟨hwf, hdb, Or.inl rfl, fun _ => rfl, fun h => h, fun h => Or.inl h⟩

/-- A run that has answered has taken its amount off exactly when the answer is 201. -/
theorem paid_of_status (a : ℚ) (t : PaiementRun) (s : Nat) (hs : t.status = some s) :
    t.paid a = if s = 201 then a else 0 := by
  cases t with
  | finished r =>
    simp only [PaiementRun.status, Option.some.injEq] at hs
    simp [PaiementRun.paid, hs]
  | ready _ _ => cases hs
  | checked _ _ => cases hs
  | inserted _ _ _ => cases hs
  | decremented _ _ => cases hs

/-- A run on its request answers 201 or 400. -/
theorem status_of_about (a : ℚ) (t : PaiementRun) (s : Nat) (hwf : t.about a)
    (hs : t.status = some s) : s = 201 ∨ s = 400 := by
  cases t with
  | finished r =>
    simp only [PaiementRun.status, Option.some.injEq] at hs
    rw [← hs]
    exact hwf
  | ready _ _ => cases hs
  | checked _ _ => cases hs
  | inserted _ _ _ => cases hs
  | decremented _ _ => cases hs

/-- A run at stage 4 has answered. -/
theorem status_of_stage (t : PaiementRun) (h : 4 ≤ t.stage) : ∃ s, t.status = some s := by
  cases t with
  | finished r => exact ⟨r.status, rfl⟩
  | ready _ _ => simp [PaiementRun.stage] at h
  | checked _ _ => simp [PaiementRun.stage] at h
  | inserted _ _ _ => simp [PaiementRun.stage] at h
  | decremented _ _ => simp [PaiementRun.stage] at h

theorem raceStart_consistent : raceStart.consistent := by
  refine ⟨⟨rfl, rfl⟩, ⟨rfl, rfl⟩, ?_, ?_, ?_⟩
  · simp [raceStart, PaiementRun.paid]
  · intro h
    cases h
  · intro h
    cases h

/-- Every step of the scheduler keeps the two runs consistent, moves the picked run one
stage on (or leaves it answered) and leaves the other run where it is. -/
theorem consistent_step (r : Race) (pick : Bool) (h : r.consistent) :
    (r.step pick).consistent ∧
      (pick = false →
        ((r.step pick).first.stage = 4 ∨ (r.step pick).first.stage = r.first.stage + 1) ∧
          (r.step pick).second = r.second) ∧
      (pick = true →
        ((r.step pick).second.stage = 4 ∨ (r.step pick).second.stage = r.second.stage + 1) ∧
          (r.step pick).first = r.first) := by
  obtain ⟨h1, h2, hdb, hr1, hr2⟩ := h
  cases pick with
  | false =>
    have hother : r.second.paid 700 = 0 ∨ 1000 - r.second.paid 700 < (600 : ℚ) := by
      rcases paid_cases 700 r.second with h | h
      · exact Or.inl h
      · right; rw [h]; norm_num
    obtain ⟨s1, s2, s3, _, s5, s6⟩ :=
      step_spec 600 (r.second.paid 700) r.first r.db (by norm_num) (by norm_num) hother h1 hdb
    refine ⟨⟨s1, h2, s2, ?_, ?_⟩, fun _ => ⟨s3, rfl⟩, fun h => Bool.noConfusion h⟩
    · intro hrej
      rcases s6 hrej with h | h
      · exact hr1 h
      · rcases paid_cases 700 r.second with h0 | h0
        · exact absurd h0 h
        · exact h0
    · intro hrej
      exact s5 (hr2 hrej)
  | true =>
    have hdb2 : r.db.clients =
        [Client.mk 1 "Jean Kouassi" none none (1000 - r.second.paid 700 - r.first.paid 600)
          7] := by
      rw [hdb]
      congr 2
      ring
    have hother : r.first.paid 600 = 0 ∨ 1000 - r.first.paid 600 < (700 : ℚ) := by
      rcases paid_cases 600 r.first with h | h
      · exact Or.inl h
      · right; rw [h]; norm_num
    obtain ⟨s1, s2, s3, _, s5, s6⟩ :=
      step_spec 700 (r.first.paid 600) r.second r.db (by norm_num) (by norm_num) hother h2 hdb2
    refine ⟨⟨h1, s1, ?_, ?_, ?_⟩, fun h => Bool.noConfusion h, fun _ => ⟨s3, rfl⟩⟩
    · show ((r.second.step r.db).2).clients = _
      rw [s2]
      congr 2
      show (1000 : ℚ) - ((r.second.step r.db).1).paid 700 - r.first.paid 600 =
        1000 - r.first.paid 600 - ((r.second.step r.db).1).paid 700
      ring
    · intro hrej
      exact s5 (hr1 hrej)
    · intro hrej
      rcases s6 hrej with h | h
      · exact hr2 h
      · rcases paid_cases 600 r.first with h0 | h0
        · exact absurd h0 h
        · exact h0

/-- Consistency holds at the end of every schedule, and a run that was picked `k` times is
at stage `k` at least (4 at most: it has answered). -/
theorem consistent_run (schedule : List Bool) :
    ∀ r : Race, r.consistent →
      (r.run schedule).consistent ∧
        min 4 (r.first.stage + schedule.count false) ≤ (r.run schedule).first.stage ∧
        min 4 (r.second.stage + schedule.count true) ≤ (r.run schedule).second.stage := by
  induction schedule with
  | nil =>
    intro r h
    exact ⟨h, by simp [Race.run], by simp [Race.run]⟩
  | cons pick rest ih =>
    intro r h
    obtain ⟨hc, hfalse, htrue⟩ := consistent_step r pick h
    obtain ⟨i1, i2, i3⟩ := ih (r.step pick) hc
    refine ⟨i1, ?_, ?_⟩
    · show min 4 (r.first.stage + (pick :: rest).count false) ≤
        ((r.step pick).run rest).first.stage
      cases pick with
      | false =>
        obtain ⟨hs, _⟩ := hfalse rfl
        simp only [List.count_cons_self]
        rcases hs with hs | hs
        · rw [hs] at i2
          omega
        · rw [hs] at i2
          omega
      | true =>
        obtain ⟨_, hs⟩ := htrue rfl
        rw [hs] at i2
        have hcnt : (true :: rest).count false = rest.count false := by simp
        rw [hcnt]
        exact i2
    · show min 4 (r.second.stage + (pick :: rest).count true) ≤
        ((r.step pick).run rest).second.stage
      cases pick with
      | true =>
        obtain ⟨hs, _⟩ := htrue rfl
        simp only [List.count_cons_self]
        rcases hs with hs | hs
        · rw [hs] at i3
          omega
        · rw [hs] at i3
          omega
      | false =>
        obtain ⟨_, hs⟩ := hfalse rfl
        rw [hs] at i3
        have hcnt : (false :: rest).count true = rest.count true := by simp
        rw [hcnt]
        exact i3

/-- A request that starts when the balance is below its amount is rejected, and nothing is
written. -/
theorem ready_rejected (a bal : ℚ) (db : Db) (ha : 0 < a) (hlt : bal < a)
    (hdb : db.clients = [Client.mk 1 "Jean Kouassi" none none bal 7]) :
    (PaiementRun.ready 7 (paymentOf a)).step db =
      (PaiementRun.finished (Response.plain 400 "Le montant dépasse le crédit du client"),
        db) := by
  have hg := montant_guard_numeric a
  have hq2 : ¬ a ≤ 0 := not_le.mpr ha
  have hf : clientFindFirst db 1 7 = some (Client.mk 1 "Jean Kouassi" none none bal 7) := by
    simp [clientFindFirst, hdb]
  simp [PaiementRun.step, paymentOf, hg, hq2, hf, parseFloat, JsNum.gt, hlt]

/-- Once a run has answered and the other has not started (or has been rejected), with the
balance below the amount `a` of the other, every further schedule leaves the answer and the
balance and can only reject the other. -/
theorem run_after_one_finished (a bal : ℚ) (ha : 0 < a) (hlt : bal < a)
    (rest : List Bool) :
    ∀ r : Race, r.db.clients = [Client.mk 1 "Jean Kouassi" none none bal 7] →
      ((r.first.stage = 4 ∧
          (r.second = PaiementRun.ready 7 (paymentOf a) ∨ r.second.status = some 400) →
        (r.run rest).first = r.first ∧
          ((r.run rest).second = PaiementRun.ready 7 (paymentOf a) ∨
            (r.run rest).second.status = some 400) ∧
          (r.run rest).db.clients = [Client.mk 1 "Jean Kouassi" none none bal 7]) ∧
      (r.second.stage = 4 ∧
          (r.first = PaiementRun.ready 7 (paymentOf a) ∨ r.first.status = some 400) →
        (r.run rest).second = r.second ∧
          ((r.run rest).first = PaiementRun.ready 7 (paymentOf a) ∨
            (r.run rest).first.status = some 400) ∧
          (r.run rest).db.clients = [Client.mk 1 "Jean Kouassi" none none bal 7])) := by
  have hdone : ∀ (t : PaiementRun) (db : Db), t.stage = 4 → t.step db = (t, db) := by
    intro t db h
    cases t with
    | finished r => rfl
    | ready _ _ => simp [PaiementRun.stage] at h
    | checked _ _ => simp [PaiementRun.stage] at h
    | inserted _ _ _ => simp [PaiementRun.stage] at h
    | decremented _ _ => simp [PaiementRun.stage] at h
  have hrej : ∀ (t : PaiementRun) (db : Db),
      db.clients = [Client.mk 1 "Jean Kouassi" none none bal 7] →
      (t = PaiementRun.ready 7 (paymentOf a) ∨ t.status = some 400) →
      (t.step db).2 = db ∧ (t.step db).1.status = some 400 := by
    intro t db hdb h
    rcases h with h | h
    · rw [h, ready_rejected a bal db ha hlt hdb]
      exact ⟨rfl, rfl⟩
    · cases t with
      | finished r => exact ⟨rfl, h⟩
      | ready _ _ => cases h
      | checked _ _ => cases h
      | inserted _ _ _ => cases h
      | decremented _ _ => cases h
  induction rest with
  | nil =>
    intro r hdb
    exact ⟨fun h => ⟨rfl, h.2, hdb⟩, fun h => ⟨rfl, h.2, hdb⟩⟩
  | cons pick rest ih =>
    intro r hdb
    constructor
    · rintro ⟨h4, hsec⟩
      cases pick with
      | false =>
        have hstep : r.step false = r := by
          simp [Race.step, hdone r.first r.db h4]
        have hrun : r.run (false :: rest) = r.run rest := by
          show (r.step false).run rest = _
          rw [hstep]
        rw [hrun]
        exact (ih r hdb).1 ⟨h4, hsec⟩
      | true =>
        obtain ⟨hd, hs⟩ := hrej r.second r.db hdb hsec
        have hdb1 : (r.step true).db.clients =
            [Client.mk 1 "Jean Kouassi" none none bal 7] := by
          show ((r.second.step r.db).2).clients = _
          rw [hd, hdb]
        exact (ih (r.step true) hdb1).1 ⟨h4, Or.inr hs⟩
    · rintro ⟨h4, hfst⟩
      cases pick with
      | true =>
        have hstep : r.step true = r := by
          simp [Race.step, hdone r.second r.db h4]
        have hrun : r.run (true :: rest) = r.run rest := by
          show (r.step true).run rest = _
          rw [hstep]
        rw [hrun]
        exact (ih r hdb).2 ⟨h4, hfst⟩
      | false =>
        obtain ⟨hd, hs⟩ := hrej r.first r.db hdb hfst
        have hdb1 : (r.step false).db.clients =
            [Client.mk 1 "Jean Kouassi" none none bal 7] := by
          show ((r.first.step r.db).2).clients = _
          rw [hd, hdb]
        exact (ih (r.step false) hdb1).2 ⟨h4, Or.inr hs⟩

/-- The request of 600 run to its end before the other starts. -/
theorem raceStart_first_alone :
    raceStart.run [false, false, false, false] =
      Race.mk
        (PaiementRun.finished (Response.mk 201 "Paiement enregistré" none
          (some (Paiement.mk 1 600 none 1))
          (some (Client.mk 1 "Jean Kouassi" none none 400 7))))
        (PaiementRun.ready 7 (paymentOf 700))
        (Db.mk [Client.mk 1 "Jean Kouassi" none none 400 7] [] [Paiement.mk 1 600 none 1]) := by
  norm_num [Race.run, Race.step, raceStart, PaiementRun.step, paymentOf, JsVal.truthy,
    JsVal.leZero, JsVal.toNumber, JsNum.le, JsNum.gt, JsNum.neg, parseFloat, clientFindFirst,
    clientFindUnique, paiementCreate, clientDecrement, clientIncrement, bumpCredit,
    Client.addCredit, freshId, orNull]

/-- The request of 700 run to its end before the other starts. -/
theorem raceStart_second_alone :
    raceStart.run [true, true, true, true] =
      Race.mk (PaiementRun.ready 7 (paymentOf 600))
        (PaiementRun.finished (Response.mk 201 "Paiement enregistré" none
          (some (Paiement.mk 1 700 none 1))
          (some (Client.mk 1 "Jean Kouassi" none none 300 7))))
        (Db.mk [Client.mk 1 "Jean Kouassi" none none 300 7] [] [Paiement.mk 1 700 none 1]) := by
  norm_num [Race.run, Race.step, raceStart, PaiementRun.step, paymentOf, JsVal.truthy,
    JsVal.leZero, JsVal.toNumber, JsNum.le, JsNum.gt, JsNum.neg, parseFloat, clientFindFirst,
    clientFindUnique, paiementCreate, clientDecrement, clientIncrement, bumpCredit,
    Client.addCredit, freshId, orNull]

/-- Counterexample to C29: in the schedule where both requests pass the balance check
before either payment is written (the first run checks, the second run checks, the first
run runs to its end, then the second), both requests are answered 201 and the balance ends
at -300. -/
theorem both_payments_succeed :
    (raceStart.run [false, true, false, false, false, true, true, true]).first.status =
        some 201 ∧
      (raceStart.run [false, true, false, false, false, true, true, true]).second.status =
        some 201 ∧
      (raceStart.run [false, true, false, false, false, true, true, true]).db.totalCredit 1 =
        some (-300) ∧
      (raceStart.run [false, true, false, false, false, true, true, true]).db.paiements =
        [Paiement.mk 1 600 none 1, Paiement.mk 2 700 none 1] := by
  have h : raceStart.run [false, true, false, false, false, true, true, true] =
      Race.mk
        (PaiementRun.finished (Response.mk 201 "Paiement enregistré" none
          (some (Paiement.mk 1 600 none 1))
          (some (Client.mk 1 "Jean Kouassi" none none 400 7))))
        (PaiementRun.finished (Response.mk 201 "Paiement enregistré" none
          (some (Paiement.mk 2 700 none 1))
          (some (Client.mk 1 "Jean Kouassi" none none (-300) 7))))
        (Db.mk [Client.mk 1 "Jean Kouassi" none none (-300) 7] []
          [Paiement.mk 1 600 none 1, Paiement.mk 2 700 none 1]) := by
    norm_num [Race.run, Race.step, raceStart, PaiementRun.step, paymentOf, JsVal.truthy,
      JsVal.leZero, JsVal.toNumber, JsNum.le, JsNum.gt, JsNum.neg, parseFloat, clientFindFirst,
      clientFindUnique, paiementCreate, clientDecrement, clientIncrement, bumpCredit,
      Client.addCredit, freshId, orNull]
  rw [h]
  refine ⟨rfl, rfl, ?_, rfl⟩
  simp [Db.totalCredit]

/-- C29, amended: `createPaiement` reads the balance and writes the payment in separate
storage calls, and two requests may interleave between them.  For the requests of 600 and
700 against a balance of 1000, under every schedule: once each request has been given its
four steps both have answered; when both have answered, either exactly one was accepted
(201) and the other rejected as an overpayment (400), with final balance 400 or 300, or
both were accepted and the final balance is -300; both are never rejected.  When one
request runs to its end before the other starts, it is accepted and the other can only
be rejected. -/
theorem race_outcomes (schedule : List Bool) :
    (4 ≤ schedule.count false → 4 ≤ schedule.count true →
      ∃ s1 s2, (raceStart.run schedule).first.status = some s1 ∧
        (raceStart.run schedule).second.status = some s2) ∧
    (∀ s1 s2, (raceStart.run schedule).first.status = some s1 →
      (raceStart.run schedule).second.status = some s2 →
      (s1 = 201 ∧ s2 = 400 ∧ (raceStart.run schedule).db.totalCredit 1 = some 400) ∨
        (s1 = 400 ∧ s2 = 201 ∧ (raceStart.run schedule).db.totalCredit 1 = some 300) ∨
        (s1 = 201 ∧ s2 = 201 ∧ (raceStart.run schedule).db.totalCredit 1 = some (-300))) ∧
    (∀ rest, schedule = false :: false :: false :: false :: rest →
      (raceStart.run schedule).first.status = some 201 ∧
        (raceStart.run schedule).db.totalCredit 1 = some 400 ∧
        ∀ s2, (raceStart.run schedule).second.status = some s2 → s2 = 400) ∧
    (∀ rest, schedule = true :: true :: true :: true :: rest →
      (raceStart.run schedule).second.status = some 201 ∧
        (raceStart.run schedule).db.totalCredit 1 = some 300 ∧
        ∀ s1, (raceStart.run schedule).first.status = some s1 → s1 = 400) := by
  obtain ⟨hc, hst1, hst2⟩ := consistent_run schedule raceStart raceStart_consistent
  obtain ⟨h1, h2, hdb, hr1, hr2⟩ := hc
  have hbal : (raceStart.run schedule).db.totalCredit 1 =
      some (1000 - (raceStart.run schedule).first.paid 600 -
        (raceStart.run schedule).second.paid 700) := by
    simp [Db.totalCredit, hdb]
  refine ⟨?_, ?_, ?_, ?_⟩
  · intro hf ht
    have e1 : raceStart.first.stage = 0 := rfl
    have e2 : raceStart.second.stage = 0 := rfl
    rw [e1] at hst1
    rw [e2] at hst2
    obtain ⟨s1, hs1⟩ := status_of_stage (raceStart.run schedule).first (by omega)
    obtain ⟨s2, hs2⟩ := status_of_stage (raceStart.run schedule).second (by omega)
    exact ⟨s1, s2, hs1, hs2⟩
  · intro s1 s2 hs1 hs2
    have p1 := paid_of_status 600 _ s1 hs1
    have p2 := paid_of_status 700 _ s2 hs2
    rcases status_of_about 600 _ s1 h1 hs1 with e1 | e1 <;>
      rcases status_of_about 700 _ s2 h2 hs2 with e2 | e2
    · right; right
      refine ⟨e1, e2, ?_⟩
      rw [hbal, p1, p2, e1, e2]
      norm_num
    · left
      refine ⟨e1, e2, ?_⟩
      rw [hbal, p1, p2, e1, e2]
      norm_num
    · right; left
      refine ⟨e1, e2, ?_⟩
      rw [hbal, p1, p2, e1, e2]
      norm_num
    · exfalso
      have h700 := hr1 (by rw [hs1, e1])
      rw [p2, e2] at h700
      norm_num at h700
  · intro rest hrest
    have hrun : raceStart.run schedule = (raceStart.run [false, false, false, false]).run rest := by
      rw [hrest]
      rfl
    have ha := raceStart_first_alone
    obtain ⟨k1, k2, k3⟩ := (run_after_one_finished 700 400 (by norm_num) (by norm_num) rest
      (raceStart.run [false, false, false, false]) (by rw [ha])).1
      ⟨by rw [ha]; rfl, Or.inl (by rw [ha])⟩
    rw [hrun]
    refine ⟨by rw [k1, ha]; rfl, by simp [Db.totalCredit, k3], ?_⟩
    intro s2 hs2
    rcases k2 with k | k
    · rw [k] at hs2
      cases hs2
    · rw [k] at hs2
      exact (Option.some.inj hs2).symm
  · intro rest hrest
    have hrun : raceStart.run schedule = (raceStart.run [true, true, true, true]).run rest := by
      rw [hrest]
      rfl
    have ha := raceStart_second_alone
    obtain ⟨k1, k2, k3⟩ := (run_after_one_finished 600 300 (by norm_num) (by norm_num) rest
      (raceStart.run [true, true, true, true]) (by rw [ha])).2
      ⟨by rw [ha]; rfl, Or.inl (by rw [ha])⟩
    rw [hrun]
    refine ⟨by rw [k1, ha]; rfl, by simp [Db.totalCredit, k3], ?_⟩
    intro s1 hs1
    rcases k2 with k | k
    · rw [k] at hs1
      cases hs1
    · rw [k] at hs1
      exact (Option.some.inj hs1).symm

/-- Witness of C29 (amended): the schedule that runs the request of 600 to its end and then
the request of 700.  The first is accepted, the second is rejected and the balance ends at
400. -/
theorem race_outcomes_witness :
    (raceStart.run [false, false, false, false, true, true, true, true]).first.status =
        some 201 ∧
      (raceStart.run [false, false, false, false, true, true, true, true]).db.totalCredit 1 =
        some 400 ∧
      ∃ s1 s2,
        (raceStart.run [false, false, false, false, true, true, true, true]).first.status =
          some s1 ∧
        (raceStart.run [false, false, false, false, true, true, true, true]).second.status =
          some s2 :=
  ⟨((race_outcomes [false, false, false, false, true, true, true, true]).2.2.1
      [true, true, true, true] rfl).1,
   ((race_outcomes [false, false, false, false, true, true, true, true]).2.2.1
      [true, true, true, true] rfl).2.1,
   (race_outcomes [false, false, false, false, true, true, true, true]).1 (by decide)
      (by decide)⟩

/-! ## What every access decision satisfies -/

/-- A positive time left rounds up to at least one unit. -/
theorem one_le_ceilDiv (msLeft : Int) (unit : Nat) (hm : 0 < msLeft) (hu : 0 < unit) :
    1 ≤ ceilDiv msLeft unit := by
  unfold ceilDiv
  have hneg : -msLeft / (unit : Int) < 0 :=
    Int.ediv_neg' (by omega) (by exact_mod_cast hu)
  omega

/-- C30: `checkAccess` always returns a decision.  When the decision grants access, the
stored row of the account has status `trial` or `active`, the returned status is that
status, `now` is strictly before the returned expiresAt, the remaining time (hoursLeft for
a trial, daysLeft for an active subscription) is an integer ≥ 1, and the table is returned
unchanged.  When the decision denies access, it carries a reason and no expiresAt. -/
theorem checkAccess_decision_invariants (subs : Subscriptions) (now : Int) (userId : UserId) :
    ∃ a subs1, checkAccess subs now userId = (Except.ok a, subs1) ∧
      (a.hasAccess = true →
        ∃ s, subscriptionFindUnique subs userId = some s ∧
          (s.status = "trial" ∨ s.status = "active") ∧
          a.status = some s.status ∧
          (∃ e, a.expiresAt = some e ∧ now < e) ∧
          (s.status = "trial" → ∃ h, a.hoursLeft = some h ∧ 1 ≤ h) ∧
          (s.status = "active" → ∃ d, a.daysLeft = some d ∧ 1 ≤ d) ∧
          subs1 = subs) ∧
      (a.hasAccess = false → a.reason.isSome = true ∧ a.expiresAt = none) := by
  cases hf : subscriptionFindUnique subs userId with
  | none =>
    exact ⟨_, _, checkAccess_none_eq subs now userId hf,
      fun h => absurd h Bool.false_ne_true, fun _ => ⟨rfl, rfl⟩⟩
  | some s =>
    by_cases ht : s.status = "trial"
    · by_cases hn : now < s.trialEndDate
      · refine ⟨_, _, checkAccess_trial_eq subs now userId s hf ht hn, ?_,
          fun h => absurd h.symm Bool.false_ne_true⟩
        intro _
        refine ⟨s, rfl, Or.inl ht, by rw [ht], ⟨_, rfl, hn⟩, fun _ => ⟨_, rfl, ?_⟩, ?_, rfl⟩
        · exact one_le_ceilDiv _ _ (by omega) (by decide)
        · intro ha
          rw [ht] at ha
          exact absurd ha (by decide)
      · exact ⟨_, _, checkAccess_trial_expired_eq subs now userId s hf ht (not_lt.mp hn),
          fun h => absurd h Bool.false_ne_true, fun _ => ⟨rfl, rfl⟩⟩
    · by_cases ha : s.status = "active"
      · by_cases hn : now < dateOf s.currentPeriodEnd
        · refine ⟨_, _, checkAccess_active_eq subs now userId s hf ha hn, ?_,
            fun h => absurd h.symm Bool.false_ne_true⟩
          intro _
          refine ⟨s, rfl, Or.inr ha, by rw [ha], ⟨_, rfl, hn⟩, fun h => absurd h ht,
            fun _ => ⟨_, rfl, ?_⟩, rfl⟩
          exact one_le_ceilDiv _ _ (by omega) (by decide)
        · exact ⟨_, _, checkAccess_active_expired_eq subs now userId s hf ha (not_lt.mp hn),
            fun h => absurd h Bool.false_ne_true, fun _ => ⟨rfl, rfl⟩⟩
      · exact ⟨_, _, checkAccess_other_eq subs now userId s hf ht ha,
          fun h => absurd h Bool.false_ne_true, fun _ => ⟨rfl, rfl⟩⟩

/-- Witness of C30: one hour into the trial `trialSub` the decision grants access; the
stored row is in status `trial`, the remaining time is at least one hour and the table is
unchanged. -/
theorem checkAccess_decision_invariants_witness :
    ∃ a, checkAccess trialSubs 1700003600000 7 = (Except.ok a, trialSubs) ∧
      a.hasAccess = true ∧ a.status = some "trial" ∧
      (∃ e, a.expiresAt = some e ∧ 1700003600000 < e) ∧
      ∃ h, a.hoursLeft = some h ∧ 1 ≤ h := by
  obtain ⟨a, subs1, heq, hgrant, _⟩ := checkAccess_decision_invariants trialSubs 1700003600000 7
  have hc := checkAccess_trial_eq trialSubs 1700003600000 7 trialSub rfl rfl (by decide)
  have ha : a.hasAccess = true := by
    rw [hc] at heq
    rw [← (Except.ok.inj (congrArg Prod.fst heq))]
  obtain ⟨s, hf, _, hstatus, hexp, hhours, _, hsubs⟩ := hgrant ha
  have hs : s = trialSub := (Option.some.inj hf).symm
  rw [hs] at hstatus hhours
  rw [hsubs] at heq
  exact ⟨a, heq, ha, hstatus, hexp, hhours rfl⟩

end Commerce
